import Mathlib

/-!
# NeonPulse: the per-frame update loop and its geometry helpers

A shallow embedding of `src/NeonPulse/src` (utils/utils.cpp, entities/entities.cpp and
the main loop of main.cpp).  C++ `float` values are modelled as exact rationals, `int`
as `Int`, `bool` as `Bool`, `std::vector` as `List`.  Where the rounding of `float`
arithmetic changes the outcome (`RectsIntersect` at large coordinates, the speed timer)
the operations are modelled a second time in binary32, see `f32`.  The C library functions
(`sinf`, `cosf`, `expf`, `fmodf`), the constant `PI`, and raylib's `GetRandomValue`
and `Fade` are not part of the repository; they are passed in as an `Extern` record.
-/

namespace NeonPulse

/-! ## Data model (raylib.h value types and entities/entities.h) -/

/-- The raylib `Rectangle`: top-left corner and size; the y axis points down. -/
structure Rectangle where
  x : ℚ
  y : ℚ
  width : ℚ
  height : ℚ
deriving DecidableEq

/-- The raylib `Vector2`. -/
structure Vector2 where
  x : ℚ
  y : ℚ
deriving DecidableEq

/-- The raylib `Color` (four bytes). -/
structure Color where
  r : Nat
  g : Nat
  b : Nat
  a : Nat
deriving DecidableEq

/-- The `MovingPlatform` record of entities.h. -/
structure MovingPlatform where
  base : Rectangle
  amplitude : ℚ
  speed : ℚ
  vertical : Bool
  color : Color
  phase : ℚ

/-- The `Spike` record of entities.h. -/
structure Spike where
  base : Rectangle
  up : Bool
  color : Color

/-- The `Particle` record of entities.h. -/
structure Particle where
  pos : Vector2
  vel : Vector2
  life : ℚ
  size : ℚ
  color : Color
deriving DecidableEq

/-- The `JumpPad` record of entities.h. -/
structure JumpPad where
  rect : Rectangle
  strength : ℚ
  color : Color

/-- The `SpeedPad` record of entities.h. -/
structure SpeedPad where
  rect : Rectangle
  multiplier : ℚ
  duration : ℚ
  color : Color

/-- The `GravityPad` record local to `main` (main.cpp:86-90). -/
structure GravityPad where
  rect : Rectangle
  color : Color
  flipsUp : Bool

/-- Library functions and constants the program calls but does not define. -/
structure Extern where
  PI : ℚ
  sinf : ℚ → ℚ
  cosf : ℚ → ℚ
  expf : ℚ → ℚ
  fmodf : ℚ → ℚ → ℚ
  /-- The value returned by the `n`-th call of `GetRandomValue(lo, hi)`. -/
  rand : Nat → Int → Int → Int
  Fade : Color → ℚ → Color

/-! ## utils/utils.cpp -/

/-- utils.cpp:9-12. -/
def RectsIntersect (a b : Rectangle) : Bool :=
  !(decide (a.x + a.width ≤ b.x) || decide (b.x + b.width ≤ a.x) ||
    decide (a.y + a.height ≤ b.y) || decide (b.y + b.height ≤ a.y))

/-- utils.cpp:14-18. -/
def Clamp1 (value min max : ℚ) : ℚ :=
  if value < min then min
  else if value > max then max
  else value

/-- Area of the overlap of two rectangles (zero when they are disjoint or only touch);
the specification-side notion `RectsIntersect` is compared with. -/
def overlapArea (a b : Rectangle) : ℚ :=
  max 0 (min (a.x + a.width) (b.x + b.width) - max a.x b.x) *
  max 0 (min (a.y + a.height) (b.y + b.height) - max a.y b.y)

/-- entities.cpp:10-16, `MovingPlatform::GetRect`. -/
def MovingPlatform.GetRect (X : Extern) (p : MovingPlatform) (t : ℚ) : Rectangle :=
  let offset := p.amplitude * X.sinf (p.phase + t * p.speed * 2 * X.PI)
  if p.vertical then { p.base with y := p.base.y + offset }
  else { p.base with x := p.base.x + offset }

/-- The `baseDanger` rectangle built by `CollideSpike` (entities.cpp:25-27). -/
def spikeBaseDanger (s : Spike) : Rectangle :=
  let baseDanger : Rectangle := { s.base with height := s.base.height * (1 / 2) }
  if !s.up then { baseDanger with y := s.base.y + s.base.height * (1 / 2) }
  else baseDanger

/-- The `tipBox` rectangle built by `CollideSpike` (entities.cpp:23-24, 29-33). -/
def spikeTipBox (s : Spike) : Rectangle :=
  let tipHeight := s.base.height * (72 / 100)
  let tipWidth := s.base.width * (32 / 100)
  { width := tipWidth
    height := tipHeight
    x := s.base.x + (s.base.width - tipWidth) * (1 / 2)
    y := if s.up then s.base.y - tipHeight + s.base.height else s.base.y }

/-- entities.cpp:22-36. -/
def CollideSpike (player : Rectangle) (s : Spike) : Bool :=
  RectsIntersect player (spikeBaseDanger s) || RectsIntersect player (spikeTipBox s)

/-- Where `DrawSpike` (entities.cpp:43-60) puts the apex of the triangle: at `base.y`
for `up`, at `base.y + base.height` otherwise (x is the centre of the base). -/
def spikeApexY (s : Spike) : ℚ :=
  if s.up then s.base.y else s.base.y + s.base.height

/-- Where `DrawSpike` puts the two base vertices of the triangle (the mounted edge). -/
def spikeMountY (s : Spike) : ℚ :=
  if s.up then s.base.y + s.base.height else s.base.y

/-! ## main.cpp: constants and session state -/

/-- main.cpp:22. -/
def BPM : ℚ := 140

/-- main.cpp:23. -/
def secondsPerBeat : ℚ := 60 / BPM

/-- main.cpp:29. -/
def baseRunSpeedDefault : ℚ := 420

/-- main.cpp:37. -/
def gravityBase : ℚ := 2300

/-- main.cpp:38, base jump velocity; multiplied by `gravityDir` for the effective jump. -/
def jumpVelBase : ℚ := -760

/-- main.cpp:41, seconds. -/
def gravityFlipCooldown : ℚ := 35 / 100

/-- main.cpp:52. -/
def defaultFloorY : ℚ := 560

/-- main.cpp:53. -/
def ceilingYTop : ℚ := 80

/-- main.cpp:58. -/
def neonYellow : Color := ⟨255, 240, 0, 255⟩

/-- main.cpp:59. -/
def neonGreen : Color := ⟨50, 255, 160, 255⟩

/-- main.cpp:61. -/
def neonPurple : Color := ⟨170, 60, 255, 255⟩

/-- The level data built once before the main loop (main.cpp:79-185). -/
structure Level where
  platforms : List MovingPlatform
  spikes : List Spike
  jumpPads : List JumpPad
  speedPads : List SpeedPad
  gravityPads : List GravityPad
  finishLine : Rectangle

/-- What the input and clock collaborators report in one frame. -/
structure Input where
  /-- The value of `GetFrameTime()`. -/
  dt : ℚ
  /-- The value of `IsKeyPressed(KEY_SPACE) || IsKeyPressed(KEY_UP)`. -/
  jumpPressed : Bool
  /-- The value of `IsKeyDown(KEY_SPACE) || IsKeyDown(KEY_UP)`. -/
  jumpDown : Bool
  /-- The value of `IsKeyPressed(KEY_R)`. -/
  restartPressed : Bool

/-- The mutable local variables of `main` (main.cpp:24-49, 188), plus the number of
`GetRandomValue` calls made so far. -/
structure State where
  songTime : ℚ
  player : Rectangle
  playerVel : Vector2
  baseRunSpeed : ℚ
  runSpeed : ℚ
  grounded : Bool
  alive : Bool
  deathShake : ℚ
  holdJumpActive : Bool
  prevGrounded : Bool
  gravityDir : Int
  gravityFlipTimer : ℚ
  levelFinished : Bool
  speedTimer : ℚ
  speedMultiplierActive : ℚ
  camX : ℚ
  particles : List Particle
  rngCalls : Nat

/-- The values the variables are initialised with (main.cpp:24-49, 188). -/
def State.init : State :=
  { songTime := 0
    player := ⟨100, 520, 36, 36⟩
    playerVel := ⟨0, 0⟩
    baseRunSpeed := baseRunSpeedDefault
    runSpeed := baseRunSpeedDefault
    grounded := false
    alive := true
    deathShake := 0
    holdJumpActive := false
    prevGrounded := false
    gravityDir := 1
    gravityFlipTimer := 0
    levelFinished := false
    speedTimer := 0
    speedMultiplierActive := 1
    camX := 0
    particles := []
    rngCalls := 0 }

/-! ## main.cpp: particle bursts -/

/-- The parameters in which the particle-spawning loops of main.cpp differ. -/
structure Burst where
  count : Nat
  angLo : Int
  angHi : Int
  spLo : Int
  spHi : Int
  /-- Whether the y velocity is `sinf(ang) * sp * -1.0f` rather than `sinf(ang) * sp`. -/
  negateY : Bool
  lifeBase : ℚ
  lifeHi : Int
  sizeLo : Int
  sizeHi : Int
  color : Color

/-- One `particles.push_back({...})` of a spawning loop; `c` is the number of
`GetRandomValue` calls made before it (the four draws are made left to right). -/
def mkParticle (X : Extern) (b : Burst) (pos : Vector2) (c : Nat) : Particle :=
  let ang : ℚ := (X.rand c b.angLo b.angHi : ℚ) * (X.PI / 180)
  let sp : ℚ := (X.rand (c + 1) b.spLo b.spHi : ℚ)
  { pos := pos
    vel := ⟨X.cosf ang * sp, if b.negateY then X.sinf ang * sp * (-1) else X.sinf ang * sp⟩
    life := b.lifeBase + (X.rand (c + 2) 0 b.lifeHi : ℚ) * (1 / 100)
    size := (X.rand (c + 3) b.sizeLo b.sizeHi : ℚ)
    color := b.color }

/-- A whole spawning loop: `b.count` particles appended at `pos`. -/
def spawn (X : Extern) (b : Burst) (pos : Vector2) (s : State) : State :=
  { s with
    particles := s.particles ++
      (List.range b.count).map (fun k => mkParticle X b pos (s.rngCalls + 4 * k))
    rngCalls := s.rngCalls + 4 * b.count }

/-- Bottom centre of the player rectangle, where jump particles start. -/
def feetPos (s : State) : Vector2 :=
  ⟨s.player.x + s.player.width * (1 / 2), s.player.y + s.player.height⟩

/-- Centre of the player rectangle. -/
def centrePos (s : State) : Vector2 :=
  ⟨s.player.x + s.player.width * (1 / 2), s.player.y + s.player.height * (1 / 2)⟩

/-- main.cpp:249-260 and 499-509, jump particles. -/
def jumpBurst (X : Extern) : Burst :=
  { count := 10, angLo := -100, angHi := -80, spLo := 160, spHi := 320, negateY := true
    lifeBase := 45 / 100, lifeHi := 20, sizeLo := 2, sizeHi := 6
    color := X.Fade neonYellow (9 / 10) }

/-- main.cpp:398-402, jump pad particles. -/
def jumpPadBurst (X : Extern) (jp : JumpPad) : Burst :=
  { count := 16, angLo := -110, angHi := -70, spLo := 220, spHi := 420, negateY := true
    lifeBase := 1 / 2, lifeHi := 20, sizeLo := 3, sizeHi := 7
    color := X.Fade jp.color (95 / 100) }

/-- main.cpp:413-417, speed pad particles. -/
def speedPadBurst (X : Extern) (sp : SpeedPad) : Burst :=
  { count := 12, angLo := -20, angHi := 20, spLo := 80, spHi := 260, negateY := false
    lifeBase := 35 / 100, lifeHi := 10, sizeLo := 2, sizeHi := 4
    color := X.Fade sp.color (9 / 10) }

/-- main.cpp:447-451, gravity flip particles. -/
def gravityPadBurst (X : Extern) (gp : GravityPad) : Burst :=
  { count := 20, angLo := 0, angHi := 360, spLo := 120, spHi := 420, negateY := false
    lifeBase := 1 / 2, lifeHi := 20, sizeLo := 2, sizeHi := 6
    color := X.Fade gp.color (9 / 10) }

/-- main.cpp:464-474, victory particles. -/
def finishBurst (X : Extern) : Burst :=
  { count := 60, angLo := 0, angHi := 360, spLo := 120, spHi := 480, negateY := false
    lifeBase := 8 / 10, lifeHi := 30, sizeLo := 3, sizeHi := 7
    color := X.Fade neonGreen (9 / 10) }

/-! ## main.cpp: the stages of one iteration of the main loop -/

/-- main.cpp:210, `songTime += dt`. -/
def clockStage (dt : ℚ) (s : State) : State :=
  { s with songTime := s.songTime + dt }

/-- Whether the restart block of main.cpp:213 is entered. -/
def restartFires (i : Input) (s : State) : Bool :=
  (!s.alive && i.restartPressed) || (s.levelFinished && i.restartPressed)

/-- main.cpp:212-236. -/
def restartStage (i : Input) (s : State) : State :=
  if restartFires i s then
    { s with
      player := ⟨100, 520, 36, 36⟩
      playerVel := ⟨0, 0⟩
      grounded := false
      alive := true
      camX := 0
      songTime := 0
      deathShake := 0
      particles := []
      runSpeed := baseRunSpeedDefault
      baseRunSpeed := baseRunSpeedDefault
      speedTimer := 0
      speedMultiplierActive := 1
      holdJumpActive := false
      prevGrounded := false
      gravityDir := 1
      gravityFlipTimer := 0
      levelFinished := false }
  else s

/-- The jump itself, main.cpp:245-260 (manual) and 495-509 (auto-jump): the two blocks
are the same statements. -/
def doJump (X : Extern) (s : State) : State :=
  spawn X (jumpBurst X) (feetPos s)
    { s with
      playerVel := { s.playerVel with y := jumpVelBase * (s.gravityDir : ℚ) }
      grounded := false }

/-- main.cpp:238-262. -/
def jumpInputStage (X : Extern) (i : Input) (s : State) : State :=
  if s.alive then
    if i.jumpPressed && s.grounded then doJump X { s with holdJumpActive := i.jumpDown }
    else { s with holdJumpActive := i.jumpDown }
  else s

/-- main.cpp:264-279. -/
def speedTimerStage (dt : ℚ) (s : State) : State :=
  if s.speedTimer ≤ 0 then
    { s with speedMultiplierActive := 1, runSpeed := s.baseRunSpeed }
  else if s.speedTimer - dt ≤ 0 then
    { s with speedTimer := 0, speedMultiplierActive := 1, runSpeed := s.baseRunSpeed }
  else
    { s with
      speedTimer := s.speedTimer - dt
      runSpeed := s.baseRunSpeed * s.speedMultiplierActive }

/-- main.cpp:281-282. -/
def gravityTimerStage (dt : ℚ) (s : State) : State :=
  if s.gravityFlipTimer > 0 then
    { s with gravityFlipTimer := max 0 (s.gravityFlipTimer - dt) }
  else s

/-- main.cpp:286-287. -/
def autoRun (s : State) : State :=
  if s.alive then { s with playerVel := { s.playerVel with x := s.runSpeed } }
  else { s with playerVel := { s.playerVel with x := 0 } }

/-- main.cpp:288. -/
def stopWhenFinished (s : State) : State :=
  if s.levelFinished then { s with playerVel := { s.playerVel with x := 0 } } else s

/-- main.cpp:285-288. -/
def horizontalStage (s : State) : State :=
  stopWhenFinished (autoRun s)

/-- main.cpp:291-292. -/
def gravityStage (dt : ℚ) (s : State) : State :=
  { s with
    playerVel :=
      { s.playerVel with y := s.playerVel.y + gravityBase * (s.gravityDir : ℚ) * dt } }

/-- main.cpp:295-299. -/
def integrateStage (dt : ℚ) (s : State) : State :=
  if s.alive then
    { s with
      player :=
        { s.player with
          x := s.player.x + s.playerVel.x * dt
          y := s.player.y + s.playerVel.y * dt } }
  else s

/-- main.cpp:305-309, normal gravity: standing on the floor line. -/
def landOnFloor (s : State) : State :=
  if s.player.y + s.player.height ≥ defaultFloorY then
    { s with
      player := { s.player with y := defaultFloorY - s.player.height }
      playerVel := { s.playerVel with y := 0 }
      grounded := true }
  else s

/-- main.cpp:310-313, normal gravity: bumping into the ceiling line. -/
def bumpCeiling (s : State) : State :=
  if s.player.y ≤ ceilingYTop then
    if s.playerVel.y < 0 then
      { s with
        player := { s.player with y := ceilingYTop }
        playerVel := { s.playerVel with y := 0 } }
    else { s with player := { s.player with y := ceilingYTop } }
  else s

/-- main.cpp:317-321, inverted gravity: standing on the ceiling line. -/
def landOnCeiling (s : State) : State :=
  if s.player.y ≤ ceilingYTop then
    { s with
      player := { s.player with y := ceilingYTop }
      playerVel := { s.playerVel with y := 0 }
      grounded := true }
  else s

/-- main.cpp:322-325, inverted gravity: bumping into the floor line. -/
def bumpFloor (s : State) : State :=
  if s.player.y + s.player.height ≥ defaultFloorY then
    if s.playerVel.y > 0 then
      { s with
        player := { s.player with y := defaultFloorY - s.player.height }
        playerVel := { s.playerVel with y := 0 } }
    else { s with player := { s.player with y := defaultFloorY - s.player.height } }
  else s

/-- main.cpp:301-326. -/
def floorCeilingStage (s : State) : State :=
  if s.gravityDir > 0 then bumpCeiling (landOnFloor { s with grounded := false })
  else bumpFloor (landOnCeiling { s with grounded := false })

/-- main.cpp:192-195. -/
def BeatPulse (X : Extern) (t : ℚ) : ℚ :=
  X.expf (-6 * X.fmodf t secondsPerBeat)

/-- main.cpp:329-330. -/
def tPhase (X : Extern) (s : State) : ℚ :=
  s.songTime + BeatPulse X s.songTime * (3 / 100)

/-- main.cpp:335, the player rectangle one step back along the velocity. -/
def prevPlayer (dt : ℚ) (s : State) : Rectangle :=
  ⟨s.player.x - s.playerVel.x * dt, s.player.y - s.playerVel.y * dt,
    s.player.width, s.player.height⟩

/-- main.cpp:338. -/
def fromTop (prev pr : Rectangle) : Bool :=
  prev.y + prev.height ≤ pr.y + 1

/-- main.cpp:339. -/
def fromBottom (prev pr : Rectangle) : Bool :=
  prev.y ≥ pr.y + pr.height - 1

/-- main.cpp:340. -/
def fromLeft (prev pr : Rectangle) : Bool :=
  prev.x + prev.width ≤ pr.x + 1

/-- main.cpp:341. -/
def fromRight (prev pr : Rectangle) : Bool :=
  prev.x ≥ pr.x + pr.width - 1

/-- main.cpp:349-353 and 372-376, the carry added when landing on a platform. -/
def carry (X : Extern) (dt t : ℚ) (p : MovingPlatform) (s : State) : State :=
  if !p.vertical then
    { s with
      player :=
        { s.player with
          x := s.player.x +
            X.cosf (p.phase + t * p.speed * 2 * X.PI) * p.amplitude * (p.speed * 2 * X.PI) *
              dt * (8 / 100) } }
  else s

/-- main.cpp:343-388, the resolution of the contact with a platform whose current
rectangle `pr` the player intersects. -/
def resolveContact (X : Extern) (dt t : ℚ) (p : MovingPlatform) (pr : Rectangle)
    (s : State) : State :=
  if s.gravityDir > 0 then
    if fromTop (prevPlayer dt s) pr then
      carry X dt t p
        { s with
          player := { s.player with y := pr.y - s.player.height }
          playerVel := { s.playerVel with y := 0 }
          grounded := true }
    else if fromBottom (prevPlayer dt s) pr then
      { s with
        player := { s.player with y := pr.y + pr.height }
        playerVel := { s.playerVel with y := 0 } }
    else if fromLeft (prevPlayer dt s) pr then
      { s with player := { s.player with x := pr.x - s.player.width } }
    else if fromRight (prevPlayer dt s) pr then
      { s with player := { s.player with x := pr.x + pr.width } }
    else s
  else
    if fromBottom (prevPlayer dt s) pr then
      carry X dt t p
        { s with
          player := { s.player with y := pr.y + pr.height }
          playerVel := { s.playerVel with y := 0 }
          grounded := true }
    else if fromTop (prevPlayer dt s) pr then
      { s with
        player := { s.player with y := pr.y - s.player.height }
        playerVel := { s.playerVel with y := 0 } }
    else if fromLeft (prevPlayer dt s) pr then
      { s with player := { s.player with x := pr.x - s.player.width } }
    else if fromRight (prevPlayer dt s) pr then
      { s with player := { s.player with x := pr.x + pr.width } }
    else s

/-- main.cpp:333, the culling test on the platform's current rectangle. -/
def culled (pr : Rectangle) (s : State) : Bool :=
  decide (pr.x + pr.width < s.player.x - 300) || decide (pr.x > s.player.x + 900)

/-- main.cpp:332-389, the body of the platform loop for one platform. -/
def resolvePlatform (X : Extern) (dt t : ℚ) (s : State) (p : MovingPlatform) : State :=
  if culled (p.GetRect X t) s then s
  else if RectsIntersect s.player (p.GetRect X t) then
    resolveContact X dt t p (p.GetRect X t) s
  else s

/-- main.cpp:328-390. -/
def platformStage (X : Extern) (L : Level) (dt : ℚ) (s : State) : State :=
  L.platforms.foldl (resolvePlatform X dt (tPhase X s)) s

/-- main.cpp:393-404, the body of the jump pad loop for one pad. -/
def jumpPadStep (X : Extern) (s : State) (jp : JumpPad) : State :=
  if RectsIntersect s.player jp.rect then
    spawn X (jumpPadBurst X jp) (feetPos s)
      { s with
        playerVel := { s.playerVel with y := jumpVelBase * (s.gravityDir : ℚ) * jp.strength }
        grounded := false }
  else s

/-- main.cpp:392-404. -/
def jumpPadStage (X : Extern) (L : Level) (s : State) : State :=
  L.jumpPads.foldl (jumpPadStep X) s

/-- main.cpp:407-419, the body of the speed pad loop for one pad. -/
def speedPadStep (X : Extern) (s : State) (sp : SpeedPad) : State :=
  if RectsIntersect s.player sp.rect then
    spawn X (speedPadBurst X sp) (centrePos s)
      { s with
        speedTimer := sp.duration
        speedMultiplierActive := sp.multiplier
        runSpeed := s.baseRunSpeed * sp.multiplier }
  else s

/-- main.cpp:406-419. -/
def speedPadStage (X : Extern) (L : Level) (s : State) : State :=
  L.speedPads.foldl (speedPadStep X) s

/-- main.cpp:424-429: negate the direction, arm the cooldown, zero the vertical
velocity. -/
def flipGravity (s : State) : State :=
  { s with
    gravityDir := -s.gravityDir
    gravityFlipTimer := gravityFlipCooldown
    playerVel := { s.playerVel with y := 0 } }

/-- main.cpp:433-444: put the player on the surface of the new direction. -/
def snapToSurface (s : State) : State :=
  if s.gravityDir < 0 then
    { s with
      player := { s.player with y := ceilingYTop + 1 / 2 }
      grounded := true
      prevGrounded := true }
  else
    { s with
      player := { s.player with y := defaultFloorY - s.player.height - 1 / 2 }
      grounded := true
      prevGrounded := true }

/-- main.cpp:447-451: the particle burst of a gravity flip, at the player centre. -/
def flipParticles (X : Extern) (gp : GravityPad) (s : State) : State :=
  spawn X (gravityPadBurst X gp) (centrePos s) s

/-- main.cpp:422-454, the body of the gravity pad loop for one pad. -/
def gravityPadStep (X : Extern) (s : State) (gp : GravityPad) : State :=
  if RectsIntersect s.player gp.rect && decide (s.gravityFlipTimer ≤ 0) then
    flipParticles X gp (snapToSurface (flipGravity s))
  else s

/-- main.cpp:421-454. -/
def gravityPadStage (X : Extern) (L : Level) (s : State) : State :=
  L.gravityPads.foldl (gravityPadStep X) s

/-- main.cpp:456-475. -/
def finishStage (X : Extern) (L : Level) (s : State) : State :=
  if s.alive && !s.levelFinished && RectsIntersect s.player L.finishLine then
    spawn X (finishBurst X) (centrePos s)
      { s with levelFinished := true, playerVel := ⟨0, 0⟩ }
  else s

/-- main.cpp:479-488, the spike loop with its `break`. -/
def spikeLoop (s : State) : List Spike → State
  | [] => s
  | sp :: rest =>
    if decide (s.player.x + s.player.width > sp.base.x - 20) &&
        decide (s.player.x < sp.base.x + sp.base.width + 20) then
      if CollideSpike s.player sp then { s with alive := false, deathShake := 8 }
      else spikeLoop s rest
    else spikeLoop s rest

/-- main.cpp:479-488. -/
def spikeStage (L : Level) (s : State) : State :=
  spikeLoop s L.spikes

/-- Whether the auto-jump of main.cpp:491-493 fires in state `s`. -/
def autoJumpFires (s : State) : Bool :=
  s.alive && (!s.prevGrounded && s.grounded && s.holdJumpActive)

/-- main.cpp:490-511. -/
def autoJumpStage (X : Extern) (s : State) : State :=
  if s.alive then
    if !s.prevGrounded && s.grounded && s.holdJumpActive then doJump X s
    else s
  else s

/-- main.cpp:513-514. -/
def cameraStage (s : State) : State :=
  { s with camX := s.player.x - 280 }

/-- main.cpp:517-528: the iterations of the particle loop for the indices below the
first argument, from the highest one down. -/
def particlesLoop (dt : ℚ) : Nat → List Particle → List Particle
  | 0, ps => ps
  | i + 1, ps =>
    match ps[i]? with
    | none => particlesLoop dt i ps
    | some p =>
      let life := p.life - dt
      if life ≤ 0 then
        let ps1 := ps.set i { p with life := life }
        let ps2 := ps1.set i (ps1.getLast?.getD { p with life := life })
        particlesLoop dt i ps2.dropLast
      else
        particlesLoop dt i
          (ps.set i
            { p with
              life := life
              pos := ⟨p.pos.x + p.vel.x * dt, p.pos.y + p.vel.y * dt⟩
              vel := ⟨p.vel.x * (1 - 3 * dt), p.vel.y + 500 * dt⟩ })

/-- main.cpp:516-528. -/
def particleStage (dt : ℚ) (s : State) : State :=
  { s with particles := particlesLoop dt s.particles.length s.particles }

/-- main.cpp:530. -/
def deathShakeStage (dt : ℚ) (s : State) : State :=
  if s.deathShake > 0 then { s with deathShake := max 0 (s.deathShake - 24 * dt) } else s

/-- The state effects of the render part of the loop: the two `GetRandomValue` calls of
main.cpp:536-537 and `prevGrounded = grounded` (main.cpp:670-671). -/
def endOfFrameStage (s : State) : State :=
  { s with rngCalls := s.rngCalls + 2, prevGrounded := s.grounded }

/-! ## main.cpp: one iteration of the main loop, cut at the stage boundaries -/

/-- State after main.cpp:236 (clock tick and restart). -/
def afterRestart (i : Input) (s : State) : State :=
  restartStage i (clockStage i.dt s)

/-- State after main.cpp:262 (jump input). -/
def afterJumpInput (X : Extern) (i : Input) (s : State) : State :=
  jumpInputStage X i (afterRestart i s)

/-- State after main.cpp:279 (speed timer). -/
def afterSpeedTimer (X : Extern) (i : Input) (s : State) : State :=
  speedTimerStage i.dt (afterJumpInput X i s)

/-- State after main.cpp:282 (both modifier timers). -/
def afterTimers (X : Extern) (i : Input) (s : State) : State :=
  gravityTimerStage i.dt (afterSpeedTimer X i s)

/-- State after main.cpp:299 (horizontal control, gravity, integration). -/
def afterMotion (X : Extern) (i : Input) (s : State) : State :=
  integrateStage i.dt (gravityStage i.dt (horizontalStage (afterTimers X i s)))

/-- State after main.cpp:390 (floor/ceiling and platform collisions). -/
def afterCollisions (X : Extern) (L : Level) (i : Input) (s : State) : State :=
  platformStage X L i.dt (floorCeilingStage (afterMotion X i s))

/-- State after main.cpp:404 (jump pads). -/
def afterJumpPads (X : Extern) (L : Level) (i : Input) (s : State) : State :=
  jumpPadStage X L (afterCollisions X L i s)

/-- State after main.cpp:419 (speed pads): the state the gravity pad loop starts in. -/
def afterSpeedPads (X : Extern) (L : Level) (i : Input) (s : State) : State :=
  speedPadStage X L (afterJumpPads X L i s)

/-- State after main.cpp:454 (gravity pads). -/
def afterGravityPads (X : Extern) (L : Level) (i : Input) (s : State) : State :=
  gravityPadStage X L (afterSpeedPads X L i s)

/-- State after main.cpp:475 (finish line). -/
def afterFinish (X : Extern) (L : Level) (i : Input) (s : State) : State :=
  finishStage X L (afterGravityPads X L i s)

/-- State after main.cpp:488 (spikes): the state the auto-jump test reads. -/
def afterSpikes (X : Extern) (L : Level) (i : Input) (s : State) : State :=
  spikeStage L (afterFinish X L i s)

/-- State after main.cpp:511 (auto-jump). -/
def afterAutoJump (X : Extern) (L : Level) (i : Input) (s : State) : State :=
  autoJumpStage X (afterSpikes X L i s)

/-- One full iteration of the main loop (main.cpp:208-673). -/
def frame (X : Extern) (L : Level) (i : Input) (s : State) : State :=
  endOfFrameStage
    (deathShakeStage i.dt (particleStage i.dt (cameraStage (afterAutoJump X L i s))))

/-- The state after a sequence of frames, first input first. -/
def run (X : Extern) (L : Level) (s : State) : List Input → State
  | [] => s
  | i :: rest => run X L (frame X L i s) rest

/-- States of the main loop at a frame boundary, for frame times `dt ≥ 0`. -/
inductive Reachable (X : Extern) (L : Level) : State → Prop
  | init : Reachable X L State.init
  | step (i : Input) (s : State) :
      Reachable X L s → 0 ≤ i.dt → Reachable X L (frame X L i s)

/-- Sum of the frame times of a sequence of frames. -/
def elapsed (inputs : List Input) : ℚ :=
  (inputs.map (fun i => i.dt)).sum

/-! ## Runs: conditions on the frames of a run -/

/-- Whether some speed pad is triggered in the frame: the speed pad loop, which does not
move the player, meets a pad that intersects the player rectangle. -/
def speedPadTriggered (X : Extern) (L : Level) (i : Input) (s : State) : Bool :=
  L.speedPads.any (fun sp => RectsIntersect (afterJumpPads X L i s).player sp.rect)

/-- Whether a gravity pad can trigger in state `s`: the cooldown timer has expired and
the player rectangle intersects one of the pads. -/
def gravityPadReady (pads : List GravityPad) (s : State) : Bool :=
  decide (s.gravityFlipTimer ≤ 0) && pads.any (fun gp => RectsIntersect s.player gp.rect)

/-- Whether the restart block is entered in none of the frames of a run. -/
def noRestart (X : Extern) (L : Level) : State → List Input → Bool
  | _, [] => true
  | s, i :: rest => !restartFires i s && noRestart X L (frame X L i s) rest

/-- Whether no speed pad is triggered in any of the frames of a run. -/
def noSpeedPad (X : Extern) (L : Level) : State → List Input → Bool
  | _, [] => true
  | s, i :: rest => !speedPadTriggered X L i s && noSpeedPad X L (frame X L i s) rest

/-- The speed variables of a pad of multiplier `m` with `R` seconds left, on base speed
`b`: boosted while `R > 0`, neutral (multiplier 1, timer 0, base speed) once `R ≤ 0`. -/
def SpeedModifier (b m R : ℚ) (s : State) : Prop :=
  s.baseRunSpeed = b ∧
    if 0 < R then s.speedTimer = R ∧ s.speedMultiplierActive = m ∧ s.runSpeed = b * m
    else s.speedTimer = 0 ∧ s.speedMultiplierActive = 1 ∧ s.runSpeed = b

/-- The gameplay part of a state: every variable of `main` except the particle pool, with
the count of random draws cleared as well. -/
def State.gameplay (s : State) : State :=
  { s with particles := [], rngCalls := 0 }

/-! ## Concrete inputs for evaluating the model -/

/-- Library functions fixed to simple values, for evaluating the stages on examples: with
`sinf = 0` every platform rests at its base rectangle, and `GetRandomValue` returns its
lower bound. The gameplay variables evaluated below pass through none of these. -/
def Extern.stub : Extern :=
  { PI := 355 / 113
    sinf := fun _ => 0
    cosf := fun _ => 1
    expf := fun _ => 1
    fmodf := fun x _ => x
    rand := fun _ lo _ => lo
    Fade := fun c _ => c }

/-- A frame of `dt` seconds in which no key is down. -/
def tick (dt : ℚ) : Input :=
  ⟨dt, false, false, false⟩

/-- A frame of `dt` seconds in which the jump key is held (not newly pressed) and `R` is
pressed. -/
def restartHoldingJump (dt : ℚ) : Input :=
  ⟨dt, false, true, true⟩

/-- A level with one floor spike of the size used in the intro (36 by 56, standing on the
floor line) at x = 200 and the first speed pad of the level moved to x = 180. -/
def spikeLevel : Level :=
  { platforms := []
    spikes := [⟨⟨200, 504, 36, 56⟩, true, neonYellow⟩]
    jumpPads := []
    speedPads := [⟨⟨180, 552, 66, 8⟩, 135 / 100, 9 / 10, neonGreen⟩]
    gravityPads := []
    finishLine := ⟨9100, 0, 8, 720⟩ }

/-- A level with two gravity pads on the floor, both under the spot where the player
lands after a first frame of 0.1 s, and a long gravity pad under the ceiling. -/
def padLevel : Level :=
  { platforms := []
    spikes := []
    jumpPads := []
    speedPads := []
    gravityPads :=
      [⟨⟨100, 536, 56, 16⟩, neonPurple, true⟩, ⟨⟨120, 536, 56, 16⟩, neonPurple, true⟩,
        ⟨⟨100, 80, 400, 16⟩, neonPurple, false⟩]
    finishLine := ⟨9100, 0, 8, 720⟩ }

/-- A frame of `dt` seconds in which the jump key goes down. -/
def jumpTap (dt : ℚ) : Input :=
  ⟨dt, true, true, false⟩

/-- Library functions for evaluating platforms on examples: `PI` is 2 and `sinf` is a
sawtooth of period 4 = 2 * `PI` with values in `[0, 1)`. -/
def Extern.sawtooth : Extern :=
  { PI := 2
    sinf := fun x => Int.fract (x / 4)
    cosf := fun _ => 1
    expf := fun _ => 1
    fmodf := fun x _ => x
    rand := fun _ lo _ => lo
    Fade := fun c _ => c }

/-- The level `padLevel` with one ceiling spike (36 by 56) where the flipped player arrives. -/
def ceilingSpikeLevel : Level :=
  { padLevel with spikes := [⟨⟨130, 80, 36, 56⟩, false, neonYellow⟩] }

/-- A level without hazards whose finish line stands where the player lands after a first
frame of 0.1 s. -/
def finishLevel : Level :=
  { platforms := []
    spikes := []
    jumpPads := []
    speedPads := []
    gravityPads := []
    finishLine := ⟨140, 0, 8, 720⟩ }

/-- The level `spikeLevel` with the finish line moved onto the spike. -/
def finishSpikeLevel : Level :=
  { spikeLevel with finishLine := ⟨190, 0, 8, 720⟩ }

/-- A platform oscillating horizontally by 10 around `{0, 0, 100, 20}`, speed 1/2. -/
def swingPlatform : MovingPlatform :=
  { base := ⟨0, 0, 100, 20⟩, amplitude := 10, speed := 1 / 2, vertical := false
    color := neonGreen, phase := 0 }

/-! ## Floor and ceiling: the reflection that swaps the two lines -/

/-- The reflection `R(y, vy) = (floorY + ceilingY - h - y, -vy)` of the specification,
applied to the player position and velocity; every other variable is kept. -/
def reflect (s : State) : State :=
  { s with
    player := { s.player with y := defaultFloorY + ceilingYTop - s.player.height - s.player.y }
    playerVel := { s.playerVel with y := -s.playerVel.y } }

/-! ## Platforms: the older copy of the main loop, contact sides -/

/-- The carry of the older copy of the main loop (src/main.cpp:414-417), added when
landing on a platform. -/
def legacyCarry (X : Extern) (dt t : ℚ) (p : MovingPlatform) (s : State) : State :=
  if !p.vertical then
    { s with
      player :=
        { s.player with
          x := s.player.x +
            X.cosf (p.phase + t * p.speed * 2 * X.PI) * p.amplitude * p.speed * dt * (8 / 100) } }
  else s

/-- The platform's instantaneous horizontal velocity as the specification gives it:
`amplitude * (2*pi*speed) * cos(phase + t*speed*2*pi)`. -/
def platformVelocity (X : Extern) (p : MovingPlatform) (t : ℚ) : ℚ :=
  p.amplitude * (2 * X.PI * p.speed) * X.cosf (p.phase + t * p.speed * 2 * X.PI)

/-- The fourth platform of the moving chain in the older level (src/main.cpp:229): it
oscillates horizontally by 90 at speed 0.9. -/
def legacySwing : MovingPlatform :=
  { base := ⟨3550, 350, 140, 20⟩, amplitude := 90, speed := 9 / 10, vertical := false
    color := neonGreen, phase := 8 / 10 }

/-- The first platform of the level (main.cpp:111); it does not move. -/
def hopPlatform : MovingPlatform :=
  { base := ⟨1780, 488, 140, 20⟩, amplitude := 0, speed := 0, vertical := false
    color := neonGreen, phase := 0 }

/-- A player drifting down at 5 px/s whose top edge is half a pixel inside the underside
of `hopPlatform`. -/
def grazingState : State :=
  { State.init with player := ⟨1770, 1015 / 2, 36, 36⟩, playerVel := ⟨420, 5⟩ }

/-- A particle one frame of `dt` seconds later, as the specification describes it. -/
def agedParticle (dt : ℚ) (p : Particle) : Particle :=
  { p with
    life := p.life - dt
    pos := ⟨p.pos.x + p.vel.x * dt, p.pos.y + p.vel.y * dt⟩
    vel := ⟨p.vel.x * (1 - 3 * dt), p.vel.y + 500 * dt⟩ }

/-- The list `[p' | p in pool, p.life - dt > 0]` of the specification, in pool order. -/
def survivors (dt : ℚ) (pool : List Particle) : List Particle :=
  (pool.filter (fun p => decide (p.life - dt > 0))).map (agedParticle dt)

/-- The particle loop of the older copy of the main loop (src/main.cpp:476-486), which
removes a dead particle with `erase`: the iterations for the indices below the first
argument, from the highest one down. -/
def legacyParticlesLoop (dt : ℚ) : Nat → List Particle → List Particle
  | 0, ps => ps
  | i + 1, ps =>
    match ps[i]? with
    | none => legacyParticlesLoop dt i ps
    | some p =>
      let life := p.life - dt
      if life ≤ 0 then
        legacyParticlesLoop dt i ((ps.set i { p with life := life }).eraseIdx i)
      else
        legacyParticlesLoop dt i
          (ps.set i
            { p with
              life := life
              pos := ⟨p.pos.x + p.vel.x * dt, p.pos.y + p.vel.y * dt⟩
              vel := ⟨p.vel.x * (1 - 3 * dt), p.vel.y + 500 * dt⟩ })

/-! ## Gravity pads: levels that differ in the `flipsUp` marks only -/

/-- Two lists of gravity pads agree pad by pad in rectangle and colour; the `flipsUp`
marks are free. -/
def sameButFlipsUp (pads pads2 : List GravityPad) : Prop :=
  List.Forall₂ (fun a b => a.rect = b.rect ∧ a.color = b.color) pads pads2

/-- The pads of `padLevel` with every `flipsUp` mark inverted. -/
def padsRemarked : List GravityPad :=
  [⟨⟨100, 536, 56, 16⟩, neonPurple, false⟩, ⟨⟨120, 536, 56, 16⟩, neonPurple, false⟩,
    ⟨⟨100, 80, 400, 16⟩, neonPurple, true⟩]

/-! ## Binary32 arithmetic

The claims on `RectsIntersect` and on the speed timer are sensitive to the rounding of
`float` sums and differences. For them the operations are modelled with the rounding of
IEEE-754 binary32 (round to nearest, ties to even) on top of the rationals; overflow to
infinity is not modelled. -/

/-- Rounding of a rational to the nearest integer, ties to the even one. -/
def roundEven (q : ℚ) : Int :=
  if q - ⌊q⌋ < 1 / 2 then ⌊q⌋
  else if q - ⌊q⌋ > 1 / 2 then ⌊q⌋ + 1
  else if ⌊q⌋ % 2 = 0 then ⌊q⌋
  else ⌊q⌋ + 1

/-- The exponent of the binade of `x` in binary32: `⌊log2 |x|⌋`, and -126 in the
subnormal range. -/
def f32Exponent (x : ℚ) : Int :=
  max (Int.log 2 |x|) (-126)

/-- The spacing of the binary32 numbers in the binade of `x` (24 significant bits). -/
def f32Ulp (x : ℚ) : ℚ :=
  2 ^ (f32Exponent x - 23)

/-- The binary32 number nearest to `x`, ties to even: the value a `float` operation
with exact result `x` produces. -/
def f32 (x : ℚ) : ℚ :=
  (roundEven (x / f32Ulp x) : ℚ) * f32Ulp x

/-- utils.cpp:9-12 in binary32: each of the four sums is rounded to `float` before the
comparison. -/
def RectsIntersect32 (a b : Rectangle) : Bool :=
  !(decide (f32 (a.x + a.width) ≤ b.x) || decide (f32 (b.x + b.width) ≤ a.x) ||
    decide (f32 (a.y + a.height) ≤ b.y) || decide (f32 (b.y + b.height) ≤ a.y))

/-- A unit square at x = 2^24 = 16777216, where the spacing of binary32 numbers is 2. -/
def farSquare : Rectangle :=
  ⟨16777216, 0, 1, 1⟩

/-- main.cpp:264-279 in binary32: the difference `speedTimer - dt` and the product
`baseRunSpeed * speedMultiplierActive` are rounded to `float`. -/
def speedTimerStage32 (dt : ℚ) (s : State) : State :=
  if s.speedTimer ≤ 0 then
    { s with speedMultiplierActive := 1, runSpeed := s.baseRunSpeed }
  else if f32 (s.speedTimer - dt) ≤ 0 then
    { s with speedTimer := 0, speedMultiplierActive := 1, runSpeed := s.baseRunSpeed }
  else
    { s with
      speedTimer := f32 (s.speedTimer - dt)
      runSpeed := f32 (s.baseRunSpeed * s.speedMultiplierActive) }

/-- main.cpp:407-419 in binary32, the body of the speed pad loop for one pad: the
intersection test rounds its sums and the product `baseRunSpeed * speedMultiplierActive`
is rounded to `float`. -/
def speedPadStep32 (X : Extern) (s : State) (sp : SpeedPad) : State :=
  if RectsIntersect32 s.player sp.rect then
    spawn X (speedPadBurst X sp) (centrePos s)
      { s with
        speedTimer := sp.duration
        speedMultiplierActive := sp.multiplier
        runSpeed := f32 (s.baseRunSpeed * sp.multiplier) }
  else s

/-- main.cpp:406-419 in binary32. -/
def speedPadStage32 (X : Extern) (L : Level) (s : State) : State :=
  L.speedPads.foldl (speedPadStep32 X) s

/-- State after main.cpp:282 with the speed timer in binary32. -/
def afterTimers32 (X : Extern) (i : Input) (s : State) : State :=
  gravityTimerStage i.dt (speedTimerStage32 i.dt (afterJumpInput X i s))

/-- State after main.cpp:404 (jump pads) with the speed timer in binary32. -/
def afterJumpPads32 (X : Extern) (L : Level) (i : Input) (s : State) : State :=
  jumpPadStage X L (platformStage X L i.dt (floorCeilingStage
    (integrateStage i.dt (gravityStage i.dt (horizontalStage (afterTimers32 X i s))))))

/-- One iteration of the main loop (main.cpp:208-673) with the speed timer stage and the
speed pad loop in binary32; the other stages are those of `frame`. -/
def frame32 (X : Extern) (L : Level) (i : Input) (s : State) : State :=
  endOfFrameStage (deathShakeStage i.dt (particleStage i.dt (cameraStage
    (autoJumpStage X (spikeStage L (finishStage X L (gravityPadStage X L
      (speedPadStage32 X L (afterJumpPads32 X L i s)))))))))

/-- The state after a sequence of iterations `frame32`, first input first. -/
def run32 (X : Extern) (L : Level) (s : State) : List Input → State
  | [] => s
  | i :: rest => run32 X L (frame32 X L i s) rest

/-- Whether some speed pad is triggered in the iteration `frame32`. -/
def speedPadTriggered32 (X : Extern) (L : Level) (i : Input) (s : State) : Bool :=
  L.speedPads.any (fun sp => RectsIntersect32 (afterJumpPads32 X L i s).player sp.rect)

/-- Whether the restart block is entered in none of the iterations of a run of `frame32`. -/
def noRestart32 (X : Extern) (L : Level) : State → List Input → Bool
  | _, [] => true
  | s, i :: rest => !restartFires i s && noRestart32 X L (frame32 X L i s) rest

/-- Whether no speed pad is triggered in any of the iterations of a run of `frame32`. -/
def noSpeedPad32 (X : Extern) (L : Level) : State → List Input → Bool
  | _, [] => true
  | s, i :: rest => !speedPadTriggered32 X L i s && noSpeedPad32 X L (frame32 X L i s) rest

/-- The speed variables of a pad of multiplier `m` and duration `D` on base speed `b`, in
binary32, when `R` seconds of the duration are left in exact arithmetic and the rounding
of the timer has accumulated to at most `tol`: either boosted, with a positive timer
within `tol` of `R`, or neutral (multiplier 1, timer 0, base speed), with `R ≤ tol`. -/
def SpeedModifier32 (b m D R tol : ℚ) (s : State) : Prop :=
  s.baseRunSpeed = b ∧
    ((0 < s.speedTimer ∧ s.speedTimer ≤ D ∧ s.speedMultiplierActive = m ∧
        s.runSpeed = f32 (b * m) ∧ |s.speedTimer - R| ≤ tol) ∨
      (s.speedTimer = 0 ∧ s.speedMultiplierActive = 1 ∧ s.runSpeed = b ∧ R ≤ tol))

/-- A frame of 0.1f seconds (the binary32 number nearest to 0.1) in which no key is
down. -/
def tickTenth : Input :=
  tick (13421773 / 134217728)

/-- A state in which a speed pad of multiplier 1.25 and duration 0.5 s has just been
triggered at the base speed 420. -/
def boostedState : State :=
  { State.init with speedTimer := 1 / 2, speedMultiplierActive := 5 / 4, runSpeed := 525 }

/-! ## Frame conditions: the variables each stage leaves alone -/

theorem foldl_keeps {α β : Type} (g : State → β) (f : State → α → State)
    (h : ∀ s a, g (f s a) = g s) (xs : List α) (s : State) : g (xs.foldl f s) = g s := by
  induction xs generalizing s with
  | nil => rfl
  | cons a rest ih => rw [List.foldl_cons, ih, h]

@[simp] theorem spawn_songTime (X : Extern) (b : Burst) (pos : Vector2) (s : State) :
    (spawn X b pos s).songTime = s.songTime := rfl

@[simp] theorem spawn_player (X : Extern) (b : Burst) (pos : Vector2) (s : State) :
    (spawn X b pos s).player = s.player := rfl

@[simp] theorem spawn_playerVel (X : Extern) (b : Burst) (pos : Vector2) (s : State) :
    (spawn X b pos s).playerVel = s.playerVel := rfl

@[simp] theorem spawn_baseRunSpeed (X : Extern) (b : Burst) (pos : Vector2) (s : State) :
    (spawn X b pos s).baseRunSpeed = s.baseRunSpeed := rfl

@[simp] theorem spawn_runSpeed (X : Extern) (b : Burst) (pos : Vector2) (s : State) :
    (spawn X b pos s).runSpeed = s.runSpeed := rfl

@[simp] theorem spawn_grounded (X : Extern) (b : Burst) (pos : Vector2) (s : State) :
    (spawn X b pos s).grounded = s.grounded := rfl

@[simp] theorem spawn_alive (X : Extern) (b : Burst) (pos : Vector2) (s : State) :
    (spawn X b pos s).alive = s.alive := rfl

@[simp] theorem spawn_deathShake (X : Extern) (b : Burst) (pos : Vector2) (s : State) :
    (spawn X b pos s).deathShake = s.deathShake := rfl

@[simp] theorem spawn_holdJumpActive (X : Extern) (b : Burst) (pos : Vector2) (s : State) :
    (spawn X b pos s).holdJumpActive = s.holdJumpActive := rfl

@[simp] theorem spawn_prevGrounded (X : Extern) (b : Burst) (pos : Vector2) (s : State) :
    (spawn X b pos s).prevGrounded = s.prevGrounded := rfl

@[simp] theorem spawn_gravityDir (X : Extern) (b : Burst) (pos : Vector2) (s : State) :
    (spawn X b pos s).gravityDir = s.gravityDir := rfl

@[simp] theorem spawn_gravityFlipTimer (X : Extern) (b : Burst) (pos : Vector2) (s : State) :
    (spawn X b pos s).gravityFlipTimer = s.gravityFlipTimer := rfl

@[simp] theorem spawn_levelFinished (X : Extern) (b : Burst) (pos : Vector2) (s : State) :
    (spawn X b pos s).levelFinished = s.levelFinished := rfl

@[simp] theorem spawn_speedTimer (X : Extern) (b : Burst) (pos : Vector2) (s : State) :
    (spawn X b pos s).speedTimer = s.speedTimer := rfl

@[simp] theorem spawn_speedMultiplierActive (X : Extern) (b : Burst) (pos : Vector2) (s : State) :
    (spawn X b pos s).speedMultiplierActive = s.speedMultiplierActive := rfl

@[simp] theorem spawn_camX (X : Extern) (b : Burst) (pos : Vector2) (s : State) :
    (spawn X b pos s).camX = s.camX := rfl

@[simp] theorem clockStage_player (dt : ℚ) (s : State) :
    (clockStage dt s).player = s.player := rfl

@[simp] theorem clockStage_playerVel (dt : ℚ) (s : State) :
    (clockStage dt s).playerVel = s.playerVel := rfl

@[simp] theorem clockStage_baseRunSpeed (dt : ℚ) (s : State) :
    (clockStage dt s).baseRunSpeed = s.baseRunSpeed := rfl

@[simp] theorem clockStage_runSpeed (dt : ℚ) (s : State) :
    (clockStage dt s).runSpeed = s.runSpeed := rfl

@[simp] theorem clockStage_grounded (dt : ℚ) (s : State) :
    (clockStage dt s).grounded = s.grounded := rfl

@[simp] theorem clockStage_alive (dt : ℚ) (s : State) :
    (clockStage dt s).alive = s.alive := rfl

@[simp] theorem clockStage_deathShake (dt : ℚ) (s : State) :
    (clockStage dt s).deathShake = s.deathShake := rfl

@[simp] theorem clockStage_holdJumpActive (dt : ℚ) (s : State) :
    (clockStage dt s).holdJumpActive = s.holdJumpActive := rfl

@[simp] theorem clockStage_prevGrounded (dt : ℚ) (s : State) :
    (clockStage dt s).prevGrounded = s.prevGrounded := rfl

@[simp] theorem clockStage_gravityDir (dt : ℚ) (s : State) :
    (clockStage dt s).gravityDir = s.gravityDir := rfl

@[simp] theorem clockStage_gravityFlipTimer (dt : ℚ) (s : State) :
    (clockStage dt s).gravityFlipTimer = s.gravityFlipTimer := rfl

@[simp] theorem clockStage_levelFinished (dt : ℚ) (s : State) :
    (clockStage dt s).levelFinished = s.levelFinished := rfl

@[simp] theorem clockStage_speedTimer (dt : ℚ) (s : State) :
    (clockStage dt s).speedTimer = s.speedTimer := rfl

@[simp] theorem clockStage_speedMultiplierActive (dt : ℚ) (s : State) :
    (clockStage dt s).speedMultiplierActive = s.speedMultiplierActive := rfl

@[simp] theorem clockStage_camX (dt : ℚ) (s : State) :
    (clockStage dt s).camX = s.camX := rfl

@[simp] theorem clockStage_particles (dt : ℚ) (s : State) :
    (clockStage dt s).particles = s.particles := rfl

@[simp] theorem clockStage_rngCalls (dt : ℚ) (s : State) :
    (clockStage dt s).rngCalls = s.rngCalls := rfl

@[simp] theorem doJump_songTime (X : Extern) (s : State) :
    (doJump X s).songTime = s.songTime := by
  unfold doJump
  rw [spawn_songTime]

@[simp] theorem doJump_player (X : Extern) (s : State) :
    (doJump X s).player = s.player := by
  unfold doJump
  rw [spawn_player]

@[simp] theorem doJump_baseRunSpeed (X : Extern) (s : State) :
    (doJump X s).baseRunSpeed = s.baseRunSpeed := by
  unfold doJump
  rw [spawn_baseRunSpeed]

@[simp] theorem doJump_runSpeed (X : Extern) (s : State) :
    (doJump X s).runSpeed = s.runSpeed := by
  unfold doJump
  rw [spawn_runSpeed]

@[simp] theorem doJump_alive (X : Extern) (s : State) :
    (doJump X s).alive = s.alive := by
  unfold doJump
  rw [spawn_alive]

@[simp] theorem doJump_deathShake (X : Extern) (s : State) :
    (doJump X s).deathShake = s.deathShake := by
  unfold doJump
  rw [spawn_deathShake]

@[simp] theorem doJump_holdJumpActive (X : Extern) (s : State) :
    (doJump X s).holdJumpActive = s.holdJumpActive := by
  unfold doJump
  rw [spawn_holdJumpActive]

@[simp] theorem doJump_prevGrounded (X : Extern) (s : State) :
    (doJump X s).prevGrounded = s.prevGrounded := by
  unfold doJump
  rw [spawn_prevGrounded]

@[simp] theorem doJump_gravityDir (X : Extern) (s : State) :
    (doJump X s).gravityDir = s.gravityDir := by
  unfold doJump
  rw [spawn_gravityDir]

@[simp] theorem doJump_gravityFlipTimer (X : Extern) (s : State) :
    (doJump X s).gravityFlipTimer = s.gravityFlipTimer := by
  unfold doJump
  rw [spawn_gravityFlipTimer]

@[simp] theorem doJump_levelFinished (X : Extern) (s : State) :
    (doJump X s).levelFinished = s.levelFinished := by
  unfold doJump
  rw [spawn_levelFinished]

@[simp] theorem doJump_speedTimer (X : Extern) (s : State) :
    (doJump X s).speedTimer = s.speedTimer := by
  unfold doJump
  rw [spawn_speedTimer]

@[simp] theorem doJump_speedMultiplierActive (X : Extern) (s : State) :
    (doJump X s).speedMultiplierActive = s.speedMultiplierActive := by
  unfold doJump
  rw [spawn_speedMultiplierActive]

@[simp] theorem doJump_camX (X : Extern) (s : State) :
    (doJump X s).camX = s.camX := by
  unfold doJump
  rw [spawn_camX]

@[simp] theorem jumpInputStage_songTime (X : Extern) (i : Input) (s : State) :
    (jumpInputStage X i s).songTime = s.songTime := by
  unfold jumpInputStage
  split_ifs <;> first | rw [doJump_songTime] | rfl

@[simp] theorem jumpInputStage_player (X : Extern) (i : Input) (s : State) :
    (jumpInputStage X i s).player = s.player := by
  unfold jumpInputStage
  split_ifs <;> first | rw [doJump_player] | rfl

@[simp] theorem jumpInputStage_baseRunSpeed (X : Extern) (i : Input) (s : State) :
    (jumpInputStage X i s).baseRunSpeed = s.baseRunSpeed := by
  unfold jumpInputStage
  split_ifs <;> first | rw [doJump_baseRunSpeed] | rfl

@[simp] theorem jumpInputStage_runSpeed (X : Extern) (i : Input) (s : State) :
    (jumpInputStage X i s).runSpeed = s.runSpeed := by
  unfold jumpInputStage
  split_ifs <;> first | rw [doJump_runSpeed] | rfl

@[simp] theorem jumpInputStage_alive (X : Extern) (i : Input) (s : State) :
    (jumpInputStage X i s).alive = s.alive := by
  unfold jumpInputStage
  split_ifs <;> first | rw [doJump_alive] | rfl

@[simp] theorem jumpInputStage_deathShake (X : Extern) (i : Input) (s : State) :
    (jumpInputStage X i s).deathShake = s.deathShake := by
  unfold jumpInputStage
  split_ifs <;> first | rw [doJump_deathShake] | rfl

@[simp] theorem jumpInputStage_prevGrounded (X : Extern) (i : Input) (s : State) :
    (jumpInputStage X i s).prevGrounded = s.prevGrounded := by
  unfold jumpInputStage
  split_ifs <;> first | rw [doJump_prevGrounded] | rfl

@[simp] theorem jumpInputStage_gravityDir (X : Extern) (i : Input) (s : State) :
    (jumpInputStage X i s).gravityDir = s.gravityDir := by
  unfold jumpInputStage
  split_ifs <;> first | rw [doJump_gravityDir] | rfl

@[simp] theorem jumpInputStage_gravityFlipTimer (X : Extern) (i : Input) (s : State) :
    (jumpInputStage X i s).gravityFlipTimer = s.gravityFlipTimer := by
  unfold jumpInputStage
  split_ifs <;> first | rw [doJump_gravityFlipTimer] | rfl

@[simp] theorem jumpInputStage_levelFinished (X : Extern) (i : Input) (s : State) :
    (jumpInputStage X i s).levelFinished = s.levelFinished := by
  unfold jumpInputStage
  split_ifs <;> first | rw [doJump_levelFinished] | rfl

@[simp] theorem jumpInputStage_speedTimer (X : Extern) (i : Input) (s : State) :
    (jumpInputStage X i s).speedTimer = s.speedTimer := by
  unfold jumpInputStage
  split_ifs <;> first | rw [doJump_speedTimer] | rfl

@[simp] theorem jumpInputStage_speedMultiplierActive (X : Extern) (i : Input) (s : State) :
    (jumpInputStage X i s).speedMultiplierActive = s.speedMultiplierActive := by
  unfold jumpInputStage
  split_ifs <;> first | rw [doJump_speedMultiplierActive] | rfl

@[simp] theorem jumpInputStage_camX (X : Extern) (i : Input) (s : State) :
    (jumpInputStage X i s).camX = s.camX := by
  unfold jumpInputStage
  split_ifs <;> first | rw [doJump_camX] | rfl

@[simp] theorem speedTimerStage_songTime (dt : ℚ) (s : State) :
    (speedTimerStage dt s).songTime = s.songTime := by
  unfold speedTimerStage
  split_ifs <;> rfl

@[simp] theorem speedTimerStage_player (dt : ℚ) (s : State) :
    (speedTimerStage dt s).player = s.player := by
  unfold speedTimerStage
  split_ifs <;> rfl

@[simp] theorem speedTimerStage_playerVel (dt : ℚ) (s : State) :
    (speedTimerStage dt s).playerVel = s.playerVel := by
  unfold speedTimerStage
  split_ifs <;> rfl

@[simp] theorem speedTimerStage_baseRunSpeed (dt : ℚ) (s : State) :
    (speedTimerStage dt s).baseRunSpeed = s.baseRunSpeed := by
  unfold speedTimerStage
  split_ifs <;> rfl

@[simp] theorem speedTimerStage_grounded (dt : ℚ) (s : State) :
    (speedTimerStage dt s).grounded = s.grounded := by
  unfold speedTimerStage
  split_ifs <;> rfl

@[simp] theorem speedTimerStage_alive (dt : ℚ) (s : State) :
    (speedTimerStage dt s).alive = s.alive := by
  unfold speedTimerStage
  split_ifs <;> rfl

@[simp] theorem speedTimerStage_deathShake (dt : ℚ) (s : State) :
    (speedTimerStage dt s).deathShake = s.deathShake := by
  unfold speedTimerStage
  split_ifs <;> rfl

@[simp] theorem speedTimerStage_holdJumpActive (dt : ℚ) (s : State) :
    (speedTimerStage dt s).holdJumpActive = s.holdJumpActive := by
  unfold speedTimerStage
  split_ifs <;> rfl

@[simp] theorem speedTimerStage_prevGrounded (dt : ℚ) (s : State) :
    (speedTimerStage dt s).prevGrounded = s.prevGrounded := by
  unfold speedTimerStage
  split_ifs <;> rfl

@[simp] theorem speedTimerStage_gravityDir (dt : ℚ) (s : State) :
    (speedTimerStage dt s).gravityDir = s.gravityDir := by
  unfold speedTimerStage
  split_ifs <;> rfl

@[simp] theorem speedTimerStage_gravityFlipTimer (dt : ℚ) (s : State) :
    (speedTimerStage dt s).gravityFlipTimer = s.gravityFlipTimer := by
  unfold speedTimerStage
  split_ifs <;> rfl

@[simp] theorem speedTimerStage_levelFinished (dt : ℚ) (s : State) :
    (speedTimerStage dt s).levelFinished = s.levelFinished := by
  unfold speedTimerStage
  split_ifs <;> rfl

@[simp] theorem speedTimerStage_camX (dt : ℚ) (s : State) :
    (speedTimerStage dt s).camX = s.camX := by
  unfold speedTimerStage
  split_ifs <;> rfl

@[simp] theorem speedTimerStage_particles (dt : ℚ) (s : State) :
    (speedTimerStage dt s).particles = s.particles := by
  unfold speedTimerStage
  split_ifs <;> rfl

@[simp] theorem speedTimerStage_rngCalls (dt : ℚ) (s : State) :
    (speedTimerStage dt s).rngCalls = s.rngCalls := by
  unfold speedTimerStage
  split_ifs <;> rfl

@[simp] theorem gravityTimerStage_songTime (dt : ℚ) (s : State) :
    (gravityTimerStage dt s).songTime = s.songTime := by
  unfold gravityTimerStage
  split_ifs <;> rfl

@[simp] theorem gravityTimerStage_player (dt : ℚ) (s : State) :
    (gravityTimerStage dt s).player = s.player := by
  unfold gravityTimerStage
  split_ifs <;> rfl

@[simp] theorem gravityTimerStage_playerVel (dt : ℚ) (s : State) :
    (gravityTimerStage dt s).playerVel = s.playerVel := by
  unfold gravityTimerStage
  split_ifs <;> rfl

@[simp] theorem gravityTimerStage_baseRunSpeed (dt : ℚ) (s : State) :
    (gravityTimerStage dt s).baseRunSpeed = s.baseRunSpeed := by
  unfold gravityTimerStage
  split_ifs <;> rfl

@[simp] theorem gravityTimerStage_runSpeed (dt : ℚ) (s : State) :
    (gravityTimerStage dt s).runSpeed = s.runSpeed := by
  unfold gravityTimerStage
  split_ifs <;> rfl

@[simp] theorem gravityTimerStage_grounded (dt : ℚ) (s : State) :
    (gravityTimerStage dt s).grounded = s.grounded := by
  unfold gravityTimerStage
  split_ifs <;> rfl

@[simp] theorem gravityTimerStage_alive (dt : ℚ) (s : State) :
    (gravityTimerStage dt s).alive = s.alive := by
  unfold gravityTimerStage
  split_ifs <;> rfl

@[simp] theorem gravityTimerStage_deathShake (dt : ℚ) (s : State) :
    (gravityTimerStage dt s).deathShake = s.deathShake := by
  unfold gravityTimerStage
  split_ifs <;> rfl

@[simp] theorem gravityTimerStage_holdJumpActive (dt : ℚ) (s : State) :
    (gravityTimerStage dt s).holdJumpActive = s.holdJumpActive := by
  unfold gravityTimerStage
  split_ifs <;> rfl

@[simp] theorem gravityTimerStage_prevGrounded (dt : ℚ) (s : State) :
    (gravityTimerStage dt s).prevGrounded = s.prevGrounded := by
  unfold gravityTimerStage
  split_ifs <;> rfl

@[simp] theorem gravityTimerStage_gravityDir (dt : ℚ) (s : State) :
    (gravityTimerStage dt s).gravityDir = s.gravityDir := by
  unfold gravityTimerStage
  split_ifs <;> rfl

@[simp] theorem gravityTimerStage_levelFinished (dt : ℚ) (s : State) :
    (gravityTimerStage dt s).levelFinished = s.levelFinished := by
  unfold gravityTimerStage
  split_ifs <;> rfl

@[simp] theorem gravityTimerStage_speedTimer (dt : ℚ) (s : State) :
    (gravityTimerStage dt s).speedTimer = s.speedTimer := by
  unfold gravityTimerStage
  split_ifs <;> rfl

@[simp] theorem gravityTimerStage_speedMultiplierActive (dt : ℚ) (s : State) :
    (gravityTimerStage dt s).speedMultiplierActive = s.speedMultiplierActive := by
  unfold gravityTimerStage
  split_ifs <;> rfl

@[simp] theorem gravityTimerStage_camX (dt : ℚ) (s : State) :
    (gravityTimerStage dt s).camX = s.camX := by
  unfold gravityTimerStage
  split_ifs <;> rfl

@[simp] theorem gravityTimerStage_particles (dt : ℚ) (s : State) :
    (gravityTimerStage dt s).particles = s.particles := by
  unfold gravityTimerStage
  split_ifs <;> rfl

@[simp] theorem gravityTimerStage_rngCalls (dt : ℚ) (s : State) :
    (gravityTimerStage dt s).rngCalls = s.rngCalls := by
  unfold gravityTimerStage
  split_ifs <;> rfl

@[simp] theorem autoRun_songTime (s : State) :
    (autoRun s).songTime = s.songTime := by
  unfold autoRun
  split_ifs <;> rfl

@[simp] theorem autoRun_player (s : State) :
    (autoRun s).player = s.player := by
  unfold autoRun
  split_ifs <;> rfl

@[simp] theorem autoRun_baseRunSpeed (s : State) :
    (autoRun s).baseRunSpeed = s.baseRunSpeed := by
  unfold autoRun
  split_ifs <;> rfl

@[simp] theorem autoRun_runSpeed (s : State) :
    (autoRun s).runSpeed = s.runSpeed := by
  unfold autoRun
  split_ifs <;> rfl

@[simp] theorem autoRun_grounded (s : State) :
    (autoRun s).grounded = s.grounded := by
  unfold autoRun
  split_ifs <;> rfl

@[simp] theorem autoRun_alive (s : State) :
    (autoRun s).alive = s.alive := by
  unfold autoRun
  split_ifs <;> rfl

@[simp] theorem autoRun_deathShake (s : State) :
    (autoRun s).deathShake = s.deathShake := by
  unfold autoRun
  split_ifs <;> rfl

@[simp] theorem autoRun_holdJumpActive (s : State) :
    (autoRun s).holdJumpActive = s.holdJumpActive := by
  unfold autoRun
  split_ifs <;> rfl

@[simp] theorem autoRun_prevGrounded (s : State) :
    (autoRun s).prevGrounded = s.prevGrounded := by
  unfold autoRun
  split_ifs <;> rfl

@[simp] theorem autoRun_gravityDir (s : State) :
    (autoRun s).gravityDir = s.gravityDir := by
  unfold autoRun
  split_ifs <;> rfl

@[simp] theorem autoRun_gravityFlipTimer (s : State) :
    (autoRun s).gravityFlipTimer = s.gravityFlipTimer := by
  unfold autoRun
  split_ifs <;> rfl

@[simp] theorem autoRun_levelFinished (s : State) :
    (autoRun s).levelFinished = s.levelFinished := by
  unfold autoRun
  split_ifs <;> rfl

@[simp] theorem autoRun_speedTimer (s : State) :
    (autoRun s).speedTimer = s.speedTimer := by
  unfold autoRun
  split_ifs <;> rfl

@[simp] theorem autoRun_speedMultiplierActive (s : State) :
    (autoRun s).speedMultiplierActive = s.speedMultiplierActive := by
  unfold autoRun
  split_ifs <;> rfl

@[simp] theorem autoRun_camX (s : State) :
    (autoRun s).camX = s.camX := by
  unfold autoRun
  split_ifs <;> rfl

@[simp] theorem autoRun_particles (s : State) :
    (autoRun s).particles = s.particles := by
  unfold autoRun
  split_ifs <;> rfl

@[simp] theorem autoRun_rngCalls (s : State) :
    (autoRun s).rngCalls = s.rngCalls := by
  unfold autoRun
  split_ifs <;> rfl

@[simp] theorem stopWhenFinished_songTime (s : State) :
    (stopWhenFinished s).songTime = s.songTime := by
  unfold stopWhenFinished
  split_ifs <;> rfl

@[simp] theorem stopWhenFinished_player (s : State) :
    (stopWhenFinished s).player = s.player := by
  unfold stopWhenFinished
  split_ifs <;> rfl

@[simp] theorem stopWhenFinished_baseRunSpeed (s : State) :
    (stopWhenFinished s).baseRunSpeed = s.baseRunSpeed := by
  unfold stopWhenFinished
  split_ifs <;> rfl

@[simp] theorem stopWhenFinished_runSpeed (s : State) :
    (stopWhenFinished s).runSpeed = s.runSpeed := by
  unfold stopWhenFinished
  split_ifs <;> rfl

@[simp] theorem stopWhenFinished_grounded (s : State) :
    (stopWhenFinished s).grounded = s.grounded := by
  unfold stopWhenFinished
  split_ifs <;> rfl

@[simp] theorem stopWhenFinished_alive (s : State) :
    (stopWhenFinished s).alive = s.alive := by
  unfold stopWhenFinished
  split_ifs <;> rfl

@[simp] theorem stopWhenFinished_deathShake (s : State) :
    (stopWhenFinished s).deathShake = s.deathShake := by
  unfold stopWhenFinished
  split_ifs <;> rfl

@[simp] theorem stopWhenFinished_holdJumpActive (s : State) :
    (stopWhenFinished s).holdJumpActive = s.holdJumpActive := by
  unfold stopWhenFinished
  split_ifs <;> rfl

@[simp] theorem stopWhenFinished_prevGrounded (s : State) :
    (stopWhenFinished s).prevGrounded = s.prevGrounded := by
  unfold stopWhenFinished
  split_ifs <;> rfl

@[simp] theorem stopWhenFinished_gravityDir (s : State) :
    (stopWhenFinished s).gravityDir = s.gravityDir := by
  unfold stopWhenFinished
  split_ifs <;> rfl

@[simp] theorem stopWhenFinished_gravityFlipTimer (s : State) :
    (stopWhenFinished s).gravityFlipTimer = s.gravityFlipTimer := by
  unfold stopWhenFinished
  split_ifs <;> rfl

@[simp] theorem stopWhenFinished_levelFinished (s : State) :
    (stopWhenFinished s).levelFinished = s.levelFinished := by
  unfold stopWhenFinished
  split_ifs <;> rfl

@[simp] theorem stopWhenFinished_speedTimer (s : State) :
    (stopWhenFinished s).speedTimer = s.speedTimer := by
  unfold stopWhenFinished
  split_ifs <;> rfl

@[simp] theorem stopWhenFinished_speedMultiplierActive (s : State) :
    (stopWhenFinished s).speedMultiplierActive = s.speedMultiplierActive := by
  unfold stopWhenFinished
  split_ifs <;> rfl

@[simp] theorem stopWhenFinished_camX (s : State) :
    (stopWhenFinished s).camX = s.camX := by
  unfold stopWhenFinished
  split_ifs <;> rfl

@[simp] theorem stopWhenFinished_particles (s : State) :
    (stopWhenFinished s).particles = s.particles := by
  unfold stopWhenFinished
  split_ifs <;> rfl

@[simp] theorem stopWhenFinished_rngCalls (s : State) :
    (stopWhenFinished s).rngCalls = s.rngCalls := by
  unfold stopWhenFinished
  split_ifs <;> rfl

@[simp] theorem horizontalStage_songTime (s : State) :
    (horizontalStage s).songTime = s.songTime := by
  unfold horizontalStage
  rw [stopWhenFinished_songTime, autoRun_songTime]

@[simp] theorem horizontalStage_player (s : State) :
    (horizontalStage s).player = s.player := by
  unfold horizontalStage
  rw [stopWhenFinished_player, autoRun_player]

@[simp] theorem horizontalStage_baseRunSpeed (s : State) :
    (horizontalStage s).baseRunSpeed = s.baseRunSpeed := by
  unfold horizontalStage
  rw [stopWhenFinished_baseRunSpeed, autoRun_baseRunSpeed]

@[simp] theorem horizontalStage_runSpeed (s : State) :
    (horizontalStage s).runSpeed = s.runSpeed := by
  unfold horizontalStage
  rw [stopWhenFinished_runSpeed, autoRun_runSpeed]

@[simp] theorem horizontalStage_grounded (s : State) :
    (horizontalStage s).grounded = s.grounded := by
  unfold horizontalStage
  rw [stopWhenFinished_grounded, autoRun_grounded]

@[simp] theorem horizontalStage_alive (s : State) :
    (horizontalStage s).alive = s.alive := by
  unfold horizontalStage
  rw [stopWhenFinished_alive, autoRun_alive]

@[simp] theorem horizontalStage_deathShake (s : State) :
    (horizontalStage s).deathShake = s.deathShake := by
  unfold horizontalStage
  rw [stopWhenFinished_deathShake, autoRun_deathShake]

@[simp] theorem horizontalStage_holdJumpActive (s : State) :
    (horizontalStage s).holdJumpActive = s.holdJumpActive := by
  unfold horizontalStage
  rw [stopWhenFinished_holdJumpActive, autoRun_holdJumpActive]

@[simp] theorem horizontalStage_prevGrounded (s : State) :
    (horizontalStage s).prevGrounded = s.prevGrounded := by
  unfold horizontalStage
  rw [stopWhenFinished_prevGrounded, autoRun_prevGrounded]

@[simp] theorem horizontalStage_gravityDir (s : State) :
    (horizontalStage s).gravityDir = s.gravityDir := by
  unfold horizontalStage
  rw [stopWhenFinished_gravityDir, autoRun_gravityDir]

@[simp] theorem horizontalStage_gravityFlipTimer (s : State) :
    (horizontalStage s).gravityFlipTimer = s.gravityFlipTimer := by
  unfold horizontalStage
  rw [stopWhenFinished_gravityFlipTimer, autoRun_gravityFlipTimer]

@[simp] theorem horizontalStage_levelFinished (s : State) :
    (horizontalStage s).levelFinished = s.levelFinished := by
  unfold horizontalStage
  rw [stopWhenFinished_levelFinished, autoRun_levelFinished]

@[simp] theorem horizontalStage_speedTimer (s : State) :
    (horizontalStage s).speedTimer = s.speedTimer := by
  unfold horizontalStage
  rw [stopWhenFinished_speedTimer, autoRun_speedTimer]

@[simp] theorem horizontalStage_speedMultiplierActive (s : State) :
    (horizontalStage s).speedMultiplierActive = s.speedMultiplierActive := by
  unfold horizontalStage
  rw [stopWhenFinished_speedMultiplierActive, autoRun_speedMultiplierActive]

@[simp] theorem horizontalStage_camX (s : State) :
    (horizontalStage s).camX = s.camX := by
  unfold horizontalStage
  rw [stopWhenFinished_camX, autoRun_camX]

@[simp] theorem horizontalStage_particles (s : State) :
    (horizontalStage s).particles = s.particles := by
  unfold horizontalStage
  rw [stopWhenFinished_particles, autoRun_particles]

@[simp] theorem horizontalStage_rngCalls (s : State) :
    (horizontalStage s).rngCalls = s.rngCalls := by
  unfold horizontalStage
  rw [stopWhenFinished_rngCalls, autoRun_rngCalls]

@[simp] theorem gravityStage_songTime (dt : ℚ) (s : State) :
    (gravityStage dt s).songTime = s.songTime := rfl

@[simp] theorem gravityStage_player (dt : ℚ) (s : State) :
    (gravityStage dt s).player = s.player := rfl

@[simp] theorem gravityStage_baseRunSpeed (dt : ℚ) (s : State) :
    (gravityStage dt s).baseRunSpeed = s.baseRunSpeed := rfl

@[simp] theorem gravityStage_runSpeed (dt : ℚ) (s : State) :
    (gravityStage dt s).runSpeed = s.runSpeed := rfl

@[simp] theorem gravityStage_grounded (dt : ℚ) (s : State) :
    (gravityStage dt s).grounded = s.grounded := rfl

@[simp] theorem gravityStage_alive (dt : ℚ) (s : State) :
    (gravityStage dt s).alive = s.alive := rfl

@[simp] theorem gravityStage_deathShake (dt : ℚ) (s : State) :
    (gravityStage dt s).deathShake = s.deathShake := rfl

@[simp] theorem gravityStage_holdJumpActive (dt : ℚ) (s : State) :
    (gravityStage dt s).holdJumpActive = s.holdJumpActive := rfl

@[simp] theorem gravityStage_prevGrounded (dt : ℚ) (s : State) :
    (gravityStage dt s).prevGrounded = s.prevGrounded := rfl

@[simp] theorem gravityStage_gravityDir (dt : ℚ) (s : State) :
    (gravityStage dt s).gravityDir = s.gravityDir := rfl

@[simp] theorem gravityStage_gravityFlipTimer (dt : ℚ) (s : State) :
    (gravityStage dt s).gravityFlipTimer = s.gravityFlipTimer := rfl

@[simp] theorem gravityStage_levelFinished (dt : ℚ) (s : State) :
    (gravityStage dt s).levelFinished = s.levelFinished := rfl

@[simp] theorem gravityStage_speedTimer (dt : ℚ) (s : State) :
    (gravityStage dt s).speedTimer = s.speedTimer := rfl

@[simp] theorem gravityStage_speedMultiplierActive (dt : ℚ) (s : State) :
    (gravityStage dt s).speedMultiplierActive = s.speedMultiplierActive := rfl

@[simp] theorem gravityStage_camX (dt : ℚ) (s : State) :
    (gravityStage dt s).camX = s.camX := rfl

@[simp] theorem gravityStage_particles (dt : ℚ) (s : State) :
    (gravityStage dt s).particles = s.particles := rfl

@[simp] theorem gravityStage_rngCalls (dt : ℚ) (s : State) :
    (gravityStage dt s).rngCalls = s.rngCalls := rfl

@[simp] theorem integrateStage_songTime (dt : ℚ) (s : State) :
    (integrateStage dt s).songTime = s.songTime := by
  unfold integrateStage
  split_ifs <;> rfl

@[simp] theorem integrateStage_playerVel (dt : ℚ) (s : State) :
    (integrateStage dt s).playerVel = s.playerVel := by
  unfold integrateStage
  split_ifs <;> rfl

@[simp] theorem integrateStage_baseRunSpeed (dt : ℚ) (s : State) :
    (integrateStage dt s).baseRunSpeed = s.baseRunSpeed := by
  unfold integrateStage
  split_ifs <;> rfl

@[simp] theorem integrateStage_runSpeed (dt : ℚ) (s : State) :
    (integrateStage dt s).runSpeed = s.runSpeed := by
  unfold integrateStage
  split_ifs <;> rfl

@[simp] theorem integrateStage_grounded (dt : ℚ) (s : State) :
    (integrateStage dt s).grounded = s.grounded := by
  unfold integrateStage
  split_ifs <;> rfl

@[simp] theorem integrateStage_alive (dt : ℚ) (s : State) :
    (integrateStage dt s).alive = s.alive := by
  unfold integrateStage
  split_ifs <;> rfl

@[simp] theorem integrateStage_deathShake (dt : ℚ) (s : State) :
    (integrateStage dt s).deathShake = s.deathShake := by
  unfold integrateStage
  split_ifs <;> rfl

@[simp] theorem integrateStage_holdJumpActive (dt : ℚ) (s : State) :
    (integrateStage dt s).holdJumpActive = s.holdJumpActive := by
  unfold integrateStage
  split_ifs <;> rfl

@[simp] theorem integrateStage_prevGrounded (dt : ℚ) (s : State) :
    (integrateStage dt s).prevGrounded = s.prevGrounded := by
  unfold integrateStage
  split_ifs <;> rfl

@[simp] theorem integrateStage_gravityDir (dt : ℚ) (s : State) :
    (integrateStage dt s).gravityDir = s.gravityDir := by
  unfold integrateStage
  split_ifs <;> rfl

@[simp] theorem integrateStage_gravityFlipTimer (dt : ℚ) (s : State) :
    (integrateStage dt s).gravityFlipTimer = s.gravityFlipTimer := by
  unfold integrateStage
  split_ifs <;> rfl

@[simp] theorem integrateStage_levelFinished (dt : ℚ) (s : State) :
    (integrateStage dt s).levelFinished = s.levelFinished := by
  unfold integrateStage
  split_ifs <;> rfl

@[simp] theorem integrateStage_speedTimer (dt : ℚ) (s : State) :
    (integrateStage dt s).speedTimer = s.speedTimer := by
  unfold integrateStage
  split_ifs <;> rfl

@[simp] theorem integrateStage_speedMultiplierActive (dt : ℚ) (s : State) :
    (integrateStage dt s).speedMultiplierActive = s.speedMultiplierActive := by
  unfold integrateStage
  split_ifs <;> rfl

@[simp] theorem integrateStage_camX (dt : ℚ) (s : State) :
    (integrateStage dt s).camX = s.camX := by
  unfold integrateStage
  split_ifs <;> rfl

@[simp] theorem integrateStage_particles (dt : ℚ) (s : State) :
    (integrateStage dt s).particles = s.particles := by
  unfold integrateStage
  split_ifs <;> rfl

@[simp] theorem integrateStage_rngCalls (dt : ℚ) (s : State) :
    (integrateStage dt s).rngCalls = s.rngCalls := by
  unfold integrateStage
  split_ifs <;> rfl

@[simp] theorem landOnFloor_songTime (s : State) :
    (landOnFloor s).songTime = s.songTime := by
  unfold landOnFloor
  split_ifs <;> rfl

@[simp] theorem landOnFloor_baseRunSpeed (s : State) :
    (landOnFloor s).baseRunSpeed = s.baseRunSpeed := by
  unfold landOnFloor
  split_ifs <;> rfl

@[simp] theorem landOnFloor_runSpeed (s : State) :
    (landOnFloor s).runSpeed = s.runSpeed := by
  unfold landOnFloor
  split_ifs <;> rfl

@[simp] theorem landOnFloor_alive (s : State) :
    (landOnFloor s).alive = s.alive := by
  unfold landOnFloor
  split_ifs <;> rfl

@[simp] theorem landOnFloor_deathShake (s : State) :
    (landOnFloor s).deathShake = s.deathShake := by
  unfold landOnFloor
  split_ifs <;> rfl

@[simp] theorem landOnFloor_holdJumpActive (s : State) :
    (landOnFloor s).holdJumpActive = s.holdJumpActive := by
  unfold landOnFloor
  split_ifs <;> rfl

@[simp] theorem landOnFloor_prevGrounded (s : State) :
    (landOnFloor s).prevGrounded = s.prevGrounded := by
  unfold landOnFloor
  split_ifs <;> rfl

@[simp] theorem landOnFloor_gravityDir (s : State) :
    (landOnFloor s).gravityDir = s.gravityDir := by
  unfold landOnFloor
  split_ifs <;> rfl

@[simp] theorem landOnFloor_gravityFlipTimer (s : State) :
    (landOnFloor s).gravityFlipTimer = s.gravityFlipTimer := by
  unfold landOnFloor
  split_ifs <;> rfl

@[simp] theorem landOnFloor_levelFinished (s : State) :
    (landOnFloor s).levelFinished = s.levelFinished := by
  unfold landOnFloor
  split_ifs <;> rfl

@[simp] theorem landOnFloor_speedTimer (s : State) :
    (landOnFloor s).speedTimer = s.speedTimer := by
  unfold landOnFloor
  split_ifs <;> rfl

@[simp] theorem landOnFloor_speedMultiplierActive (s : State) :
    (landOnFloor s).speedMultiplierActive = s.speedMultiplierActive := by
  unfold landOnFloor
  split_ifs <;> rfl

@[simp] theorem landOnFloor_camX (s : State) :
    (landOnFloor s).camX = s.camX := by
  unfold landOnFloor
  split_ifs <;> rfl

@[simp] theorem landOnFloor_particles (s : State) :
    (landOnFloor s).particles = s.particles := by
  unfold landOnFloor
  split_ifs <;> rfl

@[simp] theorem landOnFloor_rngCalls (s : State) :
    (landOnFloor s).rngCalls = s.rngCalls := by
  unfold landOnFloor
  split_ifs <;> rfl

@[simp] theorem bumpCeiling_songTime (s : State) :
    (bumpCeiling s).songTime = s.songTime := by
  unfold bumpCeiling
  split_ifs <;> rfl

@[simp] theorem bumpCeiling_baseRunSpeed (s : State) :
    (bumpCeiling s).baseRunSpeed = s.baseRunSpeed := by
  unfold bumpCeiling
  split_ifs <;> rfl

@[simp] theorem bumpCeiling_runSpeed (s : State) :
    (bumpCeiling s).runSpeed = s.runSpeed := by
  unfold bumpCeiling
  split_ifs <;> rfl

@[simp] theorem bumpCeiling_grounded (s : State) :
    (bumpCeiling s).grounded = s.grounded := by
  unfold bumpCeiling
  split_ifs <;> rfl

@[simp] theorem bumpCeiling_alive (s : State) :
    (bumpCeiling s).alive = s.alive := by
  unfold bumpCeiling
  split_ifs <;> rfl

@[simp] theorem bumpCeiling_deathShake (s : State) :
    (bumpCeiling s).deathShake = s.deathShake := by
  unfold bumpCeiling
  split_ifs <;> rfl

@[simp] theorem bumpCeiling_holdJumpActive (s : State) :
    (bumpCeiling s).holdJumpActive = s.holdJumpActive := by
  unfold bumpCeiling
  split_ifs <;> rfl

@[simp] theorem bumpCeiling_prevGrounded (s : State) :
    (bumpCeiling s).prevGrounded = s.prevGrounded := by
  unfold bumpCeiling
  split_ifs <;> rfl

@[simp] theorem bumpCeiling_gravityDir (s : State) :
    (bumpCeiling s).gravityDir = s.gravityDir := by
  unfold bumpCeiling
  split_ifs <;> rfl

@[simp] theorem bumpCeiling_gravityFlipTimer (s : State) :
    (bumpCeiling s).gravityFlipTimer = s.gravityFlipTimer := by
  unfold bumpCeiling
  split_ifs <;> rfl

@[simp] theorem bumpCeiling_levelFinished (s : State) :
    (bumpCeiling s).levelFinished = s.levelFinished := by
  unfold bumpCeiling
  split_ifs <;> rfl

@[simp] theorem bumpCeiling_speedTimer (s : State) :
    (bumpCeiling s).speedTimer = s.speedTimer := by
  unfold bumpCeiling
  split_ifs <;> rfl

@[simp] theorem bumpCeiling_speedMultiplierActive (s : State) :
    (bumpCeiling s).speedMultiplierActive = s.speedMultiplierActive := by
  unfold bumpCeiling
  split_ifs <;> rfl

@[simp] theorem bumpCeiling_camX (s : State) :
    (bumpCeiling s).camX = s.camX := by
  unfold bumpCeiling
  split_ifs <;> rfl

@[simp] theorem bumpCeiling_particles (s : State) :
    (bumpCeiling s).particles = s.particles := by
  unfold bumpCeiling
  split_ifs <;> rfl

@[simp] theorem bumpCeiling_rngCalls (s : State) :
    (bumpCeiling s).rngCalls = s.rngCalls := by
  unfold bumpCeiling
  split_ifs <;> rfl

@[simp] theorem landOnCeiling_songTime (s : State) :
    (landOnCeiling s).songTime = s.songTime := by
  unfold landOnCeiling
  split_ifs <;> rfl

@[simp] theorem landOnCeiling_baseRunSpeed (s : State) :
    (landOnCeiling s).baseRunSpeed = s.baseRunSpeed := by
  unfold landOnCeiling
  split_ifs <;> rfl

@[simp] theorem landOnCeiling_runSpeed (s : State) :
    (landOnCeiling s).runSpeed = s.runSpeed := by
  unfold landOnCeiling
  split_ifs <;> rfl

@[simp] theorem landOnCeiling_alive (s : State) :
    (landOnCeiling s).alive = s.alive := by
  unfold landOnCeiling
  split_ifs <;> rfl

@[simp] theorem landOnCeiling_deathShake (s : State) :
    (landOnCeiling s).deathShake = s.deathShake := by
  unfold landOnCeiling
  split_ifs <;> rfl

@[simp] theorem landOnCeiling_holdJumpActive (s : State) :
    (landOnCeiling s).holdJumpActive = s.holdJumpActive := by
  unfold landOnCeiling
  split_ifs <;> rfl

@[simp] theorem landOnCeiling_prevGrounded (s : State) :
    (landOnCeiling s).prevGrounded = s.prevGrounded := by
  unfold landOnCeiling
  split_ifs <;> rfl

@[simp] theorem landOnCeiling_gravityDir (s : State) :
    (landOnCeiling s).gravityDir = s.gravityDir := by
  unfold landOnCeiling
  split_ifs <;> rfl

@[simp] theorem landOnCeiling_gravityFlipTimer (s : State) :
    (landOnCeiling s).gravityFlipTimer = s.gravityFlipTimer := by
  unfold landOnCeiling
  split_ifs <;> rfl

@[simp] theorem landOnCeiling_levelFinished (s : State) :
    (landOnCeiling s).levelFinished = s.levelFinished := by
  unfold landOnCeiling
  split_ifs <;> rfl

@[simp] theorem landOnCeiling_speedTimer (s : State) :
    (landOnCeiling s).speedTimer = s.speedTimer := by
  unfold landOnCeiling
  split_ifs <;> rfl

@[simp] theorem landOnCeiling_speedMultiplierActive (s : State) :
    (landOnCeiling s).speedMultiplierActive = s.speedMultiplierActive := by
  unfold landOnCeiling
  split_ifs <;> rfl

@[simp] theorem landOnCeiling_camX (s : State) :
    (landOnCeiling s).camX = s.camX := by
  unfold landOnCeiling
  split_ifs <;> rfl

@[simp] theorem landOnCeiling_particles (s : State) :
    (landOnCeiling s).particles = s.particles := by
  unfold landOnCeiling
  split_ifs <;> rfl

@[simp] theorem landOnCeiling_rngCalls (s : State) :
    (landOnCeiling s).rngCalls = s.rngCalls := by
  unfold landOnCeiling
  split_ifs <;> rfl

@[simp] theorem bumpFloor_songTime (s : State) :
    (bumpFloor s).songTime = s.songTime := by
  unfold bumpFloor
  split_ifs <;> rfl

@[simp] theorem bumpFloor_baseRunSpeed (s : State) :
    (bumpFloor s).baseRunSpeed = s.baseRunSpeed := by
  unfold bumpFloor
  split_ifs <;> rfl

@[simp] theorem bumpFloor_runSpeed (s : State) :
    (bumpFloor s).runSpeed = s.runSpeed := by
  unfold bumpFloor
  split_ifs <;> rfl

@[simp] theorem bumpFloor_grounded (s : State) :
    (bumpFloor s).grounded = s.grounded := by
  unfold bumpFloor
  split_ifs <;> rfl

@[simp] theorem bumpFloor_alive (s : State) :
    (bumpFloor s).alive = s.alive := by
  unfold bumpFloor
  split_ifs <;> rfl

@[simp] theorem bumpFloor_deathShake (s : State) :
    (bumpFloor s).deathShake = s.deathShake := by
  unfold bumpFloor
  split_ifs <;> rfl

@[simp] theorem bumpFloor_holdJumpActive (s : State) :
    (bumpFloor s).holdJumpActive = s.holdJumpActive := by
  unfold bumpFloor
  split_ifs <;> rfl

@[simp] theorem bumpFloor_prevGrounded (s : State) :
    (bumpFloor s).prevGrounded = s.prevGrounded := by
  unfold bumpFloor
  split_ifs <;> rfl

@[simp] theorem bumpFloor_gravityDir (s : State) :
    (bumpFloor s).gravityDir = s.gravityDir := by
  unfold bumpFloor
  split_ifs <;> rfl

@[simp] theorem bumpFloor_gravityFlipTimer (s : State) :
    (bumpFloor s).gravityFlipTimer = s.gravityFlipTimer := by
  unfold bumpFloor
  split_ifs <;> rfl

@[simp] theorem bumpFloor_levelFinished (s : State) :
    (bumpFloor s).levelFinished = s.levelFinished := by
  unfold bumpFloor
  split_ifs <;> rfl

@[simp] theorem bumpFloor_speedTimer (s : State) :
    (bumpFloor s).speedTimer = s.speedTimer := by
  unfold bumpFloor
  split_ifs <;> rfl

@[simp] theorem bumpFloor_speedMultiplierActive (s : State) :
    (bumpFloor s).speedMultiplierActive = s.speedMultiplierActive := by
  unfold bumpFloor
  split_ifs <;> rfl

@[simp] theorem bumpFloor_camX (s : State) :
    (bumpFloor s).camX = s.camX := by
  unfold bumpFloor
  split_ifs <;> rfl

@[simp] theorem bumpFloor_particles (s : State) :
    (bumpFloor s).particles = s.particles := by
  unfold bumpFloor
  split_ifs <;> rfl

@[simp] theorem bumpFloor_rngCalls (s : State) :
    (bumpFloor s).rngCalls = s.rngCalls := by
  unfold bumpFloor
  split_ifs <;> rfl

@[simp] theorem floorCeilingStage_songTime (s : State) :
    (floorCeilingStage s).songTime = s.songTime := by
  unfold floorCeilingStage
  split_ifs <;> first | rw [bumpCeiling_songTime, landOnFloor_songTime] | rw [bumpFloor_songTime, landOnCeiling_songTime] | rfl

@[simp] theorem floorCeilingStage_baseRunSpeed (s : State) :
    (floorCeilingStage s).baseRunSpeed = s.baseRunSpeed := by
  unfold floorCeilingStage
  split_ifs <;> first | rw [bumpCeiling_baseRunSpeed, landOnFloor_baseRunSpeed] | rw [bumpFloor_baseRunSpeed, landOnCeiling_baseRunSpeed] | rfl

@[simp] theorem floorCeilingStage_runSpeed (s : State) :
    (floorCeilingStage s).runSpeed = s.runSpeed := by
  unfold floorCeilingStage
  split_ifs <;> first | rw [bumpCeiling_runSpeed, landOnFloor_runSpeed] | rw [bumpFloor_runSpeed, landOnCeiling_runSpeed] | rfl

@[simp] theorem floorCeilingStage_alive (s : State) :
    (floorCeilingStage s).alive = s.alive := by
  unfold floorCeilingStage
  split_ifs <;> first | rw [bumpCeiling_alive, landOnFloor_alive] | rw [bumpFloor_alive, landOnCeiling_alive] | rfl

@[simp] theorem floorCeilingStage_deathShake (s : State) :
    (floorCeilingStage s).deathShake = s.deathShake := by
  unfold floorCeilingStage
  split_ifs <;> first | rw [bumpCeiling_deathShake, landOnFloor_deathShake] | rw [bumpFloor_deathShake, landOnCeiling_deathShake] | rfl

@[simp] theorem floorCeilingStage_holdJumpActive (s : State) :
    (floorCeilingStage s).holdJumpActive = s.holdJumpActive := by
  unfold floorCeilingStage
  split_ifs <;> first | rw [bumpCeiling_holdJumpActive, landOnFloor_holdJumpActive] | rw [bumpFloor_holdJumpActive, landOnCeiling_holdJumpActive] | rfl

@[simp] theorem floorCeilingStage_prevGrounded (s : State) :
    (floorCeilingStage s).prevGrounded = s.prevGrounded := by
  unfold floorCeilingStage
  split_ifs <;> first | rw [bumpCeiling_prevGrounded, landOnFloor_prevGrounded] | rw [bumpFloor_prevGrounded, landOnCeiling_prevGrounded] | rfl

@[simp] theorem floorCeilingStage_gravityDir (s : State) :
    (floorCeilingStage s).gravityDir = s.gravityDir := by
  unfold floorCeilingStage
  split_ifs <;> first | rw [bumpCeiling_gravityDir, landOnFloor_gravityDir] | rw [bumpFloor_gravityDir, landOnCeiling_gravityDir] | rfl

@[simp] theorem floorCeilingStage_gravityFlipTimer (s : State) :
    (floorCeilingStage s).gravityFlipTimer = s.gravityFlipTimer := by
  unfold floorCeilingStage
  split_ifs <;> first | rw [bumpCeiling_gravityFlipTimer, landOnFloor_gravityFlipTimer] | rw [bumpFloor_gravityFlipTimer, landOnCeiling_gravityFlipTimer] | rfl

@[simp] theorem floorCeilingStage_levelFinished (s : State) :
    (floorCeilingStage s).levelFinished = s.levelFinished := by
  unfold floorCeilingStage
  split_ifs <;> first | rw [bumpCeiling_levelFinished, landOnFloor_levelFinished] | rw [bumpFloor_levelFinished, landOnCeiling_levelFinished] | rfl

@[simp] theorem floorCeilingStage_speedTimer (s : State) :
    (floorCeilingStage s).speedTimer = s.speedTimer := by
  unfold floorCeilingStage
  split_ifs <;> first | rw [bumpCeiling_speedTimer, landOnFloor_speedTimer] | rw [bumpFloor_speedTimer, landOnCeiling_speedTimer] | rfl

@[simp] theorem floorCeilingStage_speedMultiplierActive (s : State) :
    (floorCeilingStage s).speedMultiplierActive = s.speedMultiplierActive := by
  unfold floorCeilingStage
  split_ifs <;> first | rw [bumpCeiling_speedMultiplierActive, landOnFloor_speedMultiplierActive] | rw [bumpFloor_speedMultiplierActive, landOnCeiling_speedMultiplierActive] | rfl

@[simp] theorem floorCeilingStage_camX (s : State) :
    (floorCeilingStage s).camX = s.camX := by
  unfold floorCeilingStage
  split_ifs <;> first | rw [bumpCeiling_camX, landOnFloor_camX] | rw [bumpFloor_camX, landOnCeiling_camX] | rfl

@[simp] theorem floorCeilingStage_particles (s : State) :
    (floorCeilingStage s).particles = s.particles := by
  unfold floorCeilingStage
  split_ifs <;> first | rw [bumpCeiling_particles, landOnFloor_particles] | rw [bumpFloor_particles, landOnCeiling_particles] | rfl

@[simp] theorem floorCeilingStage_rngCalls (s : State) :
    (floorCeilingStage s).rngCalls = s.rngCalls := by
  unfold floorCeilingStage
  split_ifs <;> first | rw [bumpCeiling_rngCalls, landOnFloor_rngCalls] | rw [bumpFloor_rngCalls, landOnCeiling_rngCalls] | rfl

@[simp] theorem carry_songTime (X : Extern) (dt t : ℚ) (p : MovingPlatform) (s : State) :
    (carry X dt t p s).songTime = s.songTime := by
  unfold carry
  split_ifs <;> rfl

@[simp] theorem carry_playerVel (X : Extern) (dt t : ℚ) (p : MovingPlatform) (s : State) :
    (carry X dt t p s).playerVel = s.playerVel := by
  unfold carry
  split_ifs <;> rfl

@[simp] theorem carry_baseRunSpeed (X : Extern) (dt t : ℚ) (p : MovingPlatform) (s : State) :
    (carry X dt t p s).baseRunSpeed = s.baseRunSpeed := by
  unfold carry
  split_ifs <;> rfl

@[simp] theorem carry_runSpeed (X : Extern) (dt t : ℚ) (p : MovingPlatform) (s : State) :
    (carry X dt t p s).runSpeed = s.runSpeed := by
  unfold carry
  split_ifs <;> rfl

@[simp] theorem carry_grounded (X : Extern) (dt t : ℚ) (p : MovingPlatform) (s : State) :
    (carry X dt t p s).grounded = s.grounded := by
  unfold carry
  split_ifs <;> rfl

@[simp] theorem carry_alive (X : Extern) (dt t : ℚ) (p : MovingPlatform) (s : State) :
    (carry X dt t p s).alive = s.alive := by
  unfold carry
  split_ifs <;> rfl

@[simp] theorem carry_deathShake (X : Extern) (dt t : ℚ) (p : MovingPlatform) (s : State) :
    (carry X dt t p s).deathShake = s.deathShake := by
  unfold carry
  split_ifs <;> rfl

@[simp] theorem carry_holdJumpActive (X : Extern) (dt t : ℚ) (p : MovingPlatform) (s : State) :
    (carry X dt t p s).holdJumpActive = s.holdJumpActive := by
  unfold carry
  split_ifs <;> rfl

@[simp] theorem carry_prevGrounded (X : Extern) (dt t : ℚ) (p : MovingPlatform) (s : State) :
    (carry X dt t p s).prevGrounded = s.prevGrounded := by
  unfold carry
  split_ifs <;> rfl

@[simp] theorem carry_gravityDir (X : Extern) (dt t : ℚ) (p : MovingPlatform) (s : State) :
    (carry X dt t p s).gravityDir = s.gravityDir := by
  unfold carry
  split_ifs <;> rfl

@[simp] theorem carry_gravityFlipTimer (X : Extern) (dt t : ℚ) (p : MovingPlatform) (s : State) :
    (carry X dt t p s).gravityFlipTimer = s.gravityFlipTimer := by
  unfold carry
  split_ifs <;> rfl

@[simp] theorem carry_levelFinished (X : Extern) (dt t : ℚ) (p : MovingPlatform) (s : State) :
    (carry X dt t p s).levelFinished = s.levelFinished := by
  unfold carry
  split_ifs <;> rfl

@[simp] theorem carry_speedTimer (X : Extern) (dt t : ℚ) (p : MovingPlatform) (s : State) :
    (carry X dt t p s).speedTimer = s.speedTimer := by
  unfold carry
  split_ifs <;> rfl

@[simp] theorem carry_speedMultiplierActive (X : Extern) (dt t : ℚ) (p : MovingPlatform) (s : State) :
    (carry X dt t p s).speedMultiplierActive = s.speedMultiplierActive := by
  unfold carry
  split_ifs <;> rfl

@[simp] theorem carry_camX (X : Extern) (dt t : ℚ) (p : MovingPlatform) (s : State) :
    (carry X dt t p s).camX = s.camX := by
  unfold carry
  split_ifs <;> rfl

@[simp] theorem carry_particles (X : Extern) (dt t : ℚ) (p : MovingPlatform) (s : State) :
    (carry X dt t p s).particles = s.particles := by
  unfold carry
  split_ifs <;> rfl

@[simp] theorem carry_rngCalls (X : Extern) (dt t : ℚ) (p : MovingPlatform) (s : State) :
    (carry X dt t p s).rngCalls = s.rngCalls := by
  unfold carry
  split_ifs <;> rfl

@[simp] theorem resolveContact_songTime (X : Extern) (dt t : ℚ) (p : MovingPlatform) (pr : Rectangle) (s : State) :
    (resolveContact X dt t p pr s).songTime = s.songTime := by
  unfold resolveContact
  split_ifs <;> first | rw [carry_songTime] | rfl

@[simp] theorem resolveContact_baseRunSpeed (X : Extern) (dt t : ℚ) (p : MovingPlatform) (pr : Rectangle) (s : State) :
    (resolveContact X dt t p pr s).baseRunSpeed = s.baseRunSpeed := by
  unfold resolveContact
  split_ifs <;> first | rw [carry_baseRunSpeed] | rfl

@[simp] theorem resolveContact_runSpeed (X : Extern) (dt t : ℚ) (p : MovingPlatform) (pr : Rectangle) (s : State) :
    (resolveContact X dt t p pr s).runSpeed = s.runSpeed := by
  unfold resolveContact
  split_ifs <;> first | rw [carry_runSpeed] | rfl

@[simp] theorem resolveContact_alive (X : Extern) (dt t : ℚ) (p : MovingPlatform) (pr : Rectangle) (s : State) :
    (resolveContact X dt t p pr s).alive = s.alive := by
  unfold resolveContact
  split_ifs <;> first | rw [carry_alive] | rfl

@[simp] theorem resolveContact_deathShake (X : Extern) (dt t : ℚ) (p : MovingPlatform) (pr : Rectangle) (s : State) :
    (resolveContact X dt t p pr s).deathShake = s.deathShake := by
  unfold resolveContact
  split_ifs <;> first | rw [carry_deathShake] | rfl

@[simp] theorem resolveContact_holdJumpActive (X : Extern) (dt t : ℚ) (p : MovingPlatform) (pr : Rectangle) (s : State) :
    (resolveContact X dt t p pr s).holdJumpActive = s.holdJumpActive := by
  unfold resolveContact
  split_ifs <;> first | rw [carry_holdJumpActive] | rfl

@[simp] theorem resolveContact_prevGrounded (X : Extern) (dt t : ℚ) (p : MovingPlatform) (pr : Rectangle) (s : State) :
    (resolveContact X dt t p pr s).prevGrounded = s.prevGrounded := by
  unfold resolveContact
  split_ifs <;> first | rw [carry_prevGrounded] | rfl

@[simp] theorem resolveContact_gravityDir (X : Extern) (dt t : ℚ) (p : MovingPlatform) (pr : Rectangle) (s : State) :
    (resolveContact X dt t p pr s).gravityDir = s.gravityDir := by
  unfold resolveContact
  split_ifs <;> first | rw [carry_gravityDir] | rfl

@[simp] theorem resolveContact_gravityFlipTimer (X : Extern) (dt t : ℚ) (p : MovingPlatform) (pr : Rectangle) (s : State) :
    (resolveContact X dt t p pr s).gravityFlipTimer = s.gravityFlipTimer := by
  unfold resolveContact
  split_ifs <;> first | rw [carry_gravityFlipTimer] | rfl

@[simp] theorem resolveContact_levelFinished (X : Extern) (dt t : ℚ) (p : MovingPlatform) (pr : Rectangle) (s : State) :
    (resolveContact X dt t p pr s).levelFinished = s.levelFinished := by
  unfold resolveContact
  split_ifs <;> first | rw [carry_levelFinished] | rfl

@[simp] theorem resolveContact_speedTimer (X : Extern) (dt t : ℚ) (p : MovingPlatform) (pr : Rectangle) (s : State) :
    (resolveContact X dt t p pr s).speedTimer = s.speedTimer := by
  unfold resolveContact
  split_ifs <;> first | rw [carry_speedTimer] | rfl

@[simp] theorem resolveContact_speedMultiplierActive (X : Extern) (dt t : ℚ) (p : MovingPlatform) (pr : Rectangle) (s : State) :
    (resolveContact X dt t p pr s).speedMultiplierActive = s.speedMultiplierActive := by
  unfold resolveContact
  split_ifs <;> first | rw [carry_speedMultiplierActive] | rfl

@[simp] theorem resolveContact_camX (X : Extern) (dt t : ℚ) (p : MovingPlatform) (pr : Rectangle) (s : State) :
    (resolveContact X dt t p pr s).camX = s.camX := by
  unfold resolveContact
  split_ifs <;> first | rw [carry_camX] | rfl

@[simp] theorem resolveContact_particles (X : Extern) (dt t : ℚ) (p : MovingPlatform) (pr : Rectangle) (s : State) :
    (resolveContact X dt t p pr s).particles = s.particles := by
  unfold resolveContact
  split_ifs <;> first | rw [carry_particles] | rfl

@[simp] theorem resolveContact_rngCalls (X : Extern) (dt t : ℚ) (p : MovingPlatform) (pr : Rectangle) (s : State) :
    (resolveContact X dt t p pr s).rngCalls = s.rngCalls := by
  unfold resolveContact
  split_ifs <;> first | rw [carry_rngCalls] | rfl

@[simp] theorem resolvePlatform_songTime (X : Extern) (dt t : ℚ) (s : State) (p : MovingPlatform) :
    (resolvePlatform X dt t s p).songTime = s.songTime := by
  unfold resolvePlatform
  split_ifs <;> first | rw [resolveContact_songTime] | rfl

@[simp] theorem resolvePlatform_baseRunSpeed (X : Extern) (dt t : ℚ) (s : State) (p : MovingPlatform) :
    (resolvePlatform X dt t s p).baseRunSpeed = s.baseRunSpeed := by
  unfold resolvePlatform
  split_ifs <;> first | rw [resolveContact_baseRunSpeed] | rfl

@[simp] theorem resolvePlatform_runSpeed (X : Extern) (dt t : ℚ) (s : State) (p : MovingPlatform) :
    (resolvePlatform X dt t s p).runSpeed = s.runSpeed := by
  unfold resolvePlatform
  split_ifs <;> first | rw [resolveContact_runSpeed] | rfl

@[simp] theorem resolvePlatform_alive (X : Extern) (dt t : ℚ) (s : State) (p : MovingPlatform) :
    (resolvePlatform X dt t s p).alive = s.alive := by
  unfold resolvePlatform
  split_ifs <;> first | rw [resolveContact_alive] | rfl

@[simp] theorem resolvePlatform_deathShake (X : Extern) (dt t : ℚ) (s : State) (p : MovingPlatform) :
    (resolvePlatform X dt t s p).deathShake = s.deathShake := by
  unfold resolvePlatform
  split_ifs <;> first | rw [resolveContact_deathShake] | rfl

@[simp] theorem resolvePlatform_holdJumpActive (X : Extern) (dt t : ℚ) (s : State) (p : MovingPlatform) :
    (resolvePlatform X dt t s p).holdJumpActive = s.holdJumpActive := by
  unfold resolvePlatform
  split_ifs <;> first | rw [resolveContact_holdJumpActive] | rfl

@[simp] theorem resolvePlatform_prevGrounded (X : Extern) (dt t : ℚ) (s : State) (p : MovingPlatform) :
    (resolvePlatform X dt t s p).prevGrounded = s.prevGrounded := by
  unfold resolvePlatform
  split_ifs <;> first | rw [resolveContact_prevGrounded] | rfl

@[simp] theorem resolvePlatform_gravityDir (X : Extern) (dt t : ℚ) (s : State) (p : MovingPlatform) :
    (resolvePlatform X dt t s p).gravityDir = s.gravityDir := by
  unfold resolvePlatform
  split_ifs <;> first | rw [resolveContact_gravityDir] | rfl

@[simp] theorem resolvePlatform_gravityFlipTimer (X : Extern) (dt t : ℚ) (s : State) (p : MovingPlatform) :
    (resolvePlatform X dt t s p).gravityFlipTimer = s.gravityFlipTimer := by
  unfold resolvePlatform
  split_ifs <;> first | rw [resolveContact_gravityFlipTimer] | rfl

@[simp] theorem resolvePlatform_levelFinished (X : Extern) (dt t : ℚ) (s : State) (p : MovingPlatform) :
    (resolvePlatform X dt t s p).levelFinished = s.levelFinished := by
  unfold resolvePlatform
  split_ifs <;> first | rw [resolveContact_levelFinished] | rfl

@[simp] theorem resolvePlatform_speedTimer (X : Extern) (dt t : ℚ) (s : State) (p : MovingPlatform) :
    (resolvePlatform X dt t s p).speedTimer = s.speedTimer := by
  unfold resolvePlatform
  split_ifs <;> first | rw [resolveContact_speedTimer] | rfl

@[simp] theorem resolvePlatform_speedMultiplierActive (X : Extern) (dt t : ℚ) (s : State) (p : MovingPlatform) :
    (resolvePlatform X dt t s p).speedMultiplierActive = s.speedMultiplierActive := by
  unfold resolvePlatform
  split_ifs <;> first | rw [resolveContact_speedMultiplierActive] | rfl

@[simp] theorem resolvePlatform_camX (X : Extern) (dt t : ℚ) (s : State) (p : MovingPlatform) :
    (resolvePlatform X dt t s p).camX = s.camX := by
  unfold resolvePlatform
  split_ifs <;> first | rw [resolveContact_camX] | rfl

@[simp] theorem resolvePlatform_particles (X : Extern) (dt t : ℚ) (s : State) (p : MovingPlatform) :
    (resolvePlatform X dt t s p).particles = s.particles := by
  unfold resolvePlatform
  split_ifs <;> first | rw [resolveContact_particles] | rfl

@[simp] theorem resolvePlatform_rngCalls (X : Extern) (dt t : ℚ) (s : State) (p : MovingPlatform) :
    (resolvePlatform X dt t s p).rngCalls = s.rngCalls := by
  unfold resolvePlatform
  split_ifs <;> first | rw [resolveContact_rngCalls] | rfl

@[simp] theorem platformStage_songTime (X : Extern) (L : Level) (dt : ℚ) (s : State) :
    (platformStage X L dt s).songTime = s.songTime := by
  unfold platformStage
  exact foldl_keeps (fun r => r.songTime) _ (fun _ _ => resolvePlatform_songTime _ _ _ _ _) _ _

@[simp] theorem platformStage_baseRunSpeed (X : Extern) (L : Level) (dt : ℚ) (s : State) :
    (platformStage X L dt s).baseRunSpeed = s.baseRunSpeed := by
  unfold platformStage
  exact foldl_keeps (fun r => r.baseRunSpeed) _ (fun _ _ => resolvePlatform_baseRunSpeed _ _ _ _ _) _ _

@[simp] theorem platformStage_runSpeed (X : Extern) (L : Level) (dt : ℚ) (s : State) :
    (platformStage X L dt s).runSpeed = s.runSpeed := by
  unfold platformStage
  exact foldl_keeps (fun r => r.runSpeed) _ (fun _ _ => resolvePlatform_runSpeed _ _ _ _ _) _ _

@[simp] theorem platformStage_alive (X : Extern) (L : Level) (dt : ℚ) (s : State) :
    (platformStage X L dt s).alive = s.alive := by
  unfold platformStage
  exact foldl_keeps (fun r => r.alive) _ (fun _ _ => resolvePlatform_alive _ _ _ _ _) _ _

@[simp] theorem platformStage_deathShake (X : Extern) (L : Level) (dt : ℚ) (s : State) :
    (platformStage X L dt s).deathShake = s.deathShake := by
  unfold platformStage
  exact foldl_keeps (fun r => r.deathShake) _ (fun _ _ => resolvePlatform_deathShake _ _ _ _ _) _ _

@[simp] theorem platformStage_holdJumpActive (X : Extern) (L : Level) (dt : ℚ) (s : State) :
    (platformStage X L dt s).holdJumpActive = s.holdJumpActive := by
  unfold platformStage
  exact foldl_keeps (fun r => r.holdJumpActive) _ (fun _ _ => resolvePlatform_holdJumpActive _ _ _ _ _) _ _

@[simp] theorem platformStage_prevGrounded (X : Extern) (L : Level) (dt : ℚ) (s : State) :
    (platformStage X L dt s).prevGrounded = s.prevGrounded := by
  unfold platformStage
  exact foldl_keeps (fun r => r.prevGrounded) _ (fun _ _ => resolvePlatform_prevGrounded _ _ _ _ _) _ _

@[simp] theorem platformStage_gravityDir (X : Extern) (L : Level) (dt : ℚ) (s : State) :
    (platformStage X L dt s).gravityDir = s.gravityDir := by
  unfold platformStage
  exact foldl_keeps (fun r => r.gravityDir) _ (fun _ _ => resolvePlatform_gravityDir _ _ _ _ _) _ _

@[simp] theorem platformStage_gravityFlipTimer (X : Extern) (L : Level) (dt : ℚ) (s : State) :
    (platformStage X L dt s).gravityFlipTimer = s.gravityFlipTimer := by
  unfold platformStage
  exact foldl_keeps (fun r => r.gravityFlipTimer) _ (fun _ _ => resolvePlatform_gravityFlipTimer _ _ _ _ _) _ _

@[simp] theorem platformStage_levelFinished (X : Extern) (L : Level) (dt : ℚ) (s : State) :
    (platformStage X L dt s).levelFinished = s.levelFinished := by
  unfold platformStage
  exact foldl_keeps (fun r => r.levelFinished) _ (fun _ _ => resolvePlatform_levelFinished _ _ _ _ _) _ _

@[simp] theorem platformStage_speedTimer (X : Extern) (L : Level) (dt : ℚ) (s : State) :
    (platformStage X L dt s).speedTimer = s.speedTimer := by
  unfold platformStage
  exact foldl_keeps (fun r => r.speedTimer) _ (fun _ _ => resolvePlatform_speedTimer _ _ _ _ _) _ _

@[simp] theorem platformStage_speedMultiplierActive (X : Extern) (L : Level) (dt : ℚ) (s : State) :
    (platformStage X L dt s).speedMultiplierActive = s.speedMultiplierActive := by
  unfold platformStage
  exact foldl_keeps (fun r => r.speedMultiplierActive) _ (fun _ _ => resolvePlatform_speedMultiplierActive _ _ _ _ _) _ _

@[simp] theorem platformStage_camX (X : Extern) (L : Level) (dt : ℚ) (s : State) :
    (platformStage X L dt s).camX = s.camX := by
  unfold platformStage
  exact foldl_keeps (fun r => r.camX) _ (fun _ _ => resolvePlatform_camX _ _ _ _ _) _ _

@[simp] theorem platformStage_particles (X : Extern) (L : Level) (dt : ℚ) (s : State) :
    (platformStage X L dt s).particles = s.particles := by
  unfold platformStage
  exact foldl_keeps (fun r => r.particles) _ (fun _ _ => resolvePlatform_particles _ _ _ _ _) _ _

@[simp] theorem platformStage_rngCalls (X : Extern) (L : Level) (dt : ℚ) (s : State) :
    (platformStage X L dt s).rngCalls = s.rngCalls := by
  unfold platformStage
  exact foldl_keeps (fun r => r.rngCalls) _ (fun _ _ => resolvePlatform_rngCalls _ _ _ _ _) _ _

@[simp] theorem jumpPadStep_songTime (X : Extern) (s : State) (jp : JumpPad) :
    (jumpPadStep X s jp).songTime = s.songTime := by
  unfold jumpPadStep
  split_ifs <;> first | rw [spawn_songTime] | rfl

@[simp] theorem jumpPadStep_player (X : Extern) (s : State) (jp : JumpPad) :
    (jumpPadStep X s jp).player = s.player := by
  unfold jumpPadStep
  split_ifs <;> first | rw [spawn_player] | rfl

@[simp] theorem jumpPadStep_baseRunSpeed (X : Extern) (s : State) (jp : JumpPad) :
    (jumpPadStep X s jp).baseRunSpeed = s.baseRunSpeed := by
  unfold jumpPadStep
  split_ifs <;> first | rw [spawn_baseRunSpeed] | rfl

@[simp] theorem jumpPadStep_runSpeed (X : Extern) (s : State) (jp : JumpPad) :
    (jumpPadStep X s jp).runSpeed = s.runSpeed := by
  unfold jumpPadStep
  split_ifs <;> first | rw [spawn_runSpeed] | rfl

@[simp] theorem jumpPadStep_alive (X : Extern) (s : State) (jp : JumpPad) :
    (jumpPadStep X s jp).alive = s.alive := by
  unfold jumpPadStep
  split_ifs <;> first | rw [spawn_alive] | rfl

@[simp] theorem jumpPadStep_deathShake (X : Extern) (s : State) (jp : JumpPad) :
    (jumpPadStep X s jp).deathShake = s.deathShake := by
  unfold jumpPadStep
  split_ifs <;> first | rw [spawn_deathShake] | rfl

@[simp] theorem jumpPadStep_holdJumpActive (X : Extern) (s : State) (jp : JumpPad) :
    (jumpPadStep X s jp).holdJumpActive = s.holdJumpActive := by
  unfold jumpPadStep
  split_ifs <;> first | rw [spawn_holdJumpActive] | rfl

@[simp] theorem jumpPadStep_prevGrounded (X : Extern) (s : State) (jp : JumpPad) :
    (jumpPadStep X s jp).prevGrounded = s.prevGrounded := by
  unfold jumpPadStep
  split_ifs <;> first | rw [spawn_prevGrounded] | rfl

@[simp] theorem jumpPadStep_gravityDir (X : Extern) (s : State) (jp : JumpPad) :
    (jumpPadStep X s jp).gravityDir = s.gravityDir := by
  unfold jumpPadStep
  split_ifs <;> first | rw [spawn_gravityDir] | rfl

@[simp] theorem jumpPadStep_gravityFlipTimer (X : Extern) (s : State) (jp : JumpPad) :
    (jumpPadStep X s jp).gravityFlipTimer = s.gravityFlipTimer := by
  unfold jumpPadStep
  split_ifs <;> first | rw [spawn_gravityFlipTimer] | rfl

@[simp] theorem jumpPadStep_levelFinished (X : Extern) (s : State) (jp : JumpPad) :
    (jumpPadStep X s jp).levelFinished = s.levelFinished := by
  unfold jumpPadStep
  split_ifs <;> first | rw [spawn_levelFinished] | rfl

@[simp] theorem jumpPadStep_speedTimer (X : Extern) (s : State) (jp : JumpPad) :
    (jumpPadStep X s jp).speedTimer = s.speedTimer := by
  unfold jumpPadStep
  split_ifs <;> first | rw [spawn_speedTimer] | rfl

@[simp] theorem jumpPadStep_speedMultiplierActive (X : Extern) (s : State) (jp : JumpPad) :
    (jumpPadStep X s jp).speedMultiplierActive = s.speedMultiplierActive := by
  unfold jumpPadStep
  split_ifs <;> first | rw [spawn_speedMultiplierActive] | rfl

@[simp] theorem jumpPadStep_camX (X : Extern) (s : State) (jp : JumpPad) :
    (jumpPadStep X s jp).camX = s.camX := by
  unfold jumpPadStep
  split_ifs <;> first | rw [spawn_camX] | rfl

@[simp] theorem jumpPadStage_songTime (X : Extern) (L : Level) (s : State) :
    (jumpPadStage X L s).songTime = s.songTime := by
  unfold jumpPadStage
  exact foldl_keeps (fun r => r.songTime) _ (fun _ _ => jumpPadStep_songTime _ _ _) _ _

@[simp] theorem jumpPadStage_player (X : Extern) (L : Level) (s : State) :
    (jumpPadStage X L s).player = s.player := by
  unfold jumpPadStage
  exact foldl_keeps (fun r => r.player) _ (fun _ _ => jumpPadStep_player _ _ _) _ _

@[simp] theorem jumpPadStage_baseRunSpeed (X : Extern) (L : Level) (s : State) :
    (jumpPadStage X L s).baseRunSpeed = s.baseRunSpeed := by
  unfold jumpPadStage
  exact foldl_keeps (fun r => r.baseRunSpeed) _ (fun _ _ => jumpPadStep_baseRunSpeed _ _ _) _ _

@[simp] theorem jumpPadStage_runSpeed (X : Extern) (L : Level) (s : State) :
    (jumpPadStage X L s).runSpeed = s.runSpeed := by
  unfold jumpPadStage
  exact foldl_keeps (fun r => r.runSpeed) _ (fun _ _ => jumpPadStep_runSpeed _ _ _) _ _

@[simp] theorem jumpPadStage_alive (X : Extern) (L : Level) (s : State) :
    (jumpPadStage X L s).alive = s.alive := by
  unfold jumpPadStage
  exact foldl_keeps (fun r => r.alive) _ (fun _ _ => jumpPadStep_alive _ _ _) _ _

@[simp] theorem jumpPadStage_deathShake (X : Extern) (L : Level) (s : State) :
    (jumpPadStage X L s).deathShake = s.deathShake := by
  unfold jumpPadStage
  exact foldl_keeps (fun r => r.deathShake) _ (fun _ _ => jumpPadStep_deathShake _ _ _) _ _

@[simp] theorem jumpPadStage_holdJumpActive (X : Extern) (L : Level) (s : State) :
    (jumpPadStage X L s).holdJumpActive = s.holdJumpActive := by
  unfold jumpPadStage
  exact foldl_keeps (fun r => r.holdJumpActive) _ (fun _ _ => jumpPadStep_holdJumpActive _ _ _) _ _

@[simp] theorem jumpPadStage_prevGrounded (X : Extern) (L : Level) (s : State) :
    (jumpPadStage X L s).prevGrounded = s.prevGrounded := by
  unfold jumpPadStage
  exact foldl_keeps (fun r => r.prevGrounded) _ (fun _ _ => jumpPadStep_prevGrounded _ _ _) _ _

@[simp] theorem jumpPadStage_gravityDir (X : Extern) (L : Level) (s : State) :
    (jumpPadStage X L s).gravityDir = s.gravityDir := by
  unfold jumpPadStage
  exact foldl_keeps (fun r => r.gravityDir) _ (fun _ _ => jumpPadStep_gravityDir _ _ _) _ _

@[simp] theorem jumpPadStage_gravityFlipTimer (X : Extern) (L : Level) (s : State) :
    (jumpPadStage X L s).gravityFlipTimer = s.gravityFlipTimer := by
  unfold jumpPadStage
  exact foldl_keeps (fun r => r.gravityFlipTimer) _ (fun _ _ => jumpPadStep_gravityFlipTimer _ _ _) _ _

@[simp] theorem jumpPadStage_levelFinished (X : Extern) (L : Level) (s : State) :
    (jumpPadStage X L s).levelFinished = s.levelFinished := by
  unfold jumpPadStage
  exact foldl_keeps (fun r => r.levelFinished) _ (fun _ _ => jumpPadStep_levelFinished _ _ _) _ _

@[simp] theorem jumpPadStage_speedTimer (X : Extern) (L : Level) (s : State) :
    (jumpPadStage X L s).speedTimer = s.speedTimer := by
  unfold jumpPadStage
  exact foldl_keeps (fun r => r.speedTimer) _ (fun _ _ => jumpPadStep_speedTimer _ _ _) _ _

@[simp] theorem jumpPadStage_speedMultiplierActive (X : Extern) (L : Level) (s : State) :
    (jumpPadStage X L s).speedMultiplierActive = s.speedMultiplierActive := by
  unfold jumpPadStage
  exact foldl_keeps (fun r => r.speedMultiplierActive) _ (fun _ _ => jumpPadStep_speedMultiplierActive _ _ _) _ _

@[simp] theorem jumpPadStage_camX (X : Extern) (L : Level) (s : State) :
    (jumpPadStage X L s).camX = s.camX := by
  unfold jumpPadStage
  exact foldl_keeps (fun r => r.camX) _ (fun _ _ => jumpPadStep_camX _ _ _) _ _

@[simp] theorem speedPadStep_songTime (X : Extern) (s : State) (sp : SpeedPad) :
    (speedPadStep X s sp).songTime = s.songTime := by
  unfold speedPadStep
  split_ifs <;> first | rw [spawn_songTime] | rfl

@[simp] theorem speedPadStep_player (X : Extern) (s : State) (sp : SpeedPad) :
    (speedPadStep X s sp).player = s.player := by
  unfold speedPadStep
  split_ifs <;> first | rw [spawn_player] | rfl

@[simp] theorem speedPadStep_playerVel (X : Extern) (s : State) (sp : SpeedPad) :
    (speedPadStep X s sp).playerVel = s.playerVel := by
  unfold speedPadStep
  split_ifs <;> first | rw [spawn_playerVel] | rfl

@[simp] theorem speedPadStep_baseRunSpeed (X : Extern) (s : State) (sp : SpeedPad) :
    (speedPadStep X s sp).baseRunSpeed = s.baseRunSpeed := by
  unfold speedPadStep
  split_ifs <;> first | rw [spawn_baseRunSpeed] | rfl

@[simp] theorem speedPadStep_grounded (X : Extern) (s : State) (sp : SpeedPad) :
    (speedPadStep X s sp).grounded = s.grounded := by
  unfold speedPadStep
  split_ifs <;> first | rw [spawn_grounded] | rfl

@[simp] theorem speedPadStep_alive (X : Extern) (s : State) (sp : SpeedPad) :
    (speedPadStep X s sp).alive = s.alive := by
  unfold speedPadStep
  split_ifs <;> first | rw [spawn_alive] | rfl

@[simp] theorem speedPadStep_deathShake (X : Extern) (s : State) (sp : SpeedPad) :
    (speedPadStep X s sp).deathShake = s.deathShake := by
  unfold speedPadStep
  split_ifs <;> first | rw [spawn_deathShake] | rfl

@[simp] theorem speedPadStep_holdJumpActive (X : Extern) (s : State) (sp : SpeedPad) :
    (speedPadStep X s sp).holdJumpActive = s.holdJumpActive := by
  unfold speedPadStep
  split_ifs <;> first | rw [spawn_holdJumpActive] | rfl

@[simp] theorem speedPadStep_prevGrounded (X : Extern) (s : State) (sp : SpeedPad) :
    (speedPadStep X s sp).prevGrounded = s.prevGrounded := by
  unfold speedPadStep
  split_ifs <;> first | rw [spawn_prevGrounded] | rfl

@[simp] theorem speedPadStep_gravityDir (X : Extern) (s : State) (sp : SpeedPad) :
    (speedPadStep X s sp).gravityDir = s.gravityDir := by
  unfold speedPadStep
  split_ifs <;> first | rw [spawn_gravityDir] | rfl

@[simp] theorem speedPadStep_gravityFlipTimer (X : Extern) (s : State) (sp : SpeedPad) :
    (speedPadStep X s sp).gravityFlipTimer = s.gravityFlipTimer := by
  unfold speedPadStep
  split_ifs <;> first | rw [spawn_gravityFlipTimer] | rfl

@[simp] theorem speedPadStep_levelFinished (X : Extern) (s : State) (sp : SpeedPad) :
    (speedPadStep X s sp).levelFinished = s.levelFinished := by
  unfold speedPadStep
  split_ifs <;> first | rw [spawn_levelFinished] | rfl

@[simp] theorem speedPadStep_camX (X : Extern) (s : State) (sp : SpeedPad) :
    (speedPadStep X s sp).camX = s.camX := by
  unfold speedPadStep
  split_ifs <;> first | rw [spawn_camX] | rfl

@[simp] theorem speedPadStage_songTime (X : Extern) (L : Level) (s : State) :
    (speedPadStage X L s).songTime = s.songTime := by
  unfold speedPadStage
  exact foldl_keeps (fun r => r.songTime) _ (fun _ _ => speedPadStep_songTime _ _ _) _ _

@[simp] theorem speedPadStage_player (X : Extern) (L : Level) (s : State) :
    (speedPadStage X L s).player = s.player := by
  unfold speedPadStage
  exact foldl_keeps (fun r => r.player) _ (fun _ _ => speedPadStep_player _ _ _) _ _

@[simp] theorem speedPadStage_playerVel (X : Extern) (L : Level) (s : State) :
    (speedPadStage X L s).playerVel = s.playerVel := by
  unfold speedPadStage
  exact foldl_keeps (fun r => r.playerVel) _ (fun _ _ => speedPadStep_playerVel _ _ _) _ _

@[simp] theorem speedPadStage_baseRunSpeed (X : Extern) (L : Level) (s : State) :
    (speedPadStage X L s).baseRunSpeed = s.baseRunSpeed := by
  unfold speedPadStage
  exact foldl_keeps (fun r => r.baseRunSpeed) _ (fun _ _ => speedPadStep_baseRunSpeed _ _ _) _ _

@[simp] theorem speedPadStage_grounded (X : Extern) (L : Level) (s : State) :
    (speedPadStage X L s).grounded = s.grounded := by
  unfold speedPadStage
  exact foldl_keeps (fun r => r.grounded) _ (fun _ _ => speedPadStep_grounded _ _ _) _ _

@[simp] theorem speedPadStage_alive (X : Extern) (L : Level) (s : State) :
    (speedPadStage X L s).alive = s.alive := by
  unfold speedPadStage
  exact foldl_keeps (fun r => r.alive) _ (fun _ _ => speedPadStep_alive _ _ _) _ _

@[simp] theorem speedPadStage_deathShake (X : Extern) (L : Level) (s : State) :
    (speedPadStage X L s).deathShake = s.deathShake := by
  unfold speedPadStage
  exact foldl_keeps (fun r => r.deathShake) _ (fun _ _ => speedPadStep_deathShake _ _ _) _ _

@[simp] theorem speedPadStage_holdJumpActive (X : Extern) (L : Level) (s : State) :
    (speedPadStage X L s).holdJumpActive = s.holdJumpActive := by
  unfold speedPadStage
  exact foldl_keeps (fun r => r.holdJumpActive) _ (fun _ _ => speedPadStep_holdJumpActive _ _ _) _ _

@[simp] theorem speedPadStage_prevGrounded (X : Extern) (L : Level) (s : State) :
    (speedPadStage X L s).prevGrounded = s.prevGrounded := by
  unfold speedPadStage
  exact foldl_keeps (fun r => r.prevGrounded) _ (fun _ _ => speedPadStep_prevGrounded _ _ _) _ _

@[simp] theorem speedPadStage_gravityDir (X : Extern) (L : Level) (s : State) :
    (speedPadStage X L s).gravityDir = s.gravityDir := by
  unfold speedPadStage
  exact foldl_keeps (fun r => r.gravityDir) _ (fun _ _ => speedPadStep_gravityDir _ _ _) _ _

@[simp] theorem speedPadStage_gravityFlipTimer (X : Extern) (L : Level) (s : State) :
    (speedPadStage X L s).gravityFlipTimer = s.gravityFlipTimer := by
  unfold speedPadStage
  exact foldl_keeps (fun r => r.gravityFlipTimer) _ (fun _ _ => speedPadStep_gravityFlipTimer _ _ _) _ _

@[simp] theorem speedPadStage_levelFinished (X : Extern) (L : Level) (s : State) :
    (speedPadStage X L s).levelFinished = s.levelFinished := by
  unfold speedPadStage
  exact foldl_keeps (fun r => r.levelFinished) _ (fun _ _ => speedPadStep_levelFinished _ _ _) _ _

@[simp] theorem speedPadStage_camX (X : Extern) (L : Level) (s : State) :
    (speedPadStage X L s).camX = s.camX := by
  unfold speedPadStage
  exact foldl_keeps (fun r => r.camX) _ (fun _ _ => speedPadStep_camX _ _ _) _ _

@[simp] theorem flipGravity_songTime (s : State) :
    (flipGravity s).songTime = s.songTime := rfl

@[simp] theorem flipGravity_player (s : State) :
    (flipGravity s).player = s.player := rfl

@[simp] theorem flipGravity_baseRunSpeed (s : State) :
    (flipGravity s).baseRunSpeed = s.baseRunSpeed := rfl

@[simp] theorem flipGravity_runSpeed (s : State) :
    (flipGravity s).runSpeed = s.runSpeed := rfl

@[simp] theorem flipGravity_grounded (s : State) :
    (flipGravity s).grounded = s.grounded := rfl

@[simp] theorem flipGravity_alive (s : State) :
    (flipGravity s).alive = s.alive := rfl

@[simp] theorem flipGravity_deathShake (s : State) :
    (flipGravity s).deathShake = s.deathShake := rfl

@[simp] theorem flipGravity_holdJumpActive (s : State) :
    (flipGravity s).holdJumpActive = s.holdJumpActive := rfl

@[simp] theorem flipGravity_prevGrounded (s : State) :
    (flipGravity s).prevGrounded = s.prevGrounded := rfl

@[simp] theorem flipGravity_levelFinished (s : State) :
    (flipGravity s).levelFinished = s.levelFinished := rfl

@[simp] theorem flipGravity_speedTimer (s : State) :
    (flipGravity s).speedTimer = s.speedTimer := rfl

@[simp] theorem flipGravity_speedMultiplierActive (s : State) :
    (flipGravity s).speedMultiplierActive = s.speedMultiplierActive := rfl

@[simp] theorem flipGravity_camX (s : State) :
    (flipGravity s).camX = s.camX := rfl

@[simp] theorem flipGravity_particles (s : State) :
    (flipGravity s).particles = s.particles := rfl

@[simp] theorem flipGravity_rngCalls (s : State) :
    (flipGravity s).rngCalls = s.rngCalls := rfl

@[simp] theorem snapToSurface_songTime (s : State) :
    (snapToSurface s).songTime = s.songTime := by
  unfold snapToSurface
  split_ifs <;> rfl

@[simp] theorem snapToSurface_playerVel (s : State) :
    (snapToSurface s).playerVel = s.playerVel := by
  unfold snapToSurface
  split_ifs <;> rfl

@[simp] theorem snapToSurface_baseRunSpeed (s : State) :
    (snapToSurface s).baseRunSpeed = s.baseRunSpeed := by
  unfold snapToSurface
  split_ifs <;> rfl

@[simp] theorem snapToSurface_runSpeed (s : State) :
    (snapToSurface s).runSpeed = s.runSpeed := by
  unfold snapToSurface
  split_ifs <;> rfl

@[simp] theorem snapToSurface_alive (s : State) :
    (snapToSurface s).alive = s.alive := by
  unfold snapToSurface
  split_ifs <;> rfl

@[simp] theorem snapToSurface_deathShake (s : State) :
    (snapToSurface s).deathShake = s.deathShake := by
  unfold snapToSurface
  split_ifs <;> rfl

@[simp] theorem snapToSurface_holdJumpActive (s : State) :
    (snapToSurface s).holdJumpActive = s.holdJumpActive := by
  unfold snapToSurface
  split_ifs <;> rfl

@[simp] theorem snapToSurface_gravityDir (s : State) :
    (snapToSurface s).gravityDir = s.gravityDir := by
  unfold snapToSurface
  split_ifs <;> rfl

@[simp] theorem snapToSurface_gravityFlipTimer (s : State) :
    (snapToSurface s).gravityFlipTimer = s.gravityFlipTimer := by
  unfold snapToSurface
  split_ifs <;> rfl

@[simp] theorem snapToSurface_levelFinished (s : State) :
    (snapToSurface s).levelFinished = s.levelFinished := by
  unfold snapToSurface
  split_ifs <;> rfl

@[simp] theorem snapToSurface_speedTimer (s : State) :
    (snapToSurface s).speedTimer = s.speedTimer := by
  unfold snapToSurface
  split_ifs <;> rfl

@[simp] theorem snapToSurface_speedMultiplierActive (s : State) :
    (snapToSurface s).speedMultiplierActive = s.speedMultiplierActive := by
  unfold snapToSurface
  split_ifs <;> rfl

@[simp] theorem snapToSurface_camX (s : State) :
    (snapToSurface s).camX = s.camX := by
  unfold snapToSurface
  split_ifs <;> rfl

@[simp] theorem snapToSurface_particles (s : State) :
    (snapToSurface s).particles = s.particles := by
  unfold snapToSurface
  split_ifs <;> rfl

@[simp] theorem snapToSurface_rngCalls (s : State) :
    (snapToSurface s).rngCalls = s.rngCalls := by
  unfold snapToSurface
  split_ifs <;> rfl

@[simp] theorem flipParticles_songTime (X : Extern) (gp : GravityPad) (s : State) :
    (flipParticles X gp s).songTime = s.songTime := by
  unfold flipParticles
  rw [spawn_songTime]

@[simp] theorem flipParticles_player (X : Extern) (gp : GravityPad) (s : State) :
    (flipParticles X gp s).player = s.player := by
  unfold flipParticles
  rw [spawn_player]

@[simp] theorem flipParticles_playerVel (X : Extern) (gp : GravityPad) (s : State) :
    (flipParticles X gp s).playerVel = s.playerVel := by
  unfold flipParticles
  rw [spawn_playerVel]

@[simp] theorem flipParticles_baseRunSpeed (X : Extern) (gp : GravityPad) (s : State) :
    (flipParticles X gp s).baseRunSpeed = s.baseRunSpeed := by
  unfold flipParticles
  rw [spawn_baseRunSpeed]

@[simp] theorem flipParticles_runSpeed (X : Extern) (gp : GravityPad) (s : State) :
    (flipParticles X gp s).runSpeed = s.runSpeed := by
  unfold flipParticles
  rw [spawn_runSpeed]

@[simp] theorem flipParticles_grounded (X : Extern) (gp : GravityPad) (s : State) :
    (flipParticles X gp s).grounded = s.grounded := by
  unfold flipParticles
  rw [spawn_grounded]

@[simp] theorem flipParticles_alive (X : Extern) (gp : GravityPad) (s : State) :
    (flipParticles X gp s).alive = s.alive := by
  unfold flipParticles
  rw [spawn_alive]

@[simp] theorem flipParticles_deathShake (X : Extern) (gp : GravityPad) (s : State) :
    (flipParticles X gp s).deathShake = s.deathShake := by
  unfold flipParticles
  rw [spawn_deathShake]

@[simp] theorem flipParticles_holdJumpActive (X : Extern) (gp : GravityPad) (s : State) :
    (flipParticles X gp s).holdJumpActive = s.holdJumpActive := by
  unfold flipParticles
  rw [spawn_holdJumpActive]

@[simp] theorem flipParticles_prevGrounded (X : Extern) (gp : GravityPad) (s : State) :
    (flipParticles X gp s).prevGrounded = s.prevGrounded := by
  unfold flipParticles
  rw [spawn_prevGrounded]

@[simp] theorem flipParticles_gravityDir (X : Extern) (gp : GravityPad) (s : State) :
    (flipParticles X gp s).gravityDir = s.gravityDir := by
  unfold flipParticles
  rw [spawn_gravityDir]

@[simp] theorem flipParticles_gravityFlipTimer (X : Extern) (gp : GravityPad) (s : State) :
    (flipParticles X gp s).gravityFlipTimer = s.gravityFlipTimer := by
  unfold flipParticles
  rw [spawn_gravityFlipTimer]

@[simp] theorem flipParticles_levelFinished (X : Extern) (gp : GravityPad) (s : State) :
    (flipParticles X gp s).levelFinished = s.levelFinished := by
  unfold flipParticles
  rw [spawn_levelFinished]

@[simp] theorem flipParticles_speedTimer (X : Extern) (gp : GravityPad) (s : State) :
    (flipParticles X gp s).speedTimer = s.speedTimer := by
  unfold flipParticles
  rw [spawn_speedTimer]

@[simp] theorem flipParticles_speedMultiplierActive (X : Extern) (gp : GravityPad) (s : State) :
    (flipParticles X gp s).speedMultiplierActive = s.speedMultiplierActive := by
  unfold flipParticles
  rw [spawn_speedMultiplierActive]

@[simp] theorem flipParticles_camX (X : Extern) (gp : GravityPad) (s : State) :
    (flipParticles X gp s).camX = s.camX := by
  unfold flipParticles
  rw [spawn_camX]

@[simp] theorem gravityPadStep_songTime (X : Extern) (s : State) (gp : GravityPad) :
    (gravityPadStep X s gp).songTime = s.songTime := by
  unfold gravityPadStep
  split_ifs <;> first | rw [flipParticles_songTime, snapToSurface_songTime, flipGravity_songTime] | rfl

@[simp] theorem gravityPadStep_baseRunSpeed (X : Extern) (s : State) (gp : GravityPad) :
    (gravityPadStep X s gp).baseRunSpeed = s.baseRunSpeed := by
  unfold gravityPadStep
  split_ifs <;> first | rw [flipParticles_baseRunSpeed, snapToSurface_baseRunSpeed, flipGravity_baseRunSpeed] | rfl

@[simp] theorem gravityPadStep_runSpeed (X : Extern) (s : State) (gp : GravityPad) :
    (gravityPadStep X s gp).runSpeed = s.runSpeed := by
  unfold gravityPadStep
  split_ifs <;> first | rw [flipParticles_runSpeed, snapToSurface_runSpeed, flipGravity_runSpeed] | rfl

@[simp] theorem gravityPadStep_alive (X : Extern) (s : State) (gp : GravityPad) :
    (gravityPadStep X s gp).alive = s.alive := by
  unfold gravityPadStep
  split_ifs <;> first | rw [flipParticles_alive, snapToSurface_alive, flipGravity_alive] | rfl

@[simp] theorem gravityPadStep_deathShake (X : Extern) (s : State) (gp : GravityPad) :
    (gravityPadStep X s gp).deathShake = s.deathShake := by
  unfold gravityPadStep
  split_ifs <;> first | rw [flipParticles_deathShake, snapToSurface_deathShake, flipGravity_deathShake] | rfl

@[simp] theorem gravityPadStep_holdJumpActive (X : Extern) (s : State) (gp : GravityPad) :
    (gravityPadStep X s gp).holdJumpActive = s.holdJumpActive := by
  unfold gravityPadStep
  split_ifs <;> first | rw [flipParticles_holdJumpActive, snapToSurface_holdJumpActive, flipGravity_holdJumpActive] | rfl

@[simp] theorem gravityPadStep_levelFinished (X : Extern) (s : State) (gp : GravityPad) :
    (gravityPadStep X s gp).levelFinished = s.levelFinished := by
  unfold gravityPadStep
  split_ifs <;> first | rw [flipParticles_levelFinished, snapToSurface_levelFinished, flipGravity_levelFinished] | rfl

@[simp] theorem gravityPadStep_speedTimer (X : Extern) (s : State) (gp : GravityPad) :
    (gravityPadStep X s gp).speedTimer = s.speedTimer := by
  unfold gravityPadStep
  split_ifs <;> first | rw [flipParticles_speedTimer, snapToSurface_speedTimer, flipGravity_speedTimer] | rfl

@[simp] theorem gravityPadStep_speedMultiplierActive (X : Extern) (s : State) (gp : GravityPad) :
    (gravityPadStep X s gp).speedMultiplierActive = s.speedMultiplierActive := by
  unfold gravityPadStep
  split_ifs <;> first | rw [flipParticles_speedMultiplierActive, snapToSurface_speedMultiplierActive, flipGravity_speedMultiplierActive] | rfl

@[simp] theorem gravityPadStep_camX (X : Extern) (s : State) (gp : GravityPad) :
    (gravityPadStep X s gp).camX = s.camX := by
  unfold gravityPadStep
  split_ifs <;> first | rw [flipParticles_camX, snapToSurface_camX, flipGravity_camX] | rfl

@[simp] theorem gravityPadStage_songTime (X : Extern) (L : Level) (s : State) :
    (gravityPadStage X L s).songTime = s.songTime := by
  unfold gravityPadStage
  exact foldl_keeps (fun r => r.songTime) _ (fun _ _ => gravityPadStep_songTime _ _ _) _ _

@[simp] theorem gravityPadStage_baseRunSpeed (X : Extern) (L : Level) (s : State) :
    (gravityPadStage X L s).baseRunSpeed = s.baseRunSpeed := by
  unfold gravityPadStage
  exact foldl_keeps (fun r => r.baseRunSpeed) _ (fun _ _ => gravityPadStep_baseRunSpeed _ _ _) _ _

@[simp] theorem gravityPadStage_runSpeed (X : Extern) (L : Level) (s : State) :
    (gravityPadStage X L s).runSpeed = s.runSpeed := by
  unfold gravityPadStage
  exact foldl_keeps (fun r => r.runSpeed) _ (fun _ _ => gravityPadStep_runSpeed _ _ _) _ _

@[simp] theorem gravityPadStage_alive (X : Extern) (L : Level) (s : State) :
    (gravityPadStage X L s).alive = s.alive := by
  unfold gravityPadStage
  exact foldl_keeps (fun r => r.alive) _ (fun _ _ => gravityPadStep_alive _ _ _) _ _

@[simp] theorem gravityPadStage_deathShake (X : Extern) (L : Level) (s : State) :
    (gravityPadStage X L s).deathShake = s.deathShake := by
  unfold gravityPadStage
  exact foldl_keeps (fun r => r.deathShake) _ (fun _ _ => gravityPadStep_deathShake _ _ _) _ _

@[simp] theorem gravityPadStage_holdJumpActive (X : Extern) (L : Level) (s : State) :
    (gravityPadStage X L s).holdJumpActive = s.holdJumpActive := by
  unfold gravityPadStage
  exact foldl_keeps (fun r => r.holdJumpActive) _ (fun _ _ => gravityPadStep_holdJumpActive _ _ _) _ _

@[simp] theorem gravityPadStage_levelFinished (X : Extern) (L : Level) (s : State) :
    (gravityPadStage X L s).levelFinished = s.levelFinished := by
  unfold gravityPadStage
  exact foldl_keeps (fun r => r.levelFinished) _ (fun _ _ => gravityPadStep_levelFinished _ _ _) _ _

@[simp] theorem gravityPadStage_speedTimer (X : Extern) (L : Level) (s : State) :
    (gravityPadStage X L s).speedTimer = s.speedTimer := by
  unfold gravityPadStage
  exact foldl_keeps (fun r => r.speedTimer) _ (fun _ _ => gravityPadStep_speedTimer _ _ _) _ _

@[simp] theorem gravityPadStage_speedMultiplierActive (X : Extern) (L : Level) (s : State) :
    (gravityPadStage X L s).speedMultiplierActive = s.speedMultiplierActive := by
  unfold gravityPadStage
  exact foldl_keeps (fun r => r.speedMultiplierActive) _ (fun _ _ => gravityPadStep_speedMultiplierActive _ _ _) _ _

@[simp] theorem gravityPadStage_camX (X : Extern) (L : Level) (s : State) :
    (gravityPadStage X L s).camX = s.camX := by
  unfold gravityPadStage
  exact foldl_keeps (fun r => r.camX) _ (fun _ _ => gravityPadStep_camX _ _ _) _ _

@[simp] theorem finishStage_songTime (X : Extern) (L : Level) (s : State) :
    (finishStage X L s).songTime = s.songTime := by
  unfold finishStage
  split_ifs <;> first | rw [spawn_songTime] | rfl

@[simp] theorem finishStage_player (X : Extern) (L : Level) (s : State) :
    (finishStage X L s).player = s.player := by
  unfold finishStage
  split_ifs <;> first | rw [spawn_player] | rfl

@[simp] theorem finishStage_baseRunSpeed (X : Extern) (L : Level) (s : State) :
    (finishStage X L s).baseRunSpeed = s.baseRunSpeed := by
  unfold finishStage
  split_ifs <;> first | rw [spawn_baseRunSpeed] | rfl

@[simp] theorem finishStage_runSpeed (X : Extern) (L : Level) (s : State) :
    (finishStage X L s).runSpeed = s.runSpeed := by
  unfold finishStage
  split_ifs <;> first | rw [spawn_runSpeed] | rfl

@[simp] theorem finishStage_grounded (X : Extern) (L : Level) (s : State) :
    (finishStage X L s).grounded = s.grounded := by
  unfold finishStage
  split_ifs <;> first | rw [spawn_grounded] | rfl

@[simp] theorem finishStage_alive (X : Extern) (L : Level) (s : State) :
    (finishStage X L s).alive = s.alive := by
  unfold finishStage
  split_ifs <;> first | rw [spawn_alive] | rfl

@[simp] theorem finishStage_deathShake (X : Extern) (L : Level) (s : State) :
    (finishStage X L s).deathShake = s.deathShake := by
  unfold finishStage
  split_ifs <;> first | rw [spawn_deathShake] | rfl

@[simp] theorem finishStage_holdJumpActive (X : Extern) (L : Level) (s : State) :
    (finishStage X L s).holdJumpActive = s.holdJumpActive := by
  unfold finishStage
  split_ifs <;> first | rw [spawn_holdJumpActive] | rfl

@[simp] theorem finishStage_prevGrounded (X : Extern) (L : Level) (s : State) :
    (finishStage X L s).prevGrounded = s.prevGrounded := by
  unfold finishStage
  split_ifs <;> first | rw [spawn_prevGrounded] | rfl

@[simp] theorem finishStage_gravityDir (X : Extern) (L : Level) (s : State) :
    (finishStage X L s).gravityDir = s.gravityDir := by
  unfold finishStage
  split_ifs <;> first | rw [spawn_gravityDir] | rfl

@[simp] theorem finishStage_gravityFlipTimer (X : Extern) (L : Level) (s : State) :
    (finishStage X L s).gravityFlipTimer = s.gravityFlipTimer := by
  unfold finishStage
  split_ifs <;> first | rw [spawn_gravityFlipTimer] | rfl

@[simp] theorem finishStage_speedTimer (X : Extern) (L : Level) (s : State) :
    (finishStage X L s).speedTimer = s.speedTimer := by
  unfold finishStage
  split_ifs <;> first | rw [spawn_speedTimer] | rfl

@[simp] theorem finishStage_speedMultiplierActive (X : Extern) (L : Level) (s : State) :
    (finishStage X L s).speedMultiplierActive = s.speedMultiplierActive := by
  unfold finishStage
  split_ifs <;> first | rw [spawn_speedMultiplierActive] | rfl

@[simp] theorem finishStage_camX (X : Extern) (L : Level) (s : State) :
    (finishStage X L s).camX = s.camX := by
  unfold finishStage
  split_ifs <;> first | rw [spawn_camX] | rfl

@[simp] theorem spikeLoop_songTime (s : State) (spikes : List Spike) :
    (spikeLoop s spikes).songTime = s.songTime := by
  induction spikes with
  | nil => rfl
  | cons sp rest ih =>
    unfold spikeLoop
    split_ifs <;> first | exact ih | rfl

@[simp] theorem spikeLoop_player (s : State) (spikes : List Spike) :
    (spikeLoop s spikes).player = s.player := by
  induction spikes with
  | nil => rfl
  | cons sp rest ih =>
    unfold spikeLoop
    split_ifs <;> first | exact ih | rfl

@[simp] theorem spikeLoop_playerVel (s : State) (spikes : List Spike) :
    (spikeLoop s spikes).playerVel = s.playerVel := by
  induction spikes with
  | nil => rfl
  | cons sp rest ih =>
    unfold spikeLoop
    split_ifs <;> first | exact ih | rfl

@[simp] theorem spikeLoop_baseRunSpeed (s : State) (spikes : List Spike) :
    (spikeLoop s spikes).baseRunSpeed = s.baseRunSpeed := by
  induction spikes with
  | nil => rfl
  | cons sp rest ih =>
    unfold spikeLoop
    split_ifs <;> first | exact ih | rfl

@[simp] theorem spikeLoop_runSpeed (s : State) (spikes : List Spike) :
    (spikeLoop s spikes).runSpeed = s.runSpeed := by
  induction spikes with
  | nil => rfl
  | cons sp rest ih =>
    unfold spikeLoop
    split_ifs <;> first | exact ih | rfl

@[simp] theorem spikeLoop_grounded (s : State) (spikes : List Spike) :
    (spikeLoop s spikes).grounded = s.grounded := by
  induction spikes with
  | nil => rfl
  | cons sp rest ih =>
    unfold spikeLoop
    split_ifs <;> first | exact ih | rfl

@[simp] theorem spikeLoop_holdJumpActive (s : State) (spikes : List Spike) :
    (spikeLoop s spikes).holdJumpActive = s.holdJumpActive := by
  induction spikes with
  | nil => rfl
  | cons sp rest ih =>
    unfold spikeLoop
    split_ifs <;> first | exact ih | rfl

@[simp] theorem spikeLoop_prevGrounded (s : State) (spikes : List Spike) :
    (spikeLoop s spikes).prevGrounded = s.prevGrounded := by
  induction spikes with
  | nil => rfl
  | cons sp rest ih =>
    unfold spikeLoop
    split_ifs <;> first | exact ih | rfl

@[simp] theorem spikeLoop_gravityDir (s : State) (spikes : List Spike) :
    (spikeLoop s spikes).gravityDir = s.gravityDir := by
  induction spikes with
  | nil => rfl
  | cons sp rest ih =>
    unfold spikeLoop
    split_ifs <;> first | exact ih | rfl

@[simp] theorem spikeLoop_gravityFlipTimer (s : State) (spikes : List Spike) :
    (spikeLoop s spikes).gravityFlipTimer = s.gravityFlipTimer := by
  induction spikes with
  | nil => rfl
  | cons sp rest ih =>
    unfold spikeLoop
    split_ifs <;> first | exact ih | rfl

@[simp] theorem spikeLoop_levelFinished (s : State) (spikes : List Spike) :
    (spikeLoop s spikes).levelFinished = s.levelFinished := by
  induction spikes with
  | nil => rfl
  | cons sp rest ih =>
    unfold spikeLoop
    split_ifs <;> first | exact ih | rfl

@[simp] theorem spikeLoop_speedTimer (s : State) (spikes : List Spike) :
    (spikeLoop s spikes).speedTimer = s.speedTimer := by
  induction spikes with
  | nil => rfl
  | cons sp rest ih =>
    unfold spikeLoop
    split_ifs <;> first | exact ih | rfl

@[simp] theorem spikeLoop_speedMultiplierActive (s : State) (spikes : List Spike) :
    (spikeLoop s spikes).speedMultiplierActive = s.speedMultiplierActive := by
  induction spikes with
  | nil => rfl
  | cons sp rest ih =>
    unfold spikeLoop
    split_ifs <;> first | exact ih | rfl

@[simp] theorem spikeLoop_camX (s : State) (spikes : List Spike) :
    (spikeLoop s spikes).camX = s.camX := by
  induction spikes with
  | nil => rfl
  | cons sp rest ih =>
    unfold spikeLoop
    split_ifs <;> first | exact ih | rfl

@[simp] theorem spikeLoop_particles (s : State) (spikes : List Spike) :
    (spikeLoop s spikes).particles = s.particles := by
  induction spikes with
  | nil => rfl
  | cons sp rest ih =>
    unfold spikeLoop
    split_ifs <;> first | exact ih | rfl

@[simp] theorem spikeLoop_rngCalls (s : State) (spikes : List Spike) :
    (spikeLoop s spikes).rngCalls = s.rngCalls := by
  induction spikes with
  | nil => rfl
  | cons sp rest ih =>
    unfold spikeLoop
    split_ifs <;> first | exact ih | rfl

@[simp] theorem spikeStage_songTime (L : Level) (s : State) :
    (spikeStage L s).songTime = s.songTime := spikeLoop_songTime _ _

@[simp] theorem spikeStage_player (L : Level) (s : State) :
    (spikeStage L s).player = s.player := spikeLoop_player _ _

@[simp] theorem spikeStage_playerVel (L : Level) (s : State) :
    (spikeStage L s).playerVel = s.playerVel := spikeLoop_playerVel _ _

@[simp] theorem spikeStage_baseRunSpeed (L : Level) (s : State) :
    (spikeStage L s).baseRunSpeed = s.baseRunSpeed := spikeLoop_baseRunSpeed _ _

@[simp] theorem spikeStage_runSpeed (L : Level) (s : State) :
    (spikeStage L s).runSpeed = s.runSpeed := spikeLoop_runSpeed _ _

@[simp] theorem spikeStage_grounded (L : Level) (s : State) :
    (spikeStage L s).grounded = s.grounded := spikeLoop_grounded _ _

@[simp] theorem spikeStage_holdJumpActive (L : Level) (s : State) :
    (spikeStage L s).holdJumpActive = s.holdJumpActive := spikeLoop_holdJumpActive _ _

@[simp] theorem spikeStage_prevGrounded (L : Level) (s : State) :
    (spikeStage L s).prevGrounded = s.prevGrounded := spikeLoop_prevGrounded _ _

@[simp] theorem spikeStage_gravityDir (L : Level) (s : State) :
    (spikeStage L s).gravityDir = s.gravityDir := spikeLoop_gravityDir _ _

@[simp] theorem spikeStage_gravityFlipTimer (L : Level) (s : State) :
    (spikeStage L s).gravityFlipTimer = s.gravityFlipTimer := spikeLoop_gravityFlipTimer _ _

@[simp] theorem spikeStage_levelFinished (L : Level) (s : State) :
    (spikeStage L s).levelFinished = s.levelFinished := spikeLoop_levelFinished _ _

@[simp] theorem spikeStage_speedTimer (L : Level) (s : State) :
    (spikeStage L s).speedTimer = s.speedTimer := spikeLoop_speedTimer _ _

@[simp] theorem spikeStage_speedMultiplierActive (L : Level) (s : State) :
    (spikeStage L s).speedMultiplierActive = s.speedMultiplierActive := spikeLoop_speedMultiplierActive _ _

@[simp] theorem spikeStage_camX (L : Level) (s : State) :
    (spikeStage L s).camX = s.camX := spikeLoop_camX _ _

@[simp] theorem spikeStage_particles (L : Level) (s : State) :
    (spikeStage L s).particles = s.particles := spikeLoop_particles _ _

@[simp] theorem spikeStage_rngCalls (L : Level) (s : State) :
    (spikeStage L s).rngCalls = s.rngCalls := spikeLoop_rngCalls _ _

@[simp] theorem autoJumpStage_songTime (X : Extern) (s : State) :
    (autoJumpStage X s).songTime = s.songTime := by
  unfold autoJumpStage
  split_ifs <;> first | rw [doJump_songTime] | rfl

@[simp] theorem autoJumpStage_player (X : Extern) (s : State) :
    (autoJumpStage X s).player = s.player := by
  unfold autoJumpStage
  split_ifs <;> first | rw [doJump_player] | rfl

@[simp] theorem autoJumpStage_baseRunSpeed (X : Extern) (s : State) :
    (autoJumpStage X s).baseRunSpeed = s.baseRunSpeed := by
  unfold autoJumpStage
  split_ifs <;> first | rw [doJump_baseRunSpeed] | rfl

@[simp] theorem autoJumpStage_runSpeed (X : Extern) (s : State) :
    (autoJumpStage X s).runSpeed = s.runSpeed := by
  unfold autoJumpStage
  split_ifs <;> first | rw [doJump_runSpeed] | rfl

@[simp] theorem autoJumpStage_alive (X : Extern) (s : State) :
    (autoJumpStage X s).alive = s.alive := by
  unfold autoJumpStage
  split_ifs <;> first | rw [doJump_alive] | rfl

@[simp] theorem autoJumpStage_deathShake (X : Extern) (s : State) :
    (autoJumpStage X s).deathShake = s.deathShake := by
  unfold autoJumpStage
  split_ifs <;> first | rw [doJump_deathShake] | rfl

@[simp] theorem autoJumpStage_holdJumpActive (X : Extern) (s : State) :
    (autoJumpStage X s).holdJumpActive = s.holdJumpActive := by
  unfold autoJumpStage
  split_ifs <;> first | rw [doJump_holdJumpActive] | rfl

@[simp] theorem autoJumpStage_prevGrounded (X : Extern) (s : State) :
    (autoJumpStage X s).prevGrounded = s.prevGrounded := by
  unfold autoJumpStage
  split_ifs <;> first | rw [doJump_prevGrounded] | rfl

@[simp] theorem autoJumpStage_gravityDir (X : Extern) (s : State) :
    (autoJumpStage X s).gravityDir = s.gravityDir := by
  unfold autoJumpStage
  split_ifs <;> first | rw [doJump_gravityDir] | rfl

@[simp] theorem autoJumpStage_gravityFlipTimer (X : Extern) (s : State) :
    (autoJumpStage X s).gravityFlipTimer = s.gravityFlipTimer := by
  unfold autoJumpStage
  split_ifs <;> first | rw [doJump_gravityFlipTimer] | rfl

@[simp] theorem autoJumpStage_levelFinished (X : Extern) (s : State) :
    (autoJumpStage X s).levelFinished = s.levelFinished := by
  unfold autoJumpStage
  split_ifs <;> first | rw [doJump_levelFinished] | rfl

@[simp] theorem autoJumpStage_speedTimer (X : Extern) (s : State) :
    (autoJumpStage X s).speedTimer = s.speedTimer := by
  unfold autoJumpStage
  split_ifs <;> first | rw [doJump_speedTimer] | rfl

@[simp] theorem autoJumpStage_speedMultiplierActive (X : Extern) (s : State) :
    (autoJumpStage X s).speedMultiplierActive = s.speedMultiplierActive := by
  unfold autoJumpStage
  split_ifs <;> first | rw [doJump_speedMultiplierActive] | rfl

@[simp] theorem autoJumpStage_camX (X : Extern) (s : State) :
    (autoJumpStage X s).camX = s.camX := by
  unfold autoJumpStage
  split_ifs <;> first | rw [doJump_camX] | rfl

@[simp] theorem cameraStage_songTime (s : State) :
    (cameraStage s).songTime = s.songTime := rfl

@[simp] theorem cameraStage_player (s : State) :
    (cameraStage s).player = s.player := rfl

@[simp] theorem cameraStage_playerVel (s : State) :
    (cameraStage s).playerVel = s.playerVel := rfl

@[simp] theorem cameraStage_baseRunSpeed (s : State) :
    (cameraStage s).baseRunSpeed = s.baseRunSpeed := rfl

@[simp] theorem cameraStage_runSpeed (s : State) :
    (cameraStage s).runSpeed = s.runSpeed := rfl

@[simp] theorem cameraStage_grounded (s : State) :
    (cameraStage s).grounded = s.grounded := rfl

@[simp] theorem cameraStage_alive (s : State) :
    (cameraStage s).alive = s.alive := rfl

@[simp] theorem cameraStage_deathShake (s : State) :
    (cameraStage s).deathShake = s.deathShake := rfl

@[simp] theorem cameraStage_holdJumpActive (s : State) :
    (cameraStage s).holdJumpActive = s.holdJumpActive := rfl

@[simp] theorem cameraStage_prevGrounded (s : State) :
    (cameraStage s).prevGrounded = s.prevGrounded := rfl

@[simp] theorem cameraStage_gravityDir (s : State) :
    (cameraStage s).gravityDir = s.gravityDir := rfl

@[simp] theorem cameraStage_gravityFlipTimer (s : State) :
    (cameraStage s).gravityFlipTimer = s.gravityFlipTimer := rfl

@[simp] theorem cameraStage_levelFinished (s : State) :
    (cameraStage s).levelFinished = s.levelFinished := rfl

@[simp] theorem cameraStage_speedTimer (s : State) :
    (cameraStage s).speedTimer = s.speedTimer := rfl

@[simp] theorem cameraStage_speedMultiplierActive (s : State) :
    (cameraStage s).speedMultiplierActive = s.speedMultiplierActive := rfl

@[simp] theorem cameraStage_particles (s : State) :
    (cameraStage s).particles = s.particles := rfl

@[simp] theorem cameraStage_rngCalls (s : State) :
    (cameraStage s).rngCalls = s.rngCalls := rfl

@[simp] theorem particleStage_songTime (dt : ℚ) (s : State) :
    (particleStage dt s).songTime = s.songTime := rfl

@[simp] theorem particleStage_player (dt : ℚ) (s : State) :
    (particleStage dt s).player = s.player := rfl

@[simp] theorem particleStage_playerVel (dt : ℚ) (s : State) :
    (particleStage dt s).playerVel = s.playerVel := rfl

@[simp] theorem particleStage_baseRunSpeed (dt : ℚ) (s : State) :
    (particleStage dt s).baseRunSpeed = s.baseRunSpeed := rfl

@[simp] theorem particleStage_runSpeed (dt : ℚ) (s : State) :
    (particleStage dt s).runSpeed = s.runSpeed := rfl

@[simp] theorem particleStage_grounded (dt : ℚ) (s : State) :
    (particleStage dt s).grounded = s.grounded := rfl

@[simp] theorem particleStage_alive (dt : ℚ) (s : State) :
    (particleStage dt s).alive = s.alive := rfl

@[simp] theorem particleStage_deathShake (dt : ℚ) (s : State) :
    (particleStage dt s).deathShake = s.deathShake := rfl

@[simp] theorem particleStage_holdJumpActive (dt : ℚ) (s : State) :
    (particleStage dt s).holdJumpActive = s.holdJumpActive := rfl

@[simp] theorem particleStage_prevGrounded (dt : ℚ) (s : State) :
    (particleStage dt s).prevGrounded = s.prevGrounded := rfl

@[simp] theorem particleStage_gravityDir (dt : ℚ) (s : State) :
    (particleStage dt s).gravityDir = s.gravityDir := rfl

@[simp] theorem particleStage_gravityFlipTimer (dt : ℚ) (s : State) :
    (particleStage dt s).gravityFlipTimer = s.gravityFlipTimer := rfl

@[simp] theorem particleStage_levelFinished (dt : ℚ) (s : State) :
    (particleStage dt s).levelFinished = s.levelFinished := rfl

@[simp] theorem particleStage_speedTimer (dt : ℚ) (s : State) :
    (particleStage dt s).speedTimer = s.speedTimer := rfl

@[simp] theorem particleStage_speedMultiplierActive (dt : ℚ) (s : State) :
    (particleStage dt s).speedMultiplierActive = s.speedMultiplierActive := rfl

@[simp] theorem particleStage_camX (dt : ℚ) (s : State) :
    (particleStage dt s).camX = s.camX := rfl

@[simp] theorem particleStage_rngCalls (dt : ℚ) (s : State) :
    (particleStage dt s).rngCalls = s.rngCalls := rfl

@[simp] theorem deathShakeStage_songTime (dt : ℚ) (s : State) :
    (deathShakeStage dt s).songTime = s.songTime := by
  unfold deathShakeStage
  split_ifs <;> rfl

@[simp] theorem deathShakeStage_player (dt : ℚ) (s : State) :
    (deathShakeStage dt s).player = s.player := by
  unfold deathShakeStage
  split_ifs <;> rfl

@[simp] theorem deathShakeStage_playerVel (dt : ℚ) (s : State) :
    (deathShakeStage dt s).playerVel = s.playerVel := by
  unfold deathShakeStage
  split_ifs <;> rfl

@[simp] theorem deathShakeStage_baseRunSpeed (dt : ℚ) (s : State) :
    (deathShakeStage dt s).baseRunSpeed = s.baseRunSpeed := by
  unfold deathShakeStage
  split_ifs <;> rfl

@[simp] theorem deathShakeStage_runSpeed (dt : ℚ) (s : State) :
    (deathShakeStage dt s).runSpeed = s.runSpeed := by
  unfold deathShakeStage
  split_ifs <;> rfl

@[simp] theorem deathShakeStage_grounded (dt : ℚ) (s : State) :
    (deathShakeStage dt s).grounded = s.grounded := by
  unfold deathShakeStage
  split_ifs <;> rfl

@[simp] theorem deathShakeStage_alive (dt : ℚ) (s : State) :
    (deathShakeStage dt s).alive = s.alive := by
  unfold deathShakeStage
  split_ifs <;> rfl

@[simp] theorem deathShakeStage_holdJumpActive (dt : ℚ) (s : State) :
    (deathShakeStage dt s).holdJumpActive = s.holdJumpActive := by
  unfold deathShakeStage
  split_ifs <;> rfl

@[simp] theorem deathShakeStage_prevGrounded (dt : ℚ) (s : State) :
    (deathShakeStage dt s).prevGrounded = s.prevGrounded := by
  unfold deathShakeStage
  split_ifs <;> rfl

@[simp] theorem deathShakeStage_gravityDir (dt : ℚ) (s : State) :
    (deathShakeStage dt s).gravityDir = s.gravityDir := by
  unfold deathShakeStage
  split_ifs <;> rfl

@[simp] theorem deathShakeStage_gravityFlipTimer (dt : ℚ) (s : State) :
    (deathShakeStage dt s).gravityFlipTimer = s.gravityFlipTimer := by
  unfold deathShakeStage
  split_ifs <;> rfl

@[simp] theorem deathShakeStage_levelFinished (dt : ℚ) (s : State) :
    (deathShakeStage dt s).levelFinished = s.levelFinished := by
  unfold deathShakeStage
  split_ifs <;> rfl

@[simp] theorem deathShakeStage_speedTimer (dt : ℚ) (s : State) :
    (deathShakeStage dt s).speedTimer = s.speedTimer := by
  unfold deathShakeStage
  split_ifs <;> rfl

@[simp] theorem deathShakeStage_speedMultiplierActive (dt : ℚ) (s : State) :
    (deathShakeStage dt s).speedMultiplierActive = s.speedMultiplierActive := by
  unfold deathShakeStage
  split_ifs <;> rfl

@[simp] theorem deathShakeStage_camX (dt : ℚ) (s : State) :
    (deathShakeStage dt s).camX = s.camX := by
  unfold deathShakeStage
  split_ifs <;> rfl

@[simp] theorem deathShakeStage_particles (dt : ℚ) (s : State) :
    (deathShakeStage dt s).particles = s.particles := by
  unfold deathShakeStage
  split_ifs <;> rfl

@[simp] theorem deathShakeStage_rngCalls (dt : ℚ) (s : State) :
    (deathShakeStage dt s).rngCalls = s.rngCalls := by
  unfold deathShakeStage
  split_ifs <;> rfl

@[simp] theorem endOfFrameStage_songTime (s : State) :
    (endOfFrameStage s).songTime = s.songTime := rfl

@[simp] theorem endOfFrameStage_player (s : State) :
    (endOfFrameStage s).player = s.player := rfl

@[simp] theorem endOfFrameStage_playerVel (s : State) :
    (endOfFrameStage s).playerVel = s.playerVel := rfl

@[simp] theorem endOfFrameStage_baseRunSpeed (s : State) :
    (endOfFrameStage s).baseRunSpeed = s.baseRunSpeed := rfl

@[simp] theorem endOfFrameStage_runSpeed (s : State) :
    (endOfFrameStage s).runSpeed = s.runSpeed := rfl

@[simp] theorem endOfFrameStage_grounded (s : State) :
    (endOfFrameStage s).grounded = s.grounded := rfl

@[simp] theorem endOfFrameStage_alive (s : State) :
    (endOfFrameStage s).alive = s.alive := rfl

@[simp] theorem endOfFrameStage_deathShake (s : State) :
    (endOfFrameStage s).deathShake = s.deathShake := rfl

@[simp] theorem endOfFrameStage_holdJumpActive (s : State) :
    (endOfFrameStage s).holdJumpActive = s.holdJumpActive := rfl

@[simp] theorem endOfFrameStage_gravityDir (s : State) :
    (endOfFrameStage s).gravityDir = s.gravityDir := rfl

@[simp] theorem endOfFrameStage_gravityFlipTimer (s : State) :
    (endOfFrameStage s).gravityFlipTimer = s.gravityFlipTimer := rfl

@[simp] theorem endOfFrameStage_levelFinished (s : State) :
    (endOfFrameStage s).levelFinished = s.levelFinished := rfl

@[simp] theorem endOfFrameStage_speedTimer (s : State) :
    (endOfFrameStage s).speedTimer = s.speedTimer := rfl

@[simp] theorem endOfFrameStage_speedMultiplierActive (s : State) :
    (endOfFrameStage s).speedMultiplierActive = s.speedMultiplierActive := rfl

@[simp] theorem endOfFrameStage_camX (s : State) :
    (endOfFrameStage s).camX = s.camX := rfl

@[simp] theorem endOfFrameStage_particles (s : State) :
    (endOfFrameStage s).particles = s.particles := rfl


/-! ## Geometry helpers -/

theorem RectsIntersect_iff (a b : Rectangle) :
    RectsIntersect a b = true ↔
      (a.x < b.x + b.width ∧ b.x < a.x + a.width ∧
        a.y < b.y + b.height ∧ b.y < a.y + a.height) := by
  simp only [RectsIntersect, Bool.not_eq_true', Bool.or_eq_false_iff, decide_eq_false_iff_not,
    not_le]
  tauto

theorem RectsIntersect_eq_false_iff (a b : Rectangle) :
    RectsIntersect a b = false ↔
      (a.x + a.width ≤ b.x ∨ b.x + b.width ≤ a.x ∨
        a.y + a.height ≤ b.y ∨ b.y + b.height ≤ a.y) := by
  rw [← Bool.not_eq_true, RectsIntersect_iff]
  simp only [not_and_or, not_lt]
  tauto

theorem overlapArea_pos_iff (a b : Rectangle) (ha : 0 < a.width ∧ 0 < a.height)
    (hb : 0 < b.width ∧ 0 < b.height) :
    0 < overlapArea a b ↔
      (a.x < b.x + b.width ∧ b.x < a.x + a.width ∧
        a.y < b.y + b.height ∧ b.y < a.y + a.height) := by
  obtain ⟨haw, hah⟩ := ha
  obtain ⟨hbw, hbh⟩ := hb
  unfold overlapArea
  constructor
  · intro h
    have hx : 0 < max 0 (min (a.x + a.width) (b.x + b.width) - max a.x b.x) := by
      rcases (mul_pos_iff.mp h) with h1 | h1
      · exact h1.1
      · exact absurd h1.1 (not_lt.mpr (le_max_left _ _))
    have hy : 0 < max 0 (min (a.y + a.height) (b.y + b.height) - max a.y b.y) := by
      rcases (mul_pos_iff.mp h) with h1 | h1
      · exact h1.2
      · exact absurd h1.2 (not_lt.mpr (le_max_left _ _))
    have hx1 : max a.x b.x < min (a.x + a.width) (b.x + b.width) := by
      rcases lt_max_iff.mp hx with h0 | h0
      · exact absurd h0 (lt_irrefl _)
      · linarith
    have hy1 : max a.y b.y < min (a.y + a.height) (b.y + b.height) := by
      rcases lt_max_iff.mp hy with h0 | h0
      · exact absurd h0 (lt_irrefl _)
      · linarith
    rw [max_lt_iff, lt_min_iff, lt_min_iff] at hx1 hy1
    exact ⟨hx1.1.2, hx1.2.1, hy1.1.2, hy1.2.1⟩
  · rintro ⟨h1, h2, h3, h4⟩
    have hx1 : max a.x b.x < min (a.x + a.width) (b.x + b.width) := by
      rw [max_lt_iff, lt_min_iff, lt_min_iff]
      exact ⟨⟨by linarith, h1⟩, ⟨h2, by linarith⟩⟩
    have hy1 : max a.y b.y < min (a.y + a.height) (b.y + b.height) := by
      rw [max_lt_iff, lt_min_iff, lt_min_iff]
      exact ⟨⟨by linarith, h3⟩, ⟨h4, by linarith⟩⟩
    apply mul_pos
    · exact lt_max_of_lt_right (by linarith)
    · exact lt_max_of_lt_right (by linarith)

/-- The test of `RectsIntersect` in exact arithmetic (no rounding of the sums): for
rectangles of positive width and height it holds exactly when the four strict
inequalities hold, which is exactly when the overlap has non-zero area; it is false when
the rectangles only touch along an edge or at a corner, and a rectangle intersects
itself. The binary32 version is `RectsIntersect32_overlap`. -/
theorem RectsIntersect_iff_overlap (a b : Rectangle) (ha : 0 < a.width ∧ 0 < a.height)
    (hb : 0 < b.width ∧ 0 < b.height) :
    (RectsIntersect a b = true ↔
      (a.x < b.x + b.width ∧ b.x < a.x + a.width ∧
        a.y < b.y + b.height ∧ b.y < a.y + a.height)) ∧
    (RectsIntersect a b = true ↔ 0 < overlapArea a b) ∧
    ((a.x + a.width = b.x ∨ b.x + b.width = a.x ∨
        a.y + a.height = b.y ∨ b.y + b.height = a.y) → RectsIntersect a b = false) ∧
    RectsIntersect a a = true := by
  refine ⟨RectsIntersect_iff a b, ?_, ?_, ?_⟩
  · rw [overlapArea_pos_iff a b ha hb]
    exact RectsIntersect_iff a b
  · intro h
    rw [RectsIntersect_eq_false_iff]
    rcases h with h | h | h | h
    · exact Or.inl h.le
    · exact Or.inr (Or.inl h.le)
    · exact Or.inr (Or.inr (Or.inl h.le))
    · exact Or.inr (Or.inr (Or.inr h.le))
  · rw [RectsIntersect_iff]
    obtain ⟨haw, hah⟩ := ha
    exact ⟨by linarith, by linarith, by linarith, by linarith⟩

/-! ## Spike hitboxes -/

/-- C2 (the code differs): the `baseDanger` rectangle of `CollideSpike` is
`{x, y, width, height/2}` for `up = true` and `{x, y + height/2, width, height/2}` for
`up = false`. In both cases the apex that `DrawSpike` draws lies on its outer edge, so the
full-width box covers the pointed half, not the mounted half. For the first spike of the
level, `{900, 504, 36, 56}` standing on the floor, it is the top half `{900, 504, 36, 28}`
and not the bottom half `{900, 532, 36, 28}`. -/
theorem spikeBaseDanger_on_apex_half (s : Spike) :
    spikeBaseDanger s =
      (if s.up then ⟨s.base.x, s.base.y, s.base.width, s.base.height / 2⟩
       else ⟨s.base.x, s.base.y + s.base.height / 2, s.base.width, s.base.height / 2⟩) ∧
    (if s.up then (spikeBaseDanger s).y
      else (spikeBaseDanger s).y + (spikeBaseDanger s).height) = spikeApexY s ∧
    spikeBaseDanger ⟨⟨900, 504, 36, 56⟩, true, neonYellow⟩ = ⟨900, 504, 36, 28⟩ ∧
    spikeBaseDanger ⟨⟨900, 504, 36, 56⟩, true, neonYellow⟩ ≠ ⟨900, 504 + 56 / 2, 36, 56 / 2⟩ := by
  refine ⟨?_, ?_, ?_, ?_⟩
  · cases h : s.up
    · simp [spikeBaseDanger, h]
      ring
    · simp [spikeBaseDanger, h]
      ring
  · cases h : s.up
    · simp [spikeBaseDanger, spikeApexY, h]
      ring
    · simp [spikeBaseDanger, spikeApexY, h]
  · simp [spikeBaseDanger]
    norm_num
  · simp [spikeBaseDanger]

/-- C3 (the code differs): the `tipBox` rectangle of `CollideSpike` has 32% of the width
and 72% of the height of the spike and is horizontally centred on it, but it is attached
to the mounted edge: for `up = true` it spans y from `base.y + 0.28*height` to
`base.y + height`, for `up = false` from `base.y` to `base.y + 0.72*height`. For the first
spike of the level, `{900, 504, 36, 56}` with the apex drawn at y = 504, the box spans
y from 519.68 to 560, not from 504 to 544.32. -/
theorem spikeTipBox_on_mounted_edge (s : Spike) :
    (spikeTipBox s).width = (32 / 100) * s.base.width ∧
    (spikeTipBox s).height = (72 / 100) * s.base.height ∧
    (spikeTipBox s).x + (spikeTipBox s).width / 2 = s.base.x + s.base.width / 2 ∧
    (spikeTipBox s).y =
      (if s.up then s.base.y + (28 / 100) * s.base.height else s.base.y) ∧
    (spikeTipBox s).y + (spikeTipBox s).height =
      (if s.up then s.base.y + s.base.height else s.base.y + (72 / 100) * s.base.height) ∧
    (if s.up then (spikeTipBox s).y + (spikeTipBox s).height
      else (spikeTipBox s).y) = spikeMountY s ∧
    (spikeTipBox ⟨⟨900, 504, 36, 56⟩, true, neonYellow⟩).y = 51968 / 100 ∧
    (spikeTipBox ⟨⟨900, 504, 36, 56⟩, true, neonYellow⟩).y +
      (spikeTipBox ⟨⟨900, 504, 36, 56⟩, true, neonYellow⟩).height = 560 := by
  refine ⟨?_, ?_, ?_, ?_, ?_, ?_, ?_, ?_⟩
  · simp [spikeTipBox]; ring
  · simp [spikeTipBox]; ring
  · simp [spikeTipBox]; ring
  · cases h : s.up
    · simp [spikeTipBox, h]
    · simp [spikeTipBox, h]
      ring
  · cases h : s.up
    · simp [spikeTipBox, h]
      ring
    · simp [spikeTipBox, h]
      ring
  · cases h : s.up
    · simp [spikeTipBox, spikeMountY, h]
    · simp [spikeTipBox, spikeMountY, h]
      ring
  · simp [spikeTipBox]
    norm_num
  · simp [spikeTipBox]
    norm_num

theorem restartStage_of_not_fires (i : Input) (s : State) (h : restartFires i s = false) :
    restartStage i s = s := by
  unfold restartStage
  rw [if_neg (by simp [h])]

theorem afterRestart_of_not_fires (i : Input) (s : State) (h : restartFires i s = false) :
    afterRestart i s = clockStage i.dt s := by
  unfold afterRestart
  exact restartStage_of_not_fires i _ h

theorem restartStage_gravityDir_cases (i : Input) (s : State) :
    (restartStage i s).gravityDir = s.gravityDir ∨ (restartStage i s).gravityDir = 1 := by
  unfold restartStage
  split_ifs
  · exact Or.inr rfl
  · exact Or.inl rfl

theorem restartStage_gravityFlipTimer_cases (i : Input) (s : State) :
    (restartStage i s).gravityFlipTimer = s.gravityFlipTimer ∨
      (restartStage i s).gravityFlipTimer = 0 := by
  unfold restartStage
  split_ifs
  · exact Or.inr rfl
  · exact Or.inl rfl

/-! ## Gravity pads: the cooldown timer and the direction -/

theorem gravityPadStep_of_timer_pos (X : Extern) (s : State) (gp : GravityPad)
    (h : 0 < s.gravityFlipTimer) : gravityPadStep X s gp = s := by
  unfold gravityPadStep
  rw [if_neg]
  simp [h]

theorem gravityPads_foldl_of_timer_pos (X : Extern) (pads : List GravityPad) (s : State)
    (h : 0 < s.gravityFlipTimer) : pads.foldl (gravityPadStep X) s = s := by
  induction pads with
  | nil => rfl
  | cons gp rest ih => rw [List.foldl_cons, gravityPadStep_of_timer_pos X s gp h, ih]

theorem gravityFlipCooldown_pos : 0 < gravityFlipCooldown := by
  unfold gravityFlipCooldown
  norm_num

theorem flipped_gravityFlipTimer (X : Extern) (s : State) (gp : GravityPad) :
    (flipParticles X gp (snapToSurface (flipGravity s))).gravityFlipTimer =
      gravityFlipCooldown := by
  rw [flipParticles_gravityFlipTimer, snapToSurface_gravityFlipTimer]
  rfl

theorem flipped_gravityDir (X : Extern) (s : State) (gp : GravityPad) :
    (flipParticles X gp (snapToSurface (flipGravity s))).gravityDir = -s.gravityDir := by
  rw [flipParticles_gravityDir, snapToSurface_gravityDir]
  rfl

theorem gravityPads_foldl_not_ready (X : Extern) (pads : List GravityPad) (s : State)
    (h : gravityPadReady pads s = false) : pads.foldl (gravityPadStep X) s = s := by
  induction pads with
  | nil => rfl
  | cons gp rest ih =>
    have hstep : gravityPadStep X s gp = s := by
      unfold gravityPadStep
      rw [if_neg]
      intro hc
      simp only [gravityPadReady, List.any_cons, Bool.and_eq_false_iff, Bool.or_eq_false_iff,
        Bool.and_eq_true] at h hc
      rcases h with h | h
      · rw [hc.2] at h
        exact Bool.noConfusion h
      · rw [hc.1] at h
        exact Bool.noConfusion h.1
    rw [List.foldl_cons, hstep]
    apply ih
    simp only [gravityPadReady, List.any_cons, Bool.and_eq_false_iff, Bool.or_eq_false_iff] at h ⊢
    rcases h with h | h
    · exact Or.inl h
    · exact Or.inr h.2

theorem gravityPads_foldl_ready (X : Extern) (pads : List GravityPad) (s : State)
    (h : gravityPadReady pads s = true) :
    ∃ gp ∈ pads, RectsIntersect s.player gp.rect = true ∧
      pads.foldl (gravityPadStep X) s = flipParticles X gp (snapToSurface (flipGravity s)) := by
  induction pads with
  | nil => simp [gravityPadReady] at h
  | cons gp rest ih =>
    simp only [gravityPadReady, List.any_cons, Bool.and_eq_true, Bool.or_eq_true,
      decide_eq_true_eq] at h
    obtain ⟨ht, hany⟩ := h
    by_cases hgp : RectsIntersect s.player gp.rect = true
    · refine ⟨gp, List.mem_cons_self _ _, hgp, ?_⟩
      have hstep : gravityPadStep X s gp = flipParticles X gp (snapToSurface (flipGravity s)) := by
        unfold gravityPadStep
        rw [if_pos]
        simp [hgp, ht]
      rw [List.foldl_cons, hstep]
      apply gravityPads_foldl_of_timer_pos
      rw [flipped_gravityFlipTimer]
      exact gravityFlipCooldown_pos
    · have hstep : gravityPadStep X s gp = s := by
        unfold gravityPadStep
        rw [if_neg]
        simp [hgp]
      have hrest : gravityPadReady rest s = true := by
        simp only [gravityPadReady, Bool.and_eq_true, decide_eq_true_eq]
        rcases hany with h1 | h1
        · exact absurd h1 hgp
        · exact ⟨ht, h1⟩
      obtain ⟨gp', hmem, hint, hfold⟩ := ih hrest
      exact ⟨gp', List.mem_cons_of_mem _ hmem, hint, by rw [List.foldl_cons, hstep, hfold]⟩

theorem gravityPadStage_gravityDir (X : Extern) (L : Level) (s : State) :
    (gravityPadStage X L s).gravityDir =
      if gravityPadReady L.gravityPads s then -s.gravityDir else s.gravityDir := by
  unfold gravityPadStage
  cases h : gravityPadReady L.gravityPads s
  · rw [gravityPads_foldl_not_ready X _ s h]
    rfl
  · obtain ⟨gp, -, -, hfold⟩ := gravityPads_foldl_ready X _ s h
    rw [hfold, flipped_gravityDir]
    rfl

theorem gravityPadStage_gravityFlipTimer (X : Extern) (L : Level) (s : State) :
    (gravityPadStage X L s).gravityFlipTimer =
      if gravityPadReady L.gravityPads s then gravityFlipCooldown else s.gravityFlipTimer := by
  unfold gravityPadStage
  cases h : gravityPadReady L.gravityPads s
  · rw [gravityPads_foldl_not_ready X _ s h]
    rfl
  · obtain ⟨gp, -, -, hfold⟩ := gravityPads_foldl_ready X _ s h
    rw [hfold, flipped_gravityFlipTimer]
    rfl

theorem gravityPadStage_once (X : Extern) (L : Level) (s : State) :
    gravityPadStage X L s = s ∨
      ∃ gp ∈ L.gravityPads, gravityPadStage X L s = gravityPadStep X s gp ∧
        gravityPadStep X s gp = flipParticles X gp (snapToSurface (flipGravity s)) := by
  unfold gravityPadStage
  cases h : gravityPadReady L.gravityPads s
  · exact Or.inl (gravityPads_foldl_not_ready X _ s h)
  · obtain ⟨gp, hmem, hint, hfold⟩ := gravityPads_foldl_ready X _ s h
    have ht : s.gravityFlipTimer ≤ 0 := by
      simp only [gravityPadReady, Bool.and_eq_true, decide_eq_true_eq] at h
      exact h.1
    have hstep : gravityPadStep X s gp = flipParticles X gp (snapToSurface (flipGravity s)) := by
      unfold gravityPadStep
      rw [if_pos]
      simp [hint, ht]
    exact Or.inr ⟨gp, hmem, by rw [hfold, hstep], hstep⟩

/-! ## The gravity variables across a frame -/

theorem frame_gravityDir (X : Extern) (L : Level) (i : Input) (s : State) :
    (frame X L i s).gravityDir = (afterGravityPads X L i s).gravityDir := by
  simp [frame, afterAutoJump, afterSpikes, afterFinish]

theorem frame_gravityFlipTimer (X : Extern) (L : Level) (i : Input) (s : State) :
    (frame X L i s).gravityFlipTimer = (afterGravityPads X L i s).gravityFlipTimer := by
  simp [frame, afterAutoJump, afterSpikes, afterFinish]

theorem afterSpeedPads_gravityDir (X : Extern) (L : Level) (i : Input) (s : State) :
    (afterSpeedPads X L i s).gravityDir = (afterRestart i s).gravityDir := by
  simp [afterSpeedPads, afterJumpPads, afterCollisions, afterMotion, afterTimers,
    afterSpeedTimer, afterJumpInput]

theorem afterSpeedPads_gravityFlipTimer (X : Extern) (L : Level) (i : Input) (s : State) :
    (afterSpeedPads X L i s).gravityFlipTimer = (afterTimers X i s).gravityFlipTimer := by
  simp [afterSpeedPads, afterJumpPads, afterCollisions, afterMotion]

theorem afterTimers_gravityFlipTimer (X : Extern) (i : Input) (s : State) :
    (afterTimers X i s).gravityFlipTimer =
      if (afterRestart i s).gravityFlipTimer > 0
      then max 0 ((afterRestart i s).gravityFlipTimer - i.dt)
      else (afterRestart i s).gravityFlipTimer := by
  have h : (afterSpeedTimer X i s).gravityFlipTimer = (afterRestart i s).gravityFlipTimer := by
    simp [afterSpeedTimer, afterJumpInput]
  unfold afterTimers gravityTimerStage
  rw [h]
  split_ifs <;> simp [h]

theorem frame_gravityDir_eq (X : Extern) (L : Level) (i : Input) (s : State) :
    (frame X L i s).gravityDir =
      if gravityPadReady L.gravityPads (afterSpeedPads X L i s)
      then -(afterRestart i s).gravityDir else (afterRestart i s).gravityDir := by
  rw [frame_gravityDir, afterGravityPads, gravityPadStage_gravityDir, afterSpeedPads_gravityDir]

theorem frame_gravityFlipTimer_eq (X : Extern) (L : Level) (i : Input) (s : State) :
    (frame X L i s).gravityFlipTimer =
      if gravityPadReady L.gravityPads (afterSpeedPads X L i s)
      then gravityFlipCooldown else (afterTimers X i s).gravityFlipTimer := by
  rw [frame_gravityFlipTimer, afterGravityPads, gravityPadStage_gravityFlipTimer,
    afterSpeedPads_gravityFlipTimer]

theorem gravityPadReady_iff (pads : List GravityPad) (s : State) :
    gravityPadReady pads s = true ↔
      s.gravityFlipTimer ≤ 0 ∧ ∃ gp ∈ pads, RectsIntersect s.player gp.rect = true := by
  simp [gravityPadReady]

theorem afterTimers_gravityFlipTimer_of_not_fires (X : Extern) (i : Input) (s : State)
    (h : restartFires i s = false) :
    (afterTimers X i s).gravityFlipTimer =
      if s.gravityFlipTimer > 0 then max 0 (s.gravityFlipTimer - i.dt)
      else s.gravityFlipTimer := by
  rw [afterTimers_gravityFlipTimer, afterRestart_of_not_fires i s h]
  rfl

theorem noRestart_append (X : Extern) (L : Level) (s : State) (as bs : List Input) :
    noRestart X L s (as ++ bs) = (noRestart X L s as && noRestart X L (run X L s as) bs) := by
  induction as generalizing s with
  | nil => simp [noRestart, run]
  | cons a rest ih => simp [noRestart, run, ih, Bool.and_assoc]

theorem elapsed_cons (i : Input) (rest : List Input) :
    elapsed (i :: rest) = i.dt + elapsed rest := by
  simp [elapsed]

theorem elapsed_append (as bs : List Input) : elapsed (as ++ bs) = elapsed as + elapsed bs := by
  simp [elapsed]

theorem reachable_gravityDir (X : Extern) (L : Level) (s : State) (h : Reachable X L s) :
    s.gravityDir = 1 ∨ s.gravityDir = -1 := by
  induction h with
  | init => exact Or.inl rfl
  | step i s _ _ ih =>
    have hr : (afterRestart i s).gravityDir = 1 ∨ (afterRestart i s).gravityDir = -1 := by
      rcases restartStage_gravityDir_cases i (clockStage i.dt s) with h1 | h1
      · unfold afterRestart
        rw [h1]
        exact ih
      · exact Or.inl h1
    rw [frame_gravityDir_eq]
    split_ifs
    · rcases hr with h1 | h1
      · exact Or.inr (by rw [h1])
      · exact Or.inl (by rw [h1]; rfl)
    · exact hr

theorem reachable_gravityFlipTimer (X : Extern) (L : Level) (s : State)
    (h : Reachable X L s) : 0 ≤ s.gravityFlipTimer := by
  induction h with
  | init => exact le_refl _
  | step i s _ _ ih =>
    have hr : 0 ≤ (afterRestart i s).gravityFlipTimer := by
      rcases restartStage_gravityFlipTimer_cases i (clockStage i.dt s) with h1 | h1
      · unfold afterRestart
        rw [h1]
        exact ih
      · exact h1.ge
    rw [frame_gravityFlipTimer_eq, afterTimers_gravityFlipTimer]
    split_ifs
    · exact gravityFlipCooldown_pos.le
    · exact le_max_left _ _
    · exact hr


/-! ## Gravity flip: cooldown, direction, timer (claims C5, C6, C7) -/

theorem frame_eq_stages (X : Extern) (L : Level) (i : Input) (s : State) :
    frame X L i s =
      endOfFrameStage (deathShakeStage i.dt (particleStage i.dt (cameraStage
        (autoJumpStage X (spikeStage L (finishStage X L (gravityPadStage X L
          (speedPadStage X L (jumpPadStage X L (platformStage X L i.dt (floorCeilingStage
            (integrateStage i.dt (gravityStage i.dt (horizontalStage
              (gravityTimerStage i.dt (speedTimerStage i.dt (jumpInputStage X i
                (restartStage i (clockStage i.dt s))))))))))))))))))) := rfl

theorem restartFires_tick (dt : ℚ) (s : State) : restartFires (tick dt) s = false := by
  simp [restartFires, tick]

/-- C6: every state reachable from the initial state has `gravityDir` equal to +1 or -1;
a frame in which the restart block is not entered negates `gravityDir` when, at the start
of the gravity pad loop of that frame, the cooldown timer is `≤ 0` and the player
rectangle intersects some gravity pad, and leaves it unchanged otherwise. -/
theorem gravityDir_sign_and_step (X : Extern) (L : Level) (s : State) (i : Input) :
    (Reachable X L s → s.gravityDir = 1 ∨ s.gravityDir = -1) ∧
    (restartFires i s = false →
      (frame X L i s).gravityDir =
        if (afterSpeedPads X L i s).gravityFlipTimer ≤ 0 ∧
            ∃ gp ∈ L.gravityPads, RectsIntersect (afterSpeedPads X L i s).player gp.rect = true
        then -s.gravityDir else s.gravityDir) := by
  refine ⟨reachable_gravityDir X L s, ?_⟩
  intro h
  rw [frame_gravityDir_eq, afterRestart_of_not_fires i s h]
  by_cases hr : gravityPadReady L.gravityPads (afterSpeedPads X L i s) = true
  · rw [if_pos hr, if_pos ((gravityPadReady_iff _ _).mp hr)]
    rfl
  · rw [if_neg hr, if_neg (fun hc => hr ((gravityPadReady_iff _ _).mpr hc))]
    rfl

/-- Witness for C6: the first frame from the initial state on `padLevel`. -/
theorem gravityDir_sign_and_step_witness :
    Reachable Extern.stub padLevel State.init ∧
    restartFires (tick (1 / 10)) State.init = false ∧
    (State.init.gravityDir = 1 ∨ State.init.gravityDir = -1) ∧
    (frame Extern.stub padLevel (tick (1 / 10)) State.init).gravityDir =
      if (afterSpeedPads Extern.stub padLevel (tick (1 / 10)) State.init).gravityFlipTimer ≤ 0 ∧
          ∃ gp ∈ padLevel.gravityPads,
            RectsIntersect (afterSpeedPads Extern.stub padLevel (tick (1 / 10)) State.init).player
              gp.rect = true
      then -State.init.gravityDir else State.init.gravityDir :=
  ⟨Reachable.init, restartFires_tick _ _,
    (gravityDir_sign_and_step Extern.stub padLevel State.init (tick (1 / 10))).1 Reachable.init,
    (gravityDir_sign_and_step Extern.stub padLevel State.init (tick (1 / 10))).2
      (restartFires_tick _ _)⟩

/-- C7: in every state reachable from the initial state by frames with `dt ≥ 0` the
cooldown timer `gravityFlipTimer` is `≥ 0`; the decrement of main.cpp:282 turns a timer
value `t` into `max 0 (t - dt)`, both on the state itself and inside a frame (where it
acts on the value the restart block leaves), and the frame ends with a timer `≥ 0`. -/
theorem gravityFlipTimer_nonneg (X : Extern) (L : Level) (s : State) (i : Input)
    (hs : Reachable X L s) (hdt : 0 ≤ i.dt) :
    0 ≤ s.gravityFlipTimer ∧
    (gravityTimerStage i.dt s).gravityFlipTimer = max 0 (s.gravityFlipTimer - i.dt) ∧
    (afterTimers X i s).gravityFlipTimer =
      max 0 ((afterRestart i s).gravityFlipTimer - i.dt) ∧
    (restartFires i s = false →
      (afterTimers X i s).gravityFlipTimer = max 0 (s.gravityFlipTimer - i.dt)) ∧
    0 ≤ (frame X L i s).gravityFlipTimer := by
  have h0 := reachable_gravityFlipTimer X L s hs
  have hmax : ∀ t : ℚ, 0 ≤ t → (if t > 0 then max 0 (t - i.dt) else t) = max 0 (t - i.dt) := by
    intro t ht
    split_ifs with hpos
    · rfl
    · have ht0 : t = 0 := le_antisymm (not_lt.mp hpos) ht
      rw [ht0, zero_sub, max_eq_left (by linarith)]
  have hr : 0 ≤ (afterRestart i s).gravityFlipTimer := by
    rcases restartStage_gravityFlipTimer_cases i (clockStage i.dt s) with h1 | h1
    · unfold afterRestart
      rw [h1]
      exact h0
    · exact h1.ge
  refine ⟨h0, ?_, ?_, ?_, ?_⟩
  · unfold gravityTimerStage
    split_ifs with hpos
    · rfl
    · have ht0 : s.gravityFlipTimer = 0 := le_antisymm (not_lt.mp hpos) h0
      rw [ht0, zero_sub, max_eq_left (by linarith)]
  · rw [afterTimers_gravityFlipTimer]
    exact hmax _ hr
  · intro hnf
    rw [afterTimers_gravityFlipTimer_of_not_fires X i s hnf]
    exact hmax _ h0
  · exact reachable_gravityFlipTimer X L _ (Reachable.step i s hs hdt)

/-- Witness for C7: the initial state and a frame of 0.1 s. -/
theorem gravityFlipTimer_nonneg_witness :
    Reachable Extern.stub padLevel State.init ∧ (0 : ℚ) ≤ (tick (1 / 10)).dt ∧
    0 ≤ State.init.gravityFlipTimer ∧
    0 ≤ (frame Extern.stub padLevel (tick (1 / 10)) State.init).gravityFlipTimer :=
  ⟨Reachable.init, by simp [tick],
    (gravityFlipTimer_nonneg Extern.stub padLevel State.init (tick (1 / 10)) Reachable.init
      (by simp [tick])).1,
    (gravityFlipTimer_nonneg Extern.stub padLevel State.init (tick (1 / 10)) Reachable.init
      (by simp [tick])).2.2.2.2⟩


/-! ## Speed pads: the timed modifier (claim C8) -/

theorem speedTimerStage_modifier (b m R dt : ℚ) (s : State) (h : SpeedModifier b m R s)
    (hdt : 0 ≤ dt) : SpeedModifier b m (R - dt) (speedTimerStage dt s) := by
  obtain ⟨hb, h⟩ := h
  refine ⟨by rw [speedTimerStage_baseRunSpeed]; exact hb, ?_⟩
  by_cases hR : 0 < R
  · rw [if_pos hR] at h
    obtain ⟨ht, hm, -⟩ := h
    have hpos : ¬ s.speedTimer ≤ 0 := by
      rw [ht]
      exact not_le.mpr hR
    by_cases hle : R - dt ≤ 0
    · have hst : speedTimerStage dt s =
          { s with speedTimer := 0, speedMultiplierActive := 1, runSpeed := s.baseRunSpeed } := by
        unfold speedTimerStage
        rw [if_neg hpos, if_pos (by rw [ht]; exact hle)]
      rw [hst, if_neg (not_lt.mpr hle)]
      exact ⟨rfl, rfl, hb⟩
    · have hst : speedTimerStage dt s =
          { s with
            speedTimer := s.speedTimer - dt
            runSpeed := s.baseRunSpeed * s.speedMultiplierActive } := by
        unfold speedTimerStage
        rw [if_neg hpos, if_neg (by rw [ht]; exact hle)]
      rw [hst, if_pos (not_le.mp hle)]
      refine ⟨?_, hm, ?_⟩
      · show s.speedTimer - dt = R - dt
        rw [ht]
      · show s.baseRunSpeed * s.speedMultiplierActive = b * m
        rw [hb, hm]
  · rw [if_neg hR] at h
    obtain ⟨ht, -, -⟩ := h
    have hst : speedTimerStage dt s =
        { s with speedMultiplierActive := 1, runSpeed := s.baseRunSpeed } := by
      unfold speedTimerStage
      rw [if_pos (by rw [ht])]
    rw [hst, if_neg (by linarith)]
    exact ⟨ht, rfl, hb⟩

theorem SpeedModifier_congr (b m R : ℚ) (s r : State) (hb : r.baseRunSpeed = s.baseRunSpeed)
    (ht : r.speedTimer = s.speedTimer) (hm : r.speedMultiplierActive = s.speedMultiplierActive)
    (hr : r.runSpeed = s.runSpeed) (h : SpeedModifier b m R s) : SpeedModifier b m R r := by
  unfold SpeedModifier at h ⊢
  rw [hb, ht, hm, hr]
  exact h

theorem afterTimers_modifier (X : Extern) (b m R : ℚ) (i : Input) (s : State)
    (h : SpeedModifier b m R s) (hnr : restartFires i s = false) (hdt : 0 ≤ i.dt) :
    SpeedModifier b m (R - i.dt) (afterTimers X i s) := by
  have h1 : SpeedModifier b m R (afterJumpInput X i s) := by
    apply SpeedModifier_congr b m R s _ _ _ _ _ h <;>
      simp [afterJumpInput, afterRestart_of_not_fires i s hnr]
  have h2 := speedTimerStage_modifier b m R i.dt _ h1 hdt
  exact SpeedModifier_congr b m (R - i.dt) (speedTimerStage i.dt (afterJumpInput X i s)) _
    (by simp [afterTimers, afterSpeedTimer]) (by simp [afterTimers, afterSpeedTimer])
    (by simp [afterTimers, afterSpeedTimer]) (by simp [afterTimers, afterSpeedTimer]) h2

theorem speedPads_foldl_none (X : Extern) (pads : List SpeedPad) (s : State)
    (h : pads.any (fun sp => RectsIntersect s.player sp.rect) = false) :
    pads.foldl (speedPadStep X) s = s := by
  induction pads with
  | nil => rfl
  | cons sp rest ih =>
    simp only [List.any_cons, Bool.or_eq_false_iff] at h
    have hstep : speedPadStep X s sp = s := by
      unfold speedPadStep
      rw [if_neg (by rw [h.1]; exact Bool.false_ne_true)]
    rw [List.foldl_cons, hstep]
    exact ih h.2

theorem frame_modifier (X : Extern) (L : Level) (b m R : ℚ) (i : Input) (s : State)
    (h : SpeedModifier b m R s) (hnr : restartFires i s = false)
    (hnp : speedPadTriggered X L i s = false) (hdt : 0 ≤ i.dt) :
    SpeedModifier b m (R - i.dt) (frame X L i s) := by
  have h1 := afterTimers_modifier X b m R i s h hnr hdt
  have hpads : afterSpeedPads X L i s = afterJumpPads X L i s := by
    unfold afterSpeedPads speedPadStage
    exact speedPads_foldl_none X _ _ hnp
  apply SpeedModifier_congr b m (R - i.dt) (afterTimers X i s) _ _ _ _ _ h1 <;>
    simp [frame, afterAutoJump, afterSpikes, afterFinish, afterGravityPads, hpads,
      afterJumpPads, afterCollisions, afterMotion]

theorem run_modifier (X : Extern) (L : Level) (b m : ℚ) (frames : List Input) (R : ℚ)
    (s : State) (h : SpeedModifier b m R s) (hnr : noRestart X L s frames = true)
    (hnp : noSpeedPad X L s frames = true) (hdt : ∀ j ∈ frames, 0 ≤ j.dt) :
    SpeedModifier b m (R - elapsed frames) (run X L s frames) := by
  induction frames generalizing s R with
  | nil =>
    have : R - elapsed [] = R := by simp [elapsed]
    rw [this]
    exact h
  | cons i rest ih =>
    simp only [noRestart, noSpeedPad, Bool.and_eq_true, Bool.not_eq_true'] at hnr hnp
    have h1 := frame_modifier X L b m R i s h hnr.1 hnp.1 (hdt i (List.mem_cons_self _ _))
    have h2 := ih (R - i.dt) (frame X L i s) h1 hnr.2 hnp.2
      (fun j hj => hdt j (List.mem_cons_of_mem _ hj))
    have : R - elapsed (i :: rest) = R - i.dt - elapsed rest := by
      rw [elapsed_cons]
      ring
    rw [this]
    exact h2

theorem speedPadStep_triggered (X : Extern) (s : State) (sp : SpeedPad)
    (h : RectsIntersect s.player sp.rect = true) :
    (speedPadStep X s sp).speedTimer = sp.duration ∧
    (speedPadStep X s sp).speedMultiplierActive = sp.multiplier ∧
    (speedPadStep X s sp).runSpeed = s.baseRunSpeed * sp.multiplier := by
  unfold speedPadStep
  rw [if_pos h]
  exact ⟨rfl, rfl, rfl⟩


theorem restartStage_of_fires (i : Input) (s : State) (h : restartFires i s = true) :
    restartStage i s =
      { s with
        player := ⟨100, 520, 36, 36⟩
        playerVel := ⟨0, 0⟩
        grounded := false
        alive := true
        camX := 0
        songTime := 0
        deathShake := 0
        particles := []
        runSpeed := baseRunSpeedDefault
        baseRunSpeed := baseRunSpeedDefault
        speedTimer := 0
        speedMultiplierActive := 1
        holdJumpActive := false
        prevGrounded := false
        gravityDir := 1
        gravityFlipTimer := 0
        levelFinished := false } := by
  unfold restartStage
  rw [if_pos h]

theorem afterTimers_of_restart (X : Extern) (i : Input) (s : State)
    (h : restartFires i (clockStage i.dt s) = true) :
    (afterTimers X i s).speedMultiplierActive = 1 ∧ (afterTimers X i s).speedTimer = 0 ∧
      (afterTimers X i s).runSpeed = 420 := by
  have e : afterTimers X i s =
      gravityTimerStage i.dt (speedTimerStage i.dt (jumpInputStage X i
        (restartStage i (clockStage i.dt s)))) := rfl
  rw [e, restartStage_of_fires _ _ h]
  simp [speedTimerStage, baseRunSpeedDefault]

/-- The timed speed modifier in exact arithmetic (no rounding of `speedTimer -= dt`):
after a speed pad of multiplier `m` and duration `D > 0` has been triggered, in a run of
later frames with `dt ≥ 0` in which the restart block is not entered and no speed pad is
triggered, the state after the timer stage of a frame, with `E` the frame times summed
since the trigger, has multiplier `m`, timer `D - E` and run speed `base * m` if `E < D`,
and multiplier 1, timer 0 and run speed `base` if `E ≥ D`. The binary32 version is
`speed_modifier_decay32`. -/
theorem speed_modifier_decay (X : Extern) (L : Level) (s0 : State) (m D : ℚ)
    (frames : List Input) (i : Input) (hD : 0 < D)
    (h0 : s0.speedTimer = D ∧ s0.speedMultiplierActive = m ∧
      s0.runSpeed = s0.baseRunSpeed * m)
    (hdt : ∀ j ∈ frames ++ [i], 0 ≤ j.dt)
    (hnr : noRestart X L s0 (frames ++ [i]) = true)
    (hnp : noSpeedPad X L s0 frames = true) :
    (elapsed (frames ++ [i]) < D →
      (afterTimers X i (run X L s0 frames)).speedMultiplierActive = m ∧
      (afterTimers X i (run X L s0 frames)).speedTimer = D - elapsed (frames ++ [i]) ∧
      (afterTimers X i (run X L s0 frames)).runSpeed = s0.baseRunSpeed * m) ∧
    (D ≤ elapsed (frames ++ [i]) →
      (afterTimers X i (run X L s0 frames)).speedMultiplierActive = 1 ∧
      (afterTimers X i (run X L s0 frames)).speedTimer = 0 ∧
      (afterTimers X i (run X L s0 frames)).runSpeed = s0.baseRunSpeed) ∧
    (∀ (s : State) (sp : SpeedPad), RectsIntersect s.player sp.rect = true →
      (speedPadStep X s sp).speedTimer = sp.duration ∧
      (speedPadStep X s sp).speedMultiplierActive = sp.multiplier ∧
      (speedPadStep X s sp).runSpeed = s.baseRunSpeed * sp.multiplier) := by
  have hinit : SpeedModifier s0.baseRunSpeed m D s0 := by
    refine ⟨rfl, ?_⟩
    rw [if_pos hD]
    exact h0
  rw [noRestart_append] at hnr
  simp only [noRestart, Bool.and_eq_true, Bool.not_eq_true', Bool.and_true] at hnr
  have hrun := run_modifier X L s0.baseRunSpeed m frames D s0 hinit hnr.1 hnp
    (fun j hj => hdt j (List.mem_append_left _ hj))
  have hlast := afterTimers_modifier X s0.baseRunSpeed m (D - elapsed frames) i _ hrun hnr.2
    (hdt i (List.mem_append_right _ (List.mem_singleton_self _)))
  have hE : elapsed (frames ++ [i]) = elapsed frames + i.dt := by
    have hnil : elapsed [] = 0 := rfl
    rw [elapsed_append, elapsed_cons, hnil, add_zero]
  obtain ⟨-, hlast⟩ := hlast
  refine ⟨?_, ?_, fun s sp h => speedPadStep_triggered X s sp h⟩
  · intro hlt
    rw [if_pos (by rw [hE] at hlt; linarith)] at hlast
    obtain ⟨h1, h2, h3⟩ := hlast
    refine ⟨h2, ?_, h3⟩
    rw [h1, hE]
    ring
  · intro hge
    rw [if_neg (by rw [hE] at hge; linarith)] at hlast
    obtain ⟨h1, h2, h3⟩ := hlast
    exact ⟨h2, h1, h3⟩

theorem spikeLevel_first_frame :
    (frame Extern.stub spikeLevel (tick (1 / 5)) State.init).speedTimer = 9 / 10 ∧
    (frame Extern.stub spikeLevel (tick (1 / 5)) State.init).speedMultiplierActive =
      135 / 100 ∧
    (frame Extern.stub spikeLevel (tick (1 / 5)) State.init).runSpeed = 420 * (135 / 100) ∧
    (frame Extern.stub spikeLevel (tick (1 / 5)) State.init).alive = false ∧
    (frame Extern.stub spikeLevel (tick (1 / 5)) State.init).levelFinished = false ∧
    (frame Extern.stub spikeLevel (tick (1 / 5)) State.init).grounded = true ∧
    (frame Extern.stub spikeLevel (tick (1 / 5)) State.init).prevGrounded = true := by
  simp [frame_eq_stages, tick, clockStage, restartStage, restartFires, jumpInputStage,
    speedTimerStage, gravityTimerStage, horizontalStage, autoRun, stopWhenFinished,
    gravityStage, integrateStage, floorCeilingStage, landOnFloor, bumpCeiling, landOnCeiling,
    bumpFloor, platformStage, jumpPadStage, speedPadStage, speedPadStep, gravityPadStage,
    spikeLevel, State.init, gravityBase, defaultFloorY, ceilingYTop, baseRunSpeedDefault,
    RectsIntersect, finishStage, spikeStage, spikeLoop, CollideSpike, spikeBaseDanger,
    spikeTipBox, autoJumpStage, cameraStage, deathShakeStage, endOfFrameStage, particleStage,
    spawn]
  norm_num

/-- Counterexample to C8 as stated: on `spikeLevel` the first frame (0.2 s) triggers the
speed pad (timer 0.9, multiplier 1.35, run speed 567) and kills the player on the spike;
`R` is pressed in the next frame (0.05 s), and after its timer stage the multiplier is 1
and the timer 0 although only 0.05 s < 0.9 s have passed and no pad was triggered
again. -/
theorem speed_modifier_lost_on_restart :
    (frame Extern.stub spikeLevel (tick (1 / 5)) State.init).speedTimer = 9 / 10 ∧
    (frame Extern.stub spikeLevel (tick (1 / 5)) State.init).speedMultiplierActive =
      135 / 100 ∧
    (frame Extern.stub spikeLevel (tick (1 / 5)) State.init).runSpeed = 420 * (135 / 100) ∧
    elapsed [restartHoldingJump (1 / 20)] < 9 / 10 ∧
    (afterTimers Extern.stub (restartHoldingJump (1 / 20))
      (frame Extern.stub spikeLevel (tick (1 / 5)) State.init)).speedMultiplierActive = 1 ∧
    (afterTimers Extern.stub (restartHoldingJump (1 / 20))
      (frame Extern.stub spikeLevel (tick (1 / 5)) State.init)).speedTimer = 0 ∧
    (afterTimers Extern.stub (restartHoldingJump (1 / 20))
      (frame Extern.stub spikeLevel (tick (1 / 5)) State.init)).runSpeed = 420 ∧
    (afterTimers Extern.stub (restartHoldingJump (1 / 20))
      (frame Extern.stub spikeLevel (tick (1 / 5)) State.init)).speedMultiplierActive ≠
        135 / 100 := by
  obtain ⟨h1, h2, h3, h4, -, -, -⟩ := spikeLevel_first_frame
  have hfire : restartFires (restartHoldingJump (1 / 20))
      (clockStage (restartHoldingJump (1 / 20)).dt
        (frame Extern.stub spikeLevel (tick (1 / 5)) State.init)) = true := by
    unfold restartFires
    rw [clockStage_alive, h4]
    rfl
  obtain ⟨h5, h6, h7⟩ := afterTimers_of_restart Extern.stub _ _ hfire
  refine ⟨h1, h2, h3, by norm_num [elapsed, restartHoldingJump], h5, h6, h7, ?_⟩
  rw [h5]
  norm_num


/-! ## Jump input and auto-jump (claims C9, C10) -/

theorem doJump_playerVel_eq (X : Extern) (s : State) :
    (doJump X s).playerVel = ⟨s.playerVel.x, jumpVelBase * (s.gravityDir : ℚ)⟩ := by
  unfold doJump
  rw [spawn_playerVel]

theorem doJump_grounded_eq (X : Extern) (s : State) : (doJump X s).grounded = false := by
  unfold doJump
  rw [spawn_grounded]

/-- C9: the jump-input stage sets `playerVel.y` to `jumpVelBase * gravityDir`
(`-760 * gravityDir`) and `grounded` to false when the player is alive, the jump key has
a press edge and `grounded` is true; in every other case (dead, not grounded, no press
edge, whether or not the key is held) it leaves `playerVel` and `grounded` as they
were. -/
theorem jumpInputStage_jump (X : Extern) (i : Input) (s : State) :
    (jumpInputStage X i s).playerVel =
      (if s.alive = true ∧ i.jumpPressed = true ∧ s.grounded = true
       then ⟨s.playerVel.x, jumpVelBase * (s.gravityDir : ℚ)⟩ else s.playerVel) ∧
    (jumpInputStage X i s).grounded =
      (if s.alive = true ∧ i.jumpPressed = true ∧ s.grounded = true
       then false else s.grounded) ∧
    jumpVelBase * (s.gravityDir : ℚ) = -760 * (s.gravityDir : ℚ) := by
  refine ⟨?_, ?_, rfl⟩
  · unfold jumpInputStage
    by_cases ha : s.alive = true
    · by_cases hp : (i.jumpPressed && s.grounded) = true
      · have hc := hp
        simp only [Bool.and_eq_true] at hc
        rw [if_pos ha, if_pos hp, if_pos ⟨ha, hc⟩, doJump_playerVel_eq]
      · have hc : ¬ (s.alive = true ∧ i.jumpPressed = true ∧ s.grounded = true) := by
          intro h
          exact hp (by simp [h.2.1, h.2.2])
        rw [if_pos ha, if_neg hp, if_neg hc]
    · rw [if_neg ha, if_neg (fun h => ha h.1)]
  · unfold jumpInputStage
    by_cases ha : s.alive = true
    · by_cases hp : (i.jumpPressed && s.grounded) = true
      · have hc := hp
        simp only [Bool.and_eq_true] at hc
        rw [if_pos ha, if_pos hp, if_pos ⟨ha, hc⟩, doJump_grounded_eq]
      · have hc : ¬ (s.alive = true ∧ i.jumpPressed = true ∧ s.grounded = true) := by
          intro h
          exact hp (by simp [h.2.1, h.2.2])
        rw [if_pos ha, if_neg hp, if_neg hc]
    · rw [if_neg ha, if_neg (fun h => ha h.1)]

theorem spikeLoop_alive_of_alive (s : State) (spikes : List Spike)
    (h : (spikeLoop s spikes).alive = true) : s.alive = true := by
  induction spikes with
  | nil => exact h
  | cons sp rest ih =>
    unfold spikeLoop at h
    split_ifs at h
    · exact ih h
    · exact ih h

theorem afterSpikes_alive_of_alive (X : Extern) (L : Level) (i : Input) (s : State)
    (h : (afterSpikes X L i s).alive = true) : (afterRestart i s).alive = true := by
  have h1 := spikeLoop_alive_of_alive _ _ h
  simpa [afterFinish, afterGravityPads, afterSpeedPads, afterJumpPads, afterCollisions,
    afterMotion, afterTimers, afterSpeedTimer, afterJumpInput] using h1

theorem jumpInputStage_holdJumpActive_of_alive (X : Extern) (i : Input) (s : State)
    (h : s.alive = true) : (jumpInputStage X i s).holdJumpActive = i.jumpDown := by
  unfold jumpInputStage
  rw [if_pos h]
  split_ifs
  · rw [doJump_holdJumpActive]
  · rfl

theorem afterSpikes_holdJumpActive (X : Extern) (L : Level) (i : Input) (s : State) :
    (afterSpikes X L i s).holdJumpActive = (afterJumpInput X i s).holdJumpActive := by
  simp [afterSpikes, afterFinish, afterGravityPads, afterSpeedPads, afterJumpPads,
    afterCollisions, afterMotion, afterTimers, afterSpeedTimer]

theorem gravityPadStage_prevGrounded_of_true (X : Extern) (L : Level) (s : State)
    (h : s.prevGrounded = true) : (gravityPadStage X L s).prevGrounded = true := by
  rcases gravityPadStage_once X L s with h1 | ⟨gp, -, h1, h2⟩
  · rw [h1]
    exact h
  · rw [h1, h2, flipParticles_prevGrounded]
    unfold snapToSurface
    split_ifs <;> rfl

theorem afterSpikes_prevGrounded_of_true (X : Extern) (L : Level) (i : Input) (s : State)
    (hnr : restartFires i s = false) (h : s.prevGrounded = true) :
    (afterSpikes X L i s).prevGrounded = true := by
  have h1 : (afterSpeedPads X L i s).prevGrounded = true := by
    simpa [afterSpeedPads, afterJumpPads, afterCollisions, afterMotion, afterTimers,
      afterSpeedTimer, afterJumpInput, afterRestart_of_not_fires i s hnr] using h
  have h2 := gravityPadStage_prevGrounded_of_true X L _ h1
  simpa [afterSpikes, afterFinish, afterGravityPads] using h2

theorem autoJumpStage_eq (X : Extern) (s : State) :
    autoJumpStage X s = if autoJumpFires s then doJump X s else s := by
  unfold autoJumpStage autoJumpFires
  by_cases ha : s.alive = true
  · rw [if_pos ha, ha, Bool.true_and]
  · rw [if_neg ha, if_neg]
    rw [Bool.and_eq_true]
    exact fun h => ha h.1

/-- C10 (amended): in a frame in which the restart block is not entered, the auto-jump
fires only if, at the auto-jump test, the player is alive, the jump key is held, the frame
started with `prevGrounded = false` and the collision and pad stages left
`grounded = true`; if such a frame starts with `prevGrounded = true` the auto-jump does
not fire and the auto-jump stage changes nothing. Every frame ends with
`prevGrounded = grounded`, so `prevGrounded` at the start of a frame is `grounded` at the
end of the previous one. -/
theorem autoJump_only_on_landing_edge (X : Extern) (L : Level) (s : State) (i : Input)
    (hnr : restartFires i s = false) :
    (autoJumpFires (afterSpikes X L i s) = true →
      (afterSpikes X L i s).alive = true ∧ i.jumpDown = true ∧ s.prevGrounded = false ∧
        (afterSpikes X L i s).grounded = true) ∧
    (s.prevGrounded = true →
      autoJumpFires (afterSpikes X L i s) = false ∧
        afterAutoJump X L i s = afterSpikes X L i s) ∧
    (afterAutoJump X L i s =
      if autoJumpFires (afterSpikes X L i s) then doJump X (afterSpikes X L i s)
      else afterSpikes X L i s) ∧
    (frame X L i s).prevGrounded = (frame X L i s).grounded := by
  have hstage : afterAutoJump X L i s =
      if autoJumpFires (afterSpikes X L i s) then doJump X (afterSpikes X L i s)
      else afterSpikes X L i s := autoJumpStage_eq X _
  have hedge : autoJumpFires (afterSpikes X L i s) = true →
      (afterSpikes X L i s).alive = true ∧ i.jumpDown = true ∧ s.prevGrounded = false ∧
        (afterSpikes X L i s).grounded = true := by
    intro hf
    unfold autoJumpFires at hf
    simp only [Bool.and_eq_true, Bool.not_eq_true'] at hf
    obtain ⟨ha, ⟨hp, hg⟩, hh⟩ := hf
    refine ⟨ha, ?_, ?_, hg⟩
    · have ha0 := afterSpikes_alive_of_alive X L i s ha
      rw [afterSpikes_holdJumpActive] at hh
      rw [← hh]
      exact (jumpInputStage_holdJumpActive_of_alive X i _ ha0).symm
    · cases hs : s.prevGrounded
      · rfl
      · rw [afterSpikes_prevGrounded_of_true X L i s hnr hs] at hp
        exact Bool.noConfusion hp
  have hrest : s.prevGrounded = true → autoJumpFires (afterSpikes X L i s) = false := by
    intro hs
    cases hf : autoJumpFires (afterSpikes X L i s)
    · rfl
    · rw [(hedge hf).2.2.1] at hs
      exact Bool.noConfusion hs
  refine ⟨hedge, ?_, hstage, rfl⟩
  intro hs
  refine ⟨hrest hs, ?_⟩
  rw [hstage, hrest hs]
  rfl

/-- Witness for C10: a player resting on the floor line of `spikeLevel` with the jump key
held and `prevGrounded = true` is not auto-jumped. -/
theorem autoJump_only_on_landing_edge_witness :
    restartFires ⟨1 / 100, false, true, false⟩
      { State.init with
        player := ⟨100, 524, 36, 36⟩, grounded := true, prevGrounded := true } = false ∧
    autoJumpFires (afterSpikes Extern.stub spikeLevel ⟨1 / 100, false, true, false⟩
      { State.init with
        player := ⟨100, 524, 36, 36⟩, grounded := true, prevGrounded := true }) = false :=
  ⟨rfl,
    ((autoJump_only_on_landing_edge Extern.stub spikeLevel
      { State.init with player := ⟨100, 524, 36, 36⟩, grounded := true, prevGrounded := true }
      ⟨1 / 100, false, true, false⟩ rfl).2.1 rfl).1⟩

/-- Counterexample to C10 as stated: on `spikeLevel` the first frame (0.2 s) ends with the
player dead on the floor, `grounded = true` and `prevGrounded = true`; in the next frame
(0.05 s) `R` is pressed with the jump key held: the restart block clears `prevGrounded`,
the player falls back to the floor within the frame, and the auto-jump fires although the
frame started with `prevGrounded = true`. -/
theorem autoJump_fires_after_restart :
    Reachable Extern.stub spikeLevel (frame Extern.stub spikeLevel (tick (1 / 5)) State.init) ∧
    (frame Extern.stub spikeLevel (tick (1 / 5)) State.init).grounded = true ∧
    (frame Extern.stub spikeLevel (tick (1 / 5)) State.init).prevGrounded = true ∧
    autoJumpFires (afterSpikes Extern.stub spikeLevel (restartHoldingJump (1 / 20))
      (frame Extern.stub spikeLevel (tick (1 / 5)) State.init)) = true ∧
    (afterAutoJump Extern.stub spikeLevel (restartHoldingJump (1 / 20))
      (frame Extern.stub spikeLevel (tick (1 / 5)) State.init)).playerVel.y = -760 := by
  obtain ⟨-, -, -, h4, -, h6, h7⟩ := spikeLevel_first_frame
  have hfire : restartFires (restartHoldingJump (1 / 20))
      (clockStage (restartHoldingJump (1 / 20)).dt
        (frame Extern.stub spikeLevel (tick (1 / 5)) State.init)) = true := by
    unfold restartFires
    rw [clockStage_alive, h4]
    rfl
  have e : afterSpikes Extern.stub spikeLevel (restartHoldingJump (1 / 20))
      (frame Extern.stub spikeLevel (tick (1 / 5)) State.init) =
      spikeStage spikeLevel (finishStage Extern.stub spikeLevel
        (gravityPadStage Extern.stub spikeLevel (speedPadStage Extern.stub spikeLevel
          (jumpPadStage Extern.stub spikeLevel
            (platformStage Extern.stub spikeLevel (restartHoldingJump (1 / 20)).dt
              (floorCeilingStage (integrateStage (restartHoldingJump (1 / 20)).dt
                (gravityStage (restartHoldingJump (1 / 20)).dt (horizontalStage
                  (gravityTimerStage (restartHoldingJump (1 / 20)).dt
                    (speedTimerStage (restartHoldingJump (1 / 20)).dt
                      (jumpInputStage Extern.stub (restartHoldingJump (1 / 20))
                        (restartStage (restartHoldingJump (1 / 20))
                          (clockStage (restartHoldingJump (1 / 20)).dt
                            (frame Extern.stub spikeLevel (tick (1 / 5))
                              State.init))))))))))))))) := rfl
  have hfires : autoJumpFires (afterSpikes Extern.stub spikeLevel (restartHoldingJump (1 / 20))
      (frame Extern.stub spikeLevel (tick (1 / 5)) State.init)) = true := by
    rw [e, restartStage_of_fires _ _ hfire]
    simp [autoJumpFires, restartHoldingJump, jumpInputStage, speedTimerStage,
      gravityTimerStage, horizontalStage, autoRun, stopWhenFinished, gravityStage,
      integrateStage, floorCeilingStage, landOnFloor, bumpCeiling, platformStage, jumpPadStage,
      speedPadStage, speedPadStep, gravityPadStage, spikeLevel, gravityBase, defaultFloorY,
      ceilingYTop, baseRunSpeedDefault, RectsIntersect, finishStage, spikeStage, spikeLoop]
    norm_num
  refine ⟨Reachable.step _ _ Reachable.init (by norm_num [tick]), h6, h7, hfires, ?_⟩
  have hstage : afterAutoJump Extern.stub spikeLevel (restartHoldingJump (1 / 20))
      (frame Extern.stub spikeLevel (tick (1 / 5)) State.init) =
      doJump Extern.stub (afterSpikes Extern.stub spikeLevel (restartHoldingJump (1 / 20))
        (frame Extern.stub spikeLevel (tick (1 / 5)) State.init)) := by
    unfold afterAutoJump
    rw [autoJumpStage_eq, hfires]
    rfl
  rw [hstage, doJump_playerVel_eq]
  have hdir : (afterSpikes Extern.stub spikeLevel (restartHoldingJump (1 / 20))
      (frame Extern.stub spikeLevel (tick (1 / 5)) State.init)).gravityDir = 1 := by
    rw [e, restartStage_of_fires _ _ hfire]
    simp [gravityPadStage, spikeLevel]
  show jumpVelBase * _ = -760
  rw [hdir]
  norm_num [jumpVelBase]


/-! ## Clamp and the oscillating platform (claims C17, C18, C19) -/

/-- C17: for a platform with `speed ≠ 0`, and a `sinf` of period `2 * PI` (as the sine
has), `GetRect` is periodic in `t` with period `1 / speed`. -/
theorem GetRect_periodic (X : Extern) (p : MovingPlatform) (t : ℚ) (hs : p.speed ≠ 0)
    (hsin : ∀ x, X.sinf (x + 2 * X.PI) = X.sinf x) :
    p.GetRect X (t + 1 / p.speed) = p.GetRect X t := by
  have harg : p.phase + (t + 1 / p.speed) * p.speed * 2 * X.PI =
      p.phase + t * p.speed * 2 * X.PI + 2 * X.PI := by
    field_simp
    ring
  unfold MovingPlatform.GetRect
  rw [harg, hsin]

theorem sawtooth_period (x : ℚ) :
    Extern.sawtooth.sinf (x + 2 * Extern.sawtooth.PI) = Extern.sawtooth.sinf x := by
  show Int.fract ((x + 2 * 2) / 4) = Int.fract (x / 4)
  have h : (x + 2 * 2) / 4 = x / 4 + 1 := by ring
  rw [h, Int.fract_add_one]

/-- Witness for C17: the platform `swingPlatform` (speed 1/2, period 2) with the sawtooth
in place of the sine, at t = 1 and t = 3. -/
theorem GetRect_periodic_witness :
    swingPlatform.speed ≠ 0 ∧
    swingPlatform.GetRect Extern.sawtooth (1 + 1 / swingPlatform.speed) =
      swingPlatform.GetRect Extern.sawtooth 1 :=
  ⟨by norm_num [swingPlatform],
    GetRect_periodic Extern.sawtooth swingPlatform 1 (by norm_num [swingPlatform])
      sawtooth_period⟩

/-- C19: for `lo ≤ hi`, `Clamp1 v lo hi` lies in `[lo, hi]`, and it is `v` when `v` is
already in `[lo, hi]`. -/
theorem Clamp1_bounds (v lo hi : ℚ) (h : lo ≤ hi) :
    lo ≤ Clamp1 v lo hi ∧ Clamp1 v lo hi ≤ hi ∧
    (lo ≤ v → v ≤ hi → Clamp1 v lo hi = v) := by
  unfold Clamp1
  refine ⟨?_, ?_, ?_⟩
  · split_ifs with h1 h2
    · exact le_refl _
    · exact h
    · exact not_lt.mp h1
  · split_ifs with h1 h2
    · exact h
    · exact le_refl _
    · exact not_lt.mp h2
  · intro hl hh
    rw [if_neg (not_lt.mpr hl), if_neg (not_lt.mpr hh)]

/-- Witness for C19: the alpha clamp of the particle drawing, `Clamp1(life * 2.5, 0, 1)`,
at life 0.6 and at life 0.2. -/
theorem Clamp1_bounds_witness :
    (0 : ℚ) ≤ 1 ∧ Clamp1 (3 / 2) 0 1 ≤ 1 ∧ Clamp1 (1 / 2) 0 1 = 1 / 2 :=
  ⟨by norm_num, (Clamp1_bounds (3 / 2) 0 1 (by norm_num)).2.1,
    (Clamp1_bounds (1 / 2) 0 1 (by norm_num)).2.2 (by norm_num) (by norm_num)⟩


/-! ## Restart and finish (claims C12, C13) -/

theorem restartFires_iff (i : Input) (s : State) :
    restartFires i s = true ↔
      i.restartPressed = true ∧ (s.alive = false ∨ s.levelFinished = true) := by
  unfold restartFires
  cases s.alive <;> cases s.levelFinished <;> cases i.restartPressed <;> simp

theorem restartFires_of_running (i : Input) (s : State) (ha : s.alive = true)
    (hf : s.levelFinished = false) : restartFires i s = false := by
  unfold restartFires
  rw [ha, hf]
  rfl

/-- C13: the restart block is entered exactly when `R` is pressed in a frame that starts
Dead or Finished; the state right after it is the initial state of the session whatever
the state before (player `{100, 520, 36, 36}`, velocity 0, flags cleared, `alive`,
timers 0, multiplier 1, both run speeds 420, `gravityDir = 1`, empty particle pool); only
the count of random draws, which is not a session variable, carries over. When the player
is alive and not finished the frame does not depend on the restart key. -/
theorem restart_resets_session (X : Extern) (L : Level) (i : Input) (s : State) :
    (restartFires i s = true ↔
      i.restartPressed = true ∧ (s.alive = false ∨ s.levelFinished = true)) ∧
    (restartFires i s = true →
      afterRestart i s = { State.init with rngCalls := s.rngCalls } ∧
      (afterRestart i s).runSpeed = 420 ∧ (afterRestart i s).baseRunSpeed = 420 ∧
      (afterRestart i s).particles = []) ∧
    (s.alive = true → s.levelFinished = false →
      frame X L i s = frame X L { i with restartPressed := false } s) := by
  refine ⟨restartFires_iff i s, ?_, ?_⟩
  · intro h
    have h1 : afterRestart i s = { State.init with rngCalls := s.rngCalls } := by
      unfold afterRestart
      rw [restartStage_of_fires i (clockStage i.dt s) h]
      rfl
    rw [h1]
    exact ⟨rfl, rfl, rfl, rfl⟩
  · intro ha hf
    have h1 : restartStage i (clockStage i.dt s) = clockStage i.dt s :=
      restartStage_of_not_fires i _ (restartFires_of_running i _ ha hf)
    have h2 : restartStage { i with restartPressed := false } (clockStage i.dt s) =
        clockStage i.dt s :=
      restartStage_of_not_fires _ _ (restartFires_of_running _ _ ha hf)
    have e2 : frame X L { i with restartPressed := false } s =
        endOfFrameStage (deathShakeStage i.dt (particleStage i.dt (cameraStage
          (autoJumpStage X (spikeStage L (finishStage X L (gravityPadStage X L
            (speedPadStage X L (jumpPadStage X L (platformStage X L i.dt (floorCeilingStage
              (integrateStage i.dt (gravityStage i.dt (horizontalStage
                (gravityTimerStage i.dt (speedTimerStage i.dt (jumpInputStage X i
                  (restartStage { i with restartPressed := false }
                    (clockStage i.dt s))))))))))))))))))) := rfl
    rw [e2, h2, frame_eq_stages, h1]

/-- Witness for C13: a dead player far into the level, gravity inverted, with `R`
pressed. -/
theorem restart_resets_session_witness :
    restartFires (restartHoldingJump (1 / 100))
      { State.init with
        alive := false, player := ⟨5000, 80, 36, 36⟩, gravityDir := -1, camX := 4720 } = true ∧
    afterRestart (restartHoldingJump (1 / 100))
      { State.init with
        alive := false, player := ⟨5000, 80, 36, 36⟩, gravityDir := -1, camX := 4720 } =
      { State.init with rngCalls := 0 } :=
  ⟨rfl,
    ((restart_resets_session Extern.stub padLevel (restartHoldingJump (1 / 100))
      { State.init with
        alive := false, player := ⟨5000, 80, 36, 36⟩, gravityDir := -1, camX := 4720 }).2.1
      rfl).1⟩

theorem spikeLevel_two_frames :
    (frame Extern.stub spikeLevel (tick (1 / 5)) State.init).deathShake = 16 / 5 ∧
    (frame Extern.stub spikeLevel (tick (1 / 5))
      (frame Extern.stub spikeLevel (tick (1 / 5)) State.init)).deathShake = 16 / 5 ∧
    (frame Extern.stub spikeLevel (tick (1 / 5))
      (frame Extern.stub spikeLevel (tick (1 / 5)) State.init)).alive = false := by
  simp [frame_eq_stages, tick, jumpTap, clockStage, restartStage, restartFires, jumpInputStage,
    doJump, speedTimerStage, gravityTimerStage, horizontalStage, autoRun, stopWhenFinished,
    gravityStage, integrateStage, floorCeilingStage, landOnFloor, bumpCeiling, landOnCeiling,
    bumpFloor, platformStage, jumpPadStage, speedPadStage, speedPadStep, gravityPadStage,
    gravityPadStep, flipGravity, snapToSurface, flipParticles, spikeLevel, State.init,
    gravityBase, jumpVelBase, defaultFloorY, ceilingYTop, baseRunSpeedDefault,
    gravityFlipCooldown, RectsIntersect, finishStage, spikeStage, spikeLoop, CollideSpike,
    spikeBaseDanger, spikeTipBox, autoJumpStage, cameraStage, deathShakeStage,
    endOfFrameStage, particleStage, spawn]
  norm_num

/-- C11 (the code differs): on `spikeLevel` the first frame (0.2 s) kills the player on
the spike and ends with `deathShake = 8 - 24 * 0.2 = 3.2`; in the next frame (0.2 s, no
restart) the spike loop, which does not test `alive`, hits the dead player again and sets
`deathShake` back to 8, so the frame ends with 3.2 again and not with
`max(0, 8 - 24 * 0.4) = 0`. -/
theorem deathShake_rearmed_while_dead :
    (frame Extern.stub spikeLevel (tick (1 / 5)) State.init).alive = false ∧
    (frame Extern.stub spikeLevel (tick (1 / 5)) State.init).deathShake =
      max 0 (8 - 24 * (1 / 5)) ∧
    restartFires (tick (1 / 5)) (frame Extern.stub spikeLevel (tick (1 / 5)) State.init) =
      false ∧
    (frame Extern.stub spikeLevel (tick (1 / 5))
      (frame Extern.stub spikeLevel (tick (1 / 5)) State.init)).deathShake = 16 / 5 ∧
    max 0 (8 - 24 * (1 / 5 + 1 / 5)) = (0 : ℚ) := by
  obtain ⟨h1, h2, -⟩ := spikeLevel_two_frames
  refine ⟨spikeLevel_first_frame.2.2.2.1, ?_, restartFires_tick _ _, h2, ?_⟩
  · rw [h1]
    norm_num
  · norm_num

theorem ceilingSpikeLevel_first_frame :
    (frame Extern.stub ceilingSpikeLevel (tick (1 / 10)) State.init).alive = false ∧
    (frame Extern.stub ceilingSpikeLevel (tick (1 / 10)) State.init).player =
      ⟨142, 161 / 2, 36, 36⟩ := by
  simp [frame_eq_stages, tick, jumpTap, clockStage, restartStage, restartFires, jumpInputStage,
    doJump, speedTimerStage, gravityTimerStage, horizontalStage, autoRun, stopWhenFinished,
    gravityStage, integrateStage, floorCeilingStage, landOnFloor, bumpCeiling, landOnCeiling,
    bumpFloor, platformStage, jumpPadStage, speedPadStage, speedPadStep, gravityPadStage,
    gravityPadStep, flipGravity, snapToSurface, flipParticles, ceilingSpikeLevel, padLevel, State.init,
    gravityBase, jumpVelBase, defaultFloorY, ceilingYTop, baseRunSpeedDefault,
    gravityFlipCooldown, RectsIntersect, finishStage, spikeStage, spikeLoop, CollideSpike,
    spikeBaseDanger, spikeTipBox, autoJumpStage, cameraStage, deathShakeStage,
    endOfFrameStage, particleStage, spawn]
  norm_num

theorem ceilingSpikeLevel_second_frame :
    (frame Extern.stub ceilingSpikeLevel (tick (2 / 5))
      (frame Extern.stub ceilingSpikeLevel (tick (1 / 10)) State.init)).alive = false ∧
    (frame Extern.stub ceilingSpikeLevel (tick (2 / 5))
      (frame Extern.stub ceilingSpikeLevel (tick (1 / 10)) State.init)).player =
      ⟨142, 1047 / 2, 36, 36⟩ := by
  simp [frame_eq_stages, tick, jumpTap, clockStage, restartStage, restartFires, jumpInputStage,
    doJump, speedTimerStage, gravityTimerStage, horizontalStage, autoRun, stopWhenFinished,
    gravityStage, integrateStage, floorCeilingStage, landOnFloor, bumpCeiling, landOnCeiling,
    bumpFloor, platformStage, jumpPadStage, speedPadStage, speedPadStep, gravityPadStage,
    gravityPadStep, flipGravity, snapToSurface, flipParticles, ceilingSpikeLevel, padLevel, State.init,
    gravityBase, jumpVelBase, defaultFloorY, ceilingYTop, baseRunSpeedDefault,
    gravityFlipCooldown, RectsIntersect, finishStage, spikeStage, spikeLoop, CollideSpike,
    spikeBaseDanger, spikeTipBox, autoJumpStage, cameraStage, deathShakeStage,
    endOfFrameStage, particleStage, spawn]
  norm_num

/-- C14 (the code differs): on `ceilingSpikeLevel` the first frame (0.1 s) flips gravity
on a floor pad and kills the player on the ceiling spike at y = 80.5; in the next frame
(0.4 s, no restart) the cooldown has run out, the gravity pad loop, which does not test
`alive`, triggers on the ceiling pad under the dead player and moves it to y = 523.5. -/
theorem dead_player_moved_by_gravity_pad :
    Reachable Extern.stub ceilingSpikeLevel
      (frame Extern.stub ceilingSpikeLevel (tick (1 / 10)) State.init) ∧
    (frame Extern.stub ceilingSpikeLevel (tick (1 / 10)) State.init).alive = false ∧
    (frame Extern.stub ceilingSpikeLevel (tick (1 / 10)) State.init).player.y = 161 / 2 ∧
    restartFires (tick (2 / 5))
      (frame Extern.stub ceilingSpikeLevel (tick (1 / 10)) State.init) = false ∧
    (frame Extern.stub ceilingSpikeLevel (tick (2 / 5))
      (frame Extern.stub ceilingSpikeLevel (tick (1 / 10)) State.init)).player.y =
        1047 / 2 := by
  obtain ⟨h1, h2⟩ := ceilingSpikeLevel_first_frame
  obtain ⟨-, h4⟩ := ceilingSpikeLevel_second_frame
  refine ⟨Reachable.step _ _ Reachable.init (by norm_num [tick]), h1, ?_,
    restartFires_tick _ _, ?_⟩
  · rw [h2]
  · rw [h4]

theorem finishLevel_first_frame :
    (frame Extern.stub finishLevel (tick (1 / 10)) State.init).levelFinished = true ∧
    (frame Extern.stub finishLevel (tick (1 / 10)) State.init).alive = true ∧
    (frame Extern.stub finishLevel (tick (1 / 10)) State.init).player =
      ⟨142, 524, 36, 36⟩ := by
  simp [frame_eq_stages, tick, jumpTap, clockStage, restartStage, restartFires, jumpInputStage,
    doJump, speedTimerStage, gravityTimerStage, horizontalStage, autoRun, stopWhenFinished,
    gravityStage, integrateStage, floorCeilingStage, landOnFloor, bumpCeiling, landOnCeiling,
    bumpFloor, platformStage, jumpPadStage, speedPadStage, speedPadStep, gravityPadStage,
    gravityPadStep, flipGravity, snapToSurface, flipParticles, finishLevel, State.init,
    gravityBase, jumpVelBase, defaultFloorY, ceilingYTop, baseRunSpeedDefault,
    gravityFlipCooldown, RectsIntersect, finishStage, spikeStage, spikeLoop, CollideSpike,
    spikeBaseDanger, spikeTipBox, autoJumpStage, cameraStage, deathShakeStage,
    endOfFrameStage, particleStage, spawn]
  norm_num

theorem finishLevel_second_frame :
    (frame Extern.stub finishLevel (jumpTap (1 / 10))
      (frame Extern.stub finishLevel (tick (1 / 10)) State.init)).levelFinished = true ∧
    (frame Extern.stub finishLevel (jumpTap (1 / 10))
      (frame Extern.stub finishLevel (tick (1 / 10)) State.init)).player =
      ⟨142, 471, 36, 36⟩ := by
  simp [frame_eq_stages, tick, jumpTap, clockStage, restartStage, restartFires, jumpInputStage,
    doJump, speedTimerStage, gravityTimerStage, horizontalStage, autoRun, stopWhenFinished,
    gravityStage, integrateStage, floorCeilingStage, landOnFloor, bumpCeiling, landOnCeiling,
    bumpFloor, platformStage, jumpPadStage, speedPadStage, speedPadStep, gravityPadStage,
    gravityPadStep, flipGravity, snapToSurface, flipParticles, finishLevel, State.init,
    gravityBase, jumpVelBase, defaultFloorY, ceilingYTop, baseRunSpeedDefault,
    gravityFlipCooldown, RectsIntersect, finishStage, spikeStage, spikeLoop, CollideSpike,
    spikeBaseDanger, spikeTipBox, autoJumpStage, cameraStage, deathShakeStage,
    endOfFrameStage, particleStage, spawn]
  norm_num

/-- C15 (the code differs): on `finishLevel` the first frame (0.1 s) lands the player in
the finish line: `levelFinished` is set and the velocity zeroed, at y = 524. In the next
frame (0.1 s, no restart) the jump key is pressed; the jump input tests only `alive`, the
finished player jumps and ends the frame at y = 471. -/
theorem finished_player_jumps :
    Reachable Extern.stub finishLevel
      (frame Extern.stub finishLevel (tick (1 / 10)) State.init) ∧
    (frame Extern.stub finishLevel (tick (1 / 10)) State.init).levelFinished = true ∧
    (frame Extern.stub finishLevel (tick (1 / 10)) State.init).player.y = 524 ∧
    restartFires (jumpTap (1 / 10))
      (frame Extern.stub finishLevel (tick (1 / 10)) State.init) = false ∧
    (frame Extern.stub finishLevel (jumpTap (1 / 10))
      (frame Extern.stub finishLevel (tick (1 / 10)) State.init)).player.y = 471 := by
  obtain ⟨h1, -, h3⟩ := finishLevel_first_frame
  obtain ⟨-, h5⟩ := finishLevel_second_frame
  refine ⟨Reachable.step _ _ Reachable.init (by norm_num [tick]), h1, ?_, ?_, ?_⟩
  · rw [h3]
  · simp [restartFires, jumpTap]
  · rw [h5]

/-- C16 (the code differs): on `finishSpikeLevel` the first frame (0.2 s) lands the player
both in the finish line and on the spike: the finish test sets `levelFinished`, then the
spike loop, which does not test `levelFinished`, clears `alive`; the reachable state at
the end of the frame is Dead and Finished at once. -/
theorem dead_and_finished_reachable :
    Reachable Extern.stub finishSpikeLevel
      (frame Extern.stub finishSpikeLevel (tick (1 / 5)) State.init) ∧
    (frame Extern.stub finishSpikeLevel (tick (1 / 5)) State.init).alive = false ∧
    (frame Extern.stub finishSpikeLevel (tick (1 / 5)) State.init).levelFinished = true := by
  refine ⟨Reachable.step _ _ Reachable.init (by norm_num [tick]), ?_⟩
  simp [frame_eq_stages, tick, jumpTap, clockStage, restartStage, restartFires, jumpInputStage,
    doJump, speedTimerStage, gravityTimerStage, horizontalStage, autoRun, stopWhenFinished,
    gravityStage, integrateStage, floorCeilingStage, landOnFloor, bumpCeiling, landOnCeiling,
    bumpFloor, platformStage, jumpPadStage, speedPadStage, speedPadStep, gravityPadStage,
    gravityPadStep, flipGravity, snapToSurface, flipParticles, finishSpikeLevel, spikeLevel, State.init,
    gravityBase, jumpVelBase, defaultFloorY, ceilingYTop, baseRunSpeedDefault,
    gravityFlipCooldown, RectsIntersect, finishStage, spikeStage, spikeLoop, CollideSpike,
    spikeBaseDanger, spikeTipBox, autoJumpStage, cameraStage, deathShakeStage,
    endOfFrameStage, particleStage, spawn]
  norm_num


/-! ## The particle pool and the random draws do not feed back into gameplay (claim C20) -/

theorem gameplay_congr_of_pool (f f' : State → State)
    (hW : ∀ (g : State) (ps : List Particle) (n : Nat) (ps' : List Particle) (n' : Nat),
      (f { g with particles := ps, rngCalls := n }).gameplay =
        (f' { g with particles := ps', rngCalls := n' }).gameplay)
    (s t : State) (h : s.gameplay = t.gameplay) : (f s).gameplay = (f' t).gameplay := by
  have es : s = { t.gameplay with particles := s.particles, rngCalls := s.rngCalls } := by
    rw [← h]
    rfl
  exact (congrArg (fun x => (f x).gameplay) es).trans
    (hW t.gameplay s.particles s.rngCalls t.particles t.rngCalls)

theorem foldl_gameplay {α : Type} (f f' : State → α → State)
    (hstep : ∀ s t a, s.gameplay = t.gameplay → (f s a).gameplay = (f' t a).gameplay)
    (xs : List α) (s t : State) (h : s.gameplay = t.gameplay) :
    (xs.foldl f s).gameplay = (xs.foldl f' t).gameplay := by
  induction xs generalizing s t with
  | nil => exact h
  | cons a rest ih => exact ih _ _ (hstep s t a h)

theorem clockStage_gameplay (dt : ℚ) (s t : State) (h : s.gameplay = t.gameplay) :
    (clockStage dt s).gameplay = (clockStage dt t).gameplay :=
  gameplay_congr_of_pool _ _
    (by
      intro g ps n ps' n'
      rfl) s t h

theorem restartStage_gameplay (i : Input) (s t : State) (h : s.gameplay = t.gameplay) :
    (restartStage i s).gameplay = (restartStage i t).gameplay :=
  gameplay_congr_of_pool _ _
    (by
      intro g ps n ps' n'
      simp only [restartStage, restartFires]
      split_ifs <;> rfl) s t h

theorem speedTimerStage_gameplay (dt : ℚ) (s t : State) (h : s.gameplay = t.gameplay) :
    (speedTimerStage dt s).gameplay = (speedTimerStage dt t).gameplay :=
  gameplay_congr_of_pool _ _
    (by
      intro g ps n ps' n'
      simp only [speedTimerStage]
      split_ifs <;> rfl) s t h

theorem gravityTimerStage_gameplay (dt : ℚ) (s t : State) (h : s.gameplay = t.gameplay) :
    (gravityTimerStage dt s).gameplay = (gravityTimerStage dt t).gameplay :=
  gameplay_congr_of_pool _ _
    (by
      intro g ps n ps' n'
      simp only [gravityTimerStage]
      split_ifs <;> rfl) s t h

theorem horizontalStage_gameplay (s t : State) (h : s.gameplay = t.gameplay) :
    (horizontalStage s).gameplay = (horizontalStage t).gameplay :=
  gameplay_congr_of_pool _ _
    (by
      intro g ps n ps' n'
      simp only [horizontalStage, stopWhenFinished, autoRun]
      split_ifs <;> rfl) s t h

theorem gravityStage_gameplay (dt : ℚ) (s t : State) (h : s.gameplay = t.gameplay) :
    (gravityStage dt s).gameplay = (gravityStage dt t).gameplay :=
  gameplay_congr_of_pool _ _
    (by
      intro g ps n ps' n'
      rfl) s t h

theorem integrateStage_gameplay (dt : ℚ) (s t : State) (h : s.gameplay = t.gameplay) :
    (integrateStage dt s).gameplay = (integrateStage dt t).gameplay :=
  gameplay_congr_of_pool _ _
    (by
      intro g ps n ps' n'
      simp only [integrateStage]
      split_ifs <;> rfl) s t h

theorem floorCeilingStage_gameplay (s t : State) (h : s.gameplay = t.gameplay) :
    (floorCeilingStage s).gameplay = (floorCeilingStage t).gameplay :=
  gameplay_congr_of_pool _ _
    (by
      intro g ps n ps' n'
      simp only [floorCeilingStage, bumpCeiling, landOnFloor, bumpFloor, landOnCeiling]
      split_ifs <;> rfl) s t h

theorem cameraStage_gameplay (s t : State) (h : s.gameplay = t.gameplay) :
    (cameraStage s).gameplay = (cameraStage t).gameplay :=
  gameplay_congr_of_pool _ _
    (by
      intro g ps n ps' n'
      rfl) s t h

theorem particleStage_gameplay (dt : ℚ) (s t : State) (h : s.gameplay = t.gameplay) :
    (particleStage dt s).gameplay = (particleStage dt t).gameplay :=
  gameplay_congr_of_pool _ _
    (by
      intro g ps n ps' n'
      rfl) s t h

theorem deathShakeStage_gameplay (dt : ℚ) (s t : State) (h : s.gameplay = t.gameplay) :
    (deathShakeStage dt s).gameplay = (deathShakeStage dt t).gameplay :=
  gameplay_congr_of_pool _ _
    (by
      intro g ps n ps' n'
      simp only [deathShakeStage]
      split_ifs <;> rfl) s t h

theorem endOfFrameStage_gameplay (s t : State) (h : s.gameplay = t.gameplay) :
    (endOfFrameStage s).gameplay = (endOfFrameStage t).gameplay :=
  gameplay_congr_of_pool _ _
    (by
      intro g ps n ps' n'
      rfl) s t h

theorem jumpInputStage_gameplay (X : Extern) (r : Nat → Int → Int → Int) (F : Color → ℚ → Color)
    (i : Input) (s t : State) (h : s.gameplay = t.gameplay) :
    (jumpInputStage X i s).gameplay = (jumpInputStage { X with rand := r, Fade := F } i t).gameplay :=
  gameplay_congr_of_pool _ _
    (by
      intro g ps n ps' n'
      simp only [jumpInputStage, doJump, spawn]
      split_ifs <;> rfl) s t h

theorem autoJumpStage_gameplay (X : Extern) (r : Nat → Int → Int → Int) (F : Color → ℚ → Color)
    (s t : State) (h : s.gameplay = t.gameplay) :
    (autoJumpStage X s).gameplay = (autoJumpStage { X with rand := r, Fade := F } t).gameplay :=
  gameplay_congr_of_pool _ _
    (by
      intro g ps n ps' n'
      simp only [autoJumpStage, doJump, spawn]
      split_ifs <;> rfl) s t h

theorem finishStage_gameplay (X : Extern) (r : Nat → Int → Int → Int) (F : Color → ℚ → Color)
    (L : Level) (s t : State) (h : s.gameplay = t.gameplay) :
    (finishStage X L s).gameplay = (finishStage { X with rand := r, Fade := F } L t).gameplay :=
  gameplay_congr_of_pool _ _
    (by
      intro g ps n ps' n'
      simp only [finishStage, spawn]
      split_ifs <;> rfl) s t h

theorem resolveContact_gameplay (X : Extern) (r : Nat → Int → Int → Int) (F : Color → ℚ → Color)
    (dt tt : ℚ) (p : MovingPlatform) (pr : Rectangle) (s t : State) (h : s.gameplay = t.gameplay) :
    (resolveContact X dt tt p pr s).gameplay = (resolveContact { X with rand := r, Fade := F } dt tt p pr t).gameplay :=
  gameplay_congr_of_pool _ _
    (by
      intro g ps n ps' n'
      simp only [resolveContact, carry, prevPlayer]
      split_ifs <;> rfl) s t h

theorem jumpPadStep_gameplay (X : Extern) (r : Nat → Int → Int → Int) (F : Color → ℚ → Color)
    (s t : State) (jp : JumpPad) (h : s.gameplay = t.gameplay) :
    (jumpPadStep X s jp).gameplay = (jumpPadStep { X with rand := r, Fade := F } t jp).gameplay :=
  gameplay_congr_of_pool (fun x => jumpPadStep X x jp) (fun x => jumpPadStep { X with rand := r, Fade := F } x jp)
    (by
      intro g ps n ps' n'
      simp only [jumpPadStep, spawn]
      split_ifs <;> rfl) s t h

theorem speedPadStep_gameplay (X : Extern) (r : Nat → Int → Int → Int) (F : Color → ℚ → Color)
    (s t : State) (sp : SpeedPad) (h : s.gameplay = t.gameplay) :
    (speedPadStep X s sp).gameplay = (speedPadStep { X with rand := r, Fade := F } t sp).gameplay :=
  gameplay_congr_of_pool (fun x => speedPadStep X x sp) (fun x => speedPadStep { X with rand := r, Fade := F } x sp)
    (by
      intro g ps n ps' n'
      simp only [speedPadStep, spawn]
      split_ifs <;> rfl) s t h

theorem gravityPadStep_gameplay (X : Extern) (r : Nat → Int → Int → Int) (F : Color → ℚ → Color)
    (s t : State) (gp : GravityPad) (h : s.gameplay = t.gameplay) :
    (gravityPadStep X s gp).gameplay = (gravityPadStep { X with rand := r, Fade := F } t gp).gameplay :=
  gameplay_congr_of_pool (fun x => gravityPadStep X x gp) (fun x => gravityPadStep { X with rand := r, Fade := F } x gp)
    (by
      intro g ps n ps' n'
      simp only [gravityPadStep, flipParticles, snapToSurface, flipGravity, spawn]
      split_ifs <;> rfl) s t h

theorem resolvePlatform_gameplay (X : Extern) (r : Nat → Int → Int → Int) (F : Color → ℚ → Color)
    (dt tt : ℚ) (s t : State) (p : MovingPlatform) (h : s.gameplay = t.gameplay) :
    (resolvePlatform X dt tt s p).gameplay =
      (resolvePlatform { X with rand := r, Fade := F } dt tt t p).gameplay :=
  gameplay_congr_of_pool (fun x => resolvePlatform X dt tt x p)
    (fun x => resolvePlatform { X with rand := r, Fade := F } dt tt x p)
    (by
      intro g ps n ps' n'
      have hrect : p.GetRect { X with rand := r, Fade := F } tt = p.GetRect X tt := rfl
      simp only [resolvePlatform, culled, hrect]
      split_ifs
      · rfl
      · exact resolveContact_gameplay X r F dt tt p _ _ _ rfl
      · rfl) s t h

theorem platformStage_gameplay (X : Extern) (r : Nat → Int → Int → Int) (F : Color → ℚ → Color)
    (L : Level) (dt : ℚ) (s t : State) (h : s.gameplay = t.gameplay) :
    (platformStage X L dt s).gameplay = (platformStage { X with rand := r, Fade := F } L dt t).gameplay := by
  have ht : tPhase { X with rand := r, Fade := F } t = tPhase X s := by
    have hs : s.songTime = t.songTime := by
      have h1 := congrArg State.songTime h
      exact h1
    unfold tPhase BeatPulse
    rw [hs]
  unfold platformStage
  rw [ht]
  exact foldl_gameplay _ _
    (fun a b p hab => resolvePlatform_gameplay X r F dt (tPhase X s) a b p hab) _ s t h

theorem jumpPadStage_gameplay (X : Extern) (r : Nat → Int → Int → Int) (F : Color → ℚ → Color)
    (L : Level) (s t : State) (h : s.gameplay = t.gameplay) :
    (jumpPadStage X L s).gameplay = (jumpPadStage { X with rand := r, Fade := F } L t).gameplay :=
  foldl_gameplay _ _ (fun a b p hab => jumpPadStep_gameplay X r F a b p hab) _ s t h

theorem speedPadStage_gameplay (X : Extern) (r : Nat → Int → Int → Int) (F : Color → ℚ → Color)
    (L : Level) (s t : State) (h : s.gameplay = t.gameplay) :
    (speedPadStage X L s).gameplay = (speedPadStage { X with rand := r, Fade := F } L t).gameplay :=
  foldl_gameplay _ _ (fun a b p hab => speedPadStep_gameplay X r F a b p hab) _ s t h

theorem gravityPadStage_gameplay (X : Extern) (r : Nat → Int → Int → Int) (F : Color → ℚ → Color)
    (L : Level) (s t : State) (h : s.gameplay = t.gameplay) :
    (gravityPadStage X L s).gameplay = (gravityPadStage { X with rand := r, Fade := F } L t).gameplay :=
  foldl_gameplay _ _ (fun a b p hab => gravityPadStep_gameplay X r F a b p hab) _ s t h

theorem spikeLoop_pool (spikes : List Spike) (g : State) (ps : List Particle) (n : Nat)
    (ps' : List Particle) (n' : Nat) :
    (spikeLoop { g with particles := ps, rngCalls := n } spikes).gameplay =
      (spikeLoop { g with particles := ps', rngCalls := n' } spikes).gameplay := by
  induction spikes with
  | nil => rfl
  | cons sp rest ih =>
    simp only [spikeLoop]
    split_ifs
    · rfl
    · exact ih
    · exact ih

theorem spikeStage_gameplay (L : Level) (s t : State) (h : s.gameplay = t.gameplay) :
    (spikeStage L s).gameplay = (spikeStage L t).gameplay :=
  gameplay_congr_of_pool (fun x => spikeLoop x L.spikes) (fun x => spikeLoop x L.spikes)
    (spikeLoop_pool L.spikes) s t h

theorem frame_gameplay (X : Extern) (r : Nat → Int → Int → Int) (F : Color → ℚ → Color)
    (L : Level) (i : Input) (s t : State) (h : s.gameplay = t.gameplay) :
    (frame X L i s).gameplay = (frame { X with rand := r, Fade := F } L i t).gameplay := by
  rw [frame_eq_stages, frame_eq_stages]
  exact endOfFrameStage_gameplay _ _ (deathShakeStage_gameplay _ _ _
    (particleStage_gameplay _ _ _ (cameraStage_gameplay _ _
      (autoJumpStage_gameplay X r F _ _ (spikeStage_gameplay L _ _
        (finishStage_gameplay X r F L _ _ (gravityPadStage_gameplay X r F L _ _
          (speedPadStage_gameplay X r F L _ _ (jumpPadStage_gameplay X r F L _ _
            (platformStage_gameplay X r F L _ _ _ (floorCeilingStage_gameplay _ _
              (integrateStage_gameplay _ _ _ (gravityStage_gameplay _ _ _
                (horizontalStage_gameplay _ _ (gravityTimerStage_gameplay _ _ _
                  (speedTimerStage_gameplay _ _ _ (jumpInputStage_gameplay X r F i _ _
                    (restartStage_gameplay i _ _
                      (clockStage_gameplay i.dt s t h)))))))))))))))))))

/-- C20: the gameplay variables after a frame (player rectangle, velocity, `grounded`,
`prevGrounded`, `alive`, `levelFinished`, `gravityDir`, `gravityFlipTimer`, speed timer and
multiplier, `runSpeed`, `deathShake`, `camX`, `songTime`, and also `holdJumpActive` and
`baseRunSpeed`) do not depend on the values `GetRandomValue` returns nor on the particle
pool the frame starts with: replacing the random draws by any others and the pool by any
other gives the same gameplay variables, for the same previous gameplay variables, input,
`dt` and level. -/
theorem gameplay_independent_of_particles (X : Extern) (L : Level) (i : Input) (s : State)
    (r : Nat → Int → Int → Int) (ps : List Particle) (n : Nat) :
    (frame { X with rand := r } L i { s with particles := ps, rngCalls := n }).gameplay =
      (frame X L i s).gameplay ∧
    (frame { X with rand := r } L i { s with particles := ps, rngCalls := n }).player =
      (frame X L i s).player ∧
    (frame { X with rand := r } L i { s with particles := ps, rngCalls := n }).playerVel =
      (frame X L i s).playerVel ∧
    (frame { X with rand := r } L i { s with particles := ps, rngCalls := n }).grounded =
      (frame X L i s).grounded ∧
    (frame { X with rand := r } L i { s with particles := ps, rngCalls := n }).prevGrounded =
      (frame X L i s).prevGrounded ∧
    (frame { X with rand := r } L i { s with particles := ps, rngCalls := n }).alive =
      (frame X L i s).alive ∧
    (frame { X with rand := r } L i { s with particles := ps, rngCalls := n }).levelFinished =
      (frame X L i s).levelFinished ∧
    (frame { X with rand := r } L i { s with particles := ps, rngCalls := n }).gravityDir =
      (frame X L i s).gravityDir ∧
    (frame { X with rand := r } L i { s with particles := ps, rngCalls := n }).gravityFlipTimer =
      (frame X L i s).gravityFlipTimer ∧
    (frame { X with rand := r } L i { s with particles := ps, rngCalls := n }).speedTimer =
      (frame X L i s).speedTimer ∧
    (frame { X with rand := r } L i { s with particles := ps, rngCalls := n }).speedMultiplierActive =
      (frame X L i s).speedMultiplierActive ∧
    (frame { X with rand := r } L i { s with particles := ps, rngCalls := n }).runSpeed =
      (frame X L i s).runSpeed ∧
    (frame { X with rand := r } L i { s with particles := ps, rngCalls := n }).deathShake =
      (frame X L i s).deathShake ∧
    (frame { X with rand := r } L i { s with particles := ps, rngCalls := n }).camX =
      (frame X L i s).camX ∧
    (frame { X with rand := r } L i { s with particles := ps, rngCalls := n }).songTime =
      (frame X L i s).songTime ∧
    (frame { X with rand := r } L i { s with particles := ps, rngCalls := n }).holdJumpActive =
      (frame X L i s).holdJumpActive ∧
    (frame { X with rand := r } L i { s with particles := ps, rngCalls := n }).baseRunSpeed =
      (frame X L i s).baseRunSpeed := by
  have hg : (frame { X with rand := r } L i { s with particles := ps, rngCalls := n }).gameplay =
      (frame X L i s).gameplay :=
    (frame_gameplay X r X.Fade L i s { s with particles := ps, rngCalls := n } rfl).symm
  refine ⟨hg, ?_, ?_, ?_, ?_, ?_, ?_, ?_, ?_, ?_, ?_, ?_, ?_, ?_, ?_, ?_, ?_⟩
  · have h1 := congrArg State.player hg
    exact h1
  · have h1 := congrArg State.playerVel hg
    exact h1
  · have h1 := congrArg State.grounded hg
    exact h1
  · have h1 := congrArg State.prevGrounded hg
    exact h1
  · have h1 := congrArg State.alive hg
    exact h1
  · have h1 := congrArg State.levelFinished hg
    exact h1
  · have h1 := congrArg State.gravityDir hg
    exact h1
  · have h1 := congrArg State.gravityFlipTimer hg
    exact h1
  · have h1 := congrArg State.speedTimer hg
    exact h1
  · have h1 := congrArg State.speedMultiplierActive hg
    exact h1
  · have h1 := congrArg State.runSpeed hg
    exact h1
  · have h1 := congrArg State.deathShake hg
    exact h1
  · have h1 := congrArg State.camX hg
    exact h1
  · have h1 := congrArg State.songTime hg
    exact h1
  · have h1 := congrArg State.holdJumpActive hg
    exact h1
  · have h1 := congrArg State.baseRunSpeed hg
    exact h1


/-! ## Hazards: the broad-phase filter of the spike loop (C21) -/

theorem CollideSpike_in_window (player : Rectangle) (sp : Spike) (hw : 0 ≤ sp.base.width)
    (h : CollideSpike player sp = true) :
    player.x + player.width > sp.base.x - 20 ∧ player.x < sp.base.x + sp.base.width + 20 := by
  unfold CollideSpike at h
  rw [Bool.or_eq_true, RectsIntersect_iff, RectsIntersect_iff] at h
  rcases h with h | h
  · have hx : (spikeBaseDanger sp).x = sp.base.x := by
      unfold spikeBaseDanger
      split_ifs <;> rfl
    have hwd : (spikeBaseDanger sp).width = sp.base.width := by
      unfold spikeBaseDanger
      split_ifs <;> rfl
    rw [hx, hwd] at h
    constructor <;> linarith [h.1, h.2.1]
  · have hx : (spikeTipBox sp).x =
        sp.base.x + (sp.base.width - sp.base.width * (32 / 100)) * (1 / 2) := rfl
    have hwd : (spikeTipBox sp).width = sp.base.width * (32 / 100) := rfl
    rw [hx, hwd] at h
    constructor <;> linarith [h.1, h.2.1]

theorem spikeLoop_eq (s : State) (spikes : List Spike) (hw : ∀ sp ∈ spikes, 0 ≤ sp.base.width) :
    spikeLoop s spikes =
      if spikes.any (CollideSpike s.player) then { s with alive := false, deathShake := 8 }
      else s := by
  induction spikes with
  | nil => rfl
  | cons sp rest ih =>
    have ih1 := ih (fun q hq => hw q (List.mem_cons_of_mem _ hq))
    have hsp := hw sp (List.mem_cons_self _ _)
    unfold spikeLoop
    rw [List.any_cons]
    by_cases hc : CollideSpike s.player sp = true
    · have hwin := CollideSpike_in_window s.player sp hsp hc
      rw [if_pos (by simp [hwin.1, hwin.2]), if_pos hc, hc, Bool.true_or, if_pos rfl]
    · rw [Bool.not_eq_true] at hc
      rw [hc, Bool.false_or, if_neg Bool.false_ne_true, ite_self]
      exact ih1

/-- C21: the horizontal pre-filter of the spike loop never hides a collision. For every
player rectangle and every spike of non-negative width, `CollideSpike` implies
`player.x + player.width > spike.x - 20` and `player.x < spike.x + spike.width + 20`; so on
a level whose spikes have non-negative width the hazard stage sets `alive = false` (and
`deathShake = 8`) exactly when `CollideSpike` holds for at least one spike of the level,
and is the identity otherwise: no other condition enters. -/
theorem spike_filter_hides_no_collision (L : Level) (s : State)
    (hw : ∀ sp ∈ L.spikes, 0 ≤ sp.base.width) :
    (∀ sp ∈ L.spikes, CollideSpike s.player sp = true →
      s.player.x + s.player.width > sp.base.x - 20 ∧
        s.player.x < sp.base.x + sp.base.width + 20) ∧
    spikeStage L s =
      (if L.spikes.any (CollideSpike s.player) then { s with alive := false, deathShake := 8 }
      else s) ∧
    ((∃ sp ∈ L.spikes, CollideSpike s.player sp = true) → (spikeStage L s).alive = false) ∧
    ((¬ ∃ sp ∈ L.spikes, CollideSpike s.player sp = true) →
      (spikeStage L s).alive = s.alive) := by
  have heq := spikeLoop_eq s L.spikes hw
  refine ⟨fun sp hsp hc => CollideSpike_in_window s.player sp (hw sp hsp) hc, heq, ?_, ?_⟩
  · intro hex
    have hany : L.spikes.any (CollideSpike s.player) = true := List.any_eq_true.mpr hex
    unfold spikeStage
    rw [heq, if_pos hany]
  · intro hno
    have hany : ¬ L.spikes.any (CollideSpike s.player) = true :=
      fun h => hno (List.any_eq_true.mp h)
    unfold spikeStage
    rw [heq, if_neg hany]

theorem spike_filter_hides_no_collision_witness :
    (∀ sp ∈ spikeLevel.spikes, (0 : ℚ) ≤ sp.base.width) ∧
    spikeStage spikeLevel { State.init with player := ⟨170, 524, 36, 36⟩ } =
      (if spikeLevel.spikes.any (CollideSpike (⟨170, 524, 36, 36⟩ : Rectangle)) then
        { { State.init with player := ⟨170, 524, 36, 36⟩ } with alive := false, deathShake := 8 }
      else { State.init with player := ⟨170, 524, 36, 36⟩ }) :=
  ⟨by simp [spikeLevel],
    (spike_filter_hides_no_collision spikeLevel { State.init with player := ⟨170, 524, 36, 36⟩ }
      (by simp [spikeLevel])).2.1⟩

/-! ## Floor and ceiling (C22, C23) -/

/-- C22: the floor/ceiling stage under normal gravity, for a player of height `h` with
`ceilingYTop + h < defaultFloorY`. Afterwards `ceilingYTop ≤ player.y ≤ defaultFloorY - h`;
`grounded` is true exactly when the incoming bottom edge was at or below the floor line,
and then `player.y = defaultFloorY - h` and `playerVel.y = 0`; when the incoming
`player.y ≤ ceilingYTop` the position becomes `ceilingYTop`, `playerVel.y` is zeroed only
if it was negative, and `grounded` is false; otherwise position and velocity are
unchanged. -/
theorem floorCeiling_normal (s : State) (hg : s.gravityDir = 1)
    (hh : ceilingYTop + s.player.height < defaultFloorY) :
    (ceilingYTop ≤ (floorCeilingStage s).player.y ∧
      (floorCeilingStage s).player.y ≤ defaultFloorY - s.player.height) ∧
    ((floorCeilingStage s).grounded = true ↔ s.player.y + s.player.height ≥ defaultFloorY) ∧
    (s.player.y + s.player.height ≥ defaultFloorY →
      (floorCeilingStage s).player.y = defaultFloorY - s.player.height ∧
        (floorCeilingStage s).playerVel.y = 0) ∧
    (s.player.y ≤ ceilingYTop →
      (floorCeilingStage s).player.y = ceilingYTop ∧
        (floorCeilingStage s).playerVel.y = (if s.playerVel.y < 0 then 0 else s.playerVel.y) ∧
        (floorCeilingStage s).grounded = false) ∧
    (¬ s.player.y + s.player.height ≥ defaultFloorY → ¬ s.player.y ≤ ceilingYTop →
      (floorCeilingStage s).player = s.player ∧
        (floorCeilingStage s).playerVel = s.playerVel) := by
  have hpos : s.gravityDir > 0 := by rw [hg]; exact Int.one_pos
  unfold floorCeilingStage
  rw [if_pos hpos]
  by_cases hf : s.player.y + s.player.height ≥ defaultFloorY
  · have h1 : landOnFloor { s with grounded := false } =
        { s with
          player := { s.player with y := defaultFloorY - s.player.height }
          playerVel := { s.playerVel with y := 0 }
          grounded := true } := by
      unfold landOnFloor
      rw [if_pos hf]
    have hnc : ¬ defaultFloorY - s.player.height ≤ ceilingYTop := by
      rw [not_le]
      linarith
    have h2 : bumpCeiling (landOnFloor { s with grounded := false }) =
        landOnFloor { s with grounded := false } := by
      rw [h1]
      unfold bumpCeiling
      rw [if_neg hnc]
    rw [h2, h1]
    refine ⟨⟨?_, le_refl _⟩, ⟨fun _ => hf, fun _ => rfl⟩, fun _ => ⟨rfl, rfl⟩, ?_, ?_⟩
    · show ceilingYTop ≤ defaultFloorY - s.player.height
      linarith
    · intro hc
      exfalso
      linarith
    · intro hnf
      exact absurd hf hnf
  · have h1 : landOnFloor { s with grounded := false } = { s with grounded := false } := by
      unfold landOnFloor
      rw [if_neg hf]
    rw [h1]
    by_cases hc : s.player.y ≤ ceilingYTop
    · by_cases hv : s.playerVel.y < 0
      · have h2 : bumpCeiling { s with grounded := false } =
            { s with
              grounded := false
              player := { s.player with y := ceilingYTop }
              playerVel := { s.playerVel with y := 0 } } := by
          unfold bumpCeiling
          rw [if_pos hc, if_pos hv]
        rw [h2]
        refine ⟨⟨le_refl _, ?_⟩, ⟨fun h => ?_, fun h => absurd h hf⟩, fun h => absurd h hf,
          fun _ => ⟨rfl, ?_, rfl⟩, fun _ h => absurd hc h⟩
        · show ceilingYTop ≤ defaultFloorY - s.player.height
          linarith
        · exact (Bool.false_ne_true h).elim
        · rw [if_pos hv]
      · have h2 : bumpCeiling { s with grounded := false } =
            { s with
              grounded := false
              player := { s.player with y := ceilingYTop } } := by
          unfold bumpCeiling
          rw [if_pos hc, if_neg hv]
        rw [h2]
        refine ⟨⟨le_refl _, ?_⟩, ⟨fun h => ?_, fun h => absurd h hf⟩, fun h => absurd h hf,
          fun _ => ⟨rfl, ?_, rfl⟩, fun _ h => absurd hc h⟩
        · show ceilingYTop ≤ defaultFloorY - s.player.height
          linarith
        · exact (Bool.false_ne_true h).elim
        · rw [if_neg hv]
    · have h2 : bumpCeiling { s with grounded := false } = { s with grounded := false } := by
        unfold bumpCeiling
        rw [if_neg hc]
      rw [h2]
      refine ⟨⟨?_, ?_⟩, ⟨fun h => ?_, fun h => absurd h hf⟩, fun h => absurd h hf,
        fun h => absurd h hc, fun _ _ => ⟨rfl, rfl⟩⟩
      · show ceilingYTop ≤ s.player.y
        exact le_of_lt (not_le.mp hc)
      · show s.player.y ≤ defaultFloorY - s.player.height
        have := not_le.mp hf
        linarith
      · exact (Bool.false_ne_true h).elim

theorem floorCeiling_normal_witness :
    (State.init.gravityDir = 1 ∧ ceilingYTop + State.init.player.height < defaultFloorY) ∧
    (ceilingYTop ≤ (floorCeilingStage State.init).player.y ∧
      (floorCeilingStage State.init).player.y ≤ defaultFloorY - State.init.player.height) :=
  ⟨⟨rfl, by norm_num [ceilingYTop, defaultFloorY, State.init]⟩,
    (floorCeiling_normal State.init rfl
      (by norm_num [ceilingYTop, defaultFloorY, State.init])).1⟩

/-- C23: under inverted gravity the floor/ceiling stage is the mirror image of the stage
under normal gravity. With the reflection `reflect` (`y ↦ defaultFloorY + ceilingYTop - h - y`,
`vy ↦ -vy`), the stage run with `gravityDir = -1` on the reflected state gives the
reflection of the result of the stage run with `gravityDir = +1`, with the same `grounded`
flag and every other variable equal, for every `y`, `vy` and player height. -/
theorem floorCeiling_mirror (s : State) (hg : s.gravityDir = 1) :
    floorCeilingStage { reflect s with gravityDir := -1 } =
      { reflect (floorCeilingStage s) with gravityDir := -1 } := by
  have hpos : s.gravityDir > 0 := by rw [hg]; exact Int.one_pos
  have hneg : ¬ ((-1 : Int) > 0) := by decide
  have e1 : defaultFloorY + ceilingYTop - s.player.height - ceilingYTop =
      defaultFloorY - s.player.height := by ring
  have e2 : defaultFloorY + ceilingYTop - s.player.height - (defaultFloorY - s.player.height) =
      ceilingYTop := by ring
  unfold floorCeilingStage
  rw [if_pos hpos]
  simp only [reflect]
  rw [if_neg hneg]
  by_cases hf : s.player.y + s.player.height ≥ defaultFloorY
  · have hrc : defaultFloorY + ceilingYTop - s.player.height - s.player.y ≤ ceilingYTop := by
      linarith
    by_cases hc2 : defaultFloorY - s.player.height ≤ ceilingYTop
    · have hc3 : ceilingYTop + s.player.height ≥ defaultFloorY := by linarith
      unfold landOnFloor landOnCeiling
      rw [if_pos hf, if_pos hrc]
      unfold bumpCeiling bumpFloor
      rw [if_pos hc2, if_pos hc3, if_neg (lt_irrefl _), if_neg (lt_irrefl _)]
      dsimp only
      rw [e1, neg_zero]
    · have hc3 : ¬ ceilingYTop + s.player.height ≥ defaultFloorY := by
        intro h
        exact hc2 (by linarith)
      unfold landOnFloor landOnCeiling
      rw [if_pos hf, if_pos hrc]
      unfold bumpCeiling bumpFloor
      rw [if_neg hc2, if_neg hc3]
      dsimp only
      rw [e2, neg_zero]
  · have hrc : ¬ defaultFloorY + ceilingYTop - s.player.height - s.player.y ≤ ceilingYTop := by
      intro h
      exact hf (by linarith)
    unfold landOnFloor landOnCeiling
    rw [if_neg hf, if_neg hrc]
    unfold bumpCeiling bumpFloor
    by_cases hc : s.player.y ≤ ceilingYTop
    · have hrf : defaultFloorY + ceilingYTop - s.player.height - s.player.y + s.player.height ≥
          defaultFloorY := by linarith
      rw [if_pos hc, if_pos hrf]
      by_cases hv : s.playerVel.y < 0
      · have hrv : -s.playerVel.y > 0 := by linarith
        rw [if_pos hv, if_pos hrv]
        dsimp only
        rw [e1, neg_zero]
      · have hrv : ¬ -s.playerVel.y > 0 := by
          intro h
          exact hv (by linarith)
        rw [if_neg hv, if_neg hrv]
        dsimp only
        rw [e1]
    · have hrf : ¬ defaultFloorY + ceilingYTop - s.player.height - s.player.y + s.player.height ≥
          defaultFloorY := by
        intro h
        exact hc (by linarith)
      rw [if_neg hc, if_neg hrf]


theorem floorCeiling_mirror_witness :
    State.init.gravityDir = 1 ∧
    floorCeilingStage { reflect State.init with gravityDir := -1 } =
      { reflect (floorCeilingStage State.init) with gravityDir := -1 } :=
  ⟨rfl, floorCeiling_mirror State.init rfl⟩

/-! ## Platforms: separation after a resolution branch (C29) -/

theorem resolvePlatform_of_contact (X : Extern) (dt t : ℚ) (s : State) (p : MovingPlatform)
    (hc : culled (p.GetRect X t) s = false)
    (hi : RectsIntersect s.player (p.GetRect X t) = true) :
    resolvePlatform X dt t s p = resolveContact X dt t p (p.GetRect X t) s := by
  unfold resolvePlatform
  rw [hc, if_neg Bool.false_ne_true, if_pos hi]

theorem hopPlatform_rect (X : Extern) (t : ℚ) :
    hopPlatform.GetRect X t = ⟨1780, 488, 140, 20⟩ := by
  simp [MovingPlatform.GetRect, hopPlatform]

theorem grazing_in_window (X : Extern) (t : ℚ) :
    culled (hopPlatform.GetRect X t) grazingState = false := by
  rw [hopPlatform_rect]
  simp [culled, grazingState, State.init]
  norm_num

theorem grazing_intersects (X : Extern) (t : ℚ) :
    RectsIntersect grazingState.player (hopPlatform.GetRect X t) = true := by
  rw [hopPlatform_rect, RectsIntersect_iff]
  simp [grazingState, State.init]
  norm_num

theorem grazing_fromBottom (X : Extern) (t : ℚ) :
    fromBottom (prevPlayer (1 / 60) grazingState) (hopPlatform.GetRect X t) = true := by
  rw [hopPlatform_rect]
  simp [fromBottom, prevPlayer, grazingState, State.init]
  norm_num

theorem grazing_not_fromTop (X : Extern) (t : ℚ) :
    fromTop (prevPlayer (1 / 60) grazingState) (hopPlatform.GetRect X t) = false := by
  rw [hopPlatform_rect]
  simp [fromTop, prevPlayer, grazingState, State.init]
  norm_num

theorem carry_player_x (X : Extern) (dt t : ℚ) (p : MovingPlatform) (s : State) :
    (carry X dt t p s).player.x =
      if p.vertical then s.player.x
      else s.player.x + 8 / 100 * dt * platformVelocity X p t := by
  unfold carry platformVelocity
  cases hv : p.vertical
  · rw [if_pos (by simp), if_neg Bool.false_ne_true]
    show s.player.x + _ = _
    ring
  · rw [if_neg (by simp), if_pos rfl]

theorem legacyCarry_player_x (X : Extern) (dt t : ℚ) (p : MovingPlatform) (s : State) :
    (legacyCarry X dt t p s).player.x =
      if p.vertical then s.player.x
      else s.player.x +
        8 / 100 * dt * (p.amplitude * p.speed * X.cosf (p.phase + t * p.speed * 2 * X.PI)) := by
  unfold legacyCarry
  cases hv : p.vertical
  · rw [if_pos (by simp), if_neg Bool.false_ne_true]
    show s.player.x + _ = _
    ring
  · rw [if_neg (by simp), if_pos rfl]

/-- C24: the carry added when landing on a platform, in the two copies of the main loop.
In the current loop the carry is `0.08 * dt * v` with
`v = amplitude * (2*pi*speed) * cos(phase + tPhase*speed*2*pi)` for a horizontally
oscillating platform and nothing for a vertical one. The older loop multiplies the cosine
by `amplitude * speed` only: on the platform `legacySwing` of its level, with `cosf = 1`
and `dt = 1/60`, it moves the player from x = 100 to 100 + 0.08 * (1/60) * 81, which is
not `100 + 0.08 * (1/60) * v`. -/
theorem legacy_carry_lacks_angular_factor :
    (∀ (X : Extern) (dt t : ℚ) (p : MovingPlatform) (s : State),
      (carry X dt t p s).player.x =
        if p.vertical then s.player.x
        else s.player.x + 8 / 100 * dt * platformVelocity X p t) ∧
    (∀ (X : Extern) (dt t : ℚ) (p : MovingPlatform) (s : State),
      (legacyCarry X dt t p s).player.x =
        if p.vertical then s.player.x
        else s.player.x +
          8 / 100 * dt *
            (p.amplitude * p.speed * X.cosf (p.phase + t * p.speed * 2 * X.PI))) ∧
    (legacyCarry Extern.stub (1 / 60) 0 legacySwing State.init).player.x =
      100 + 8 / 100 * (1 / 60) * 81 ∧
    platformVelocity Extern.stub legacySwing 0 = 81 * (710 / 113) ∧
    (legacyCarry Extern.stub (1 / 60) 0 legacySwing State.init).player.x ≠
      State.init.player.x + 8 / 100 * (1 / 60) * platformVelocity Extern.stub legacySwing 0 := by
  have hv : platformVelocity Extern.stub legacySwing 0 = 81 * (710 / 113) := by
    simp [platformVelocity, legacySwing, Extern.stub]
    norm_num
  have hx : (legacyCarry Extern.stub (1 / 60) 0 legacySwing State.init).player.x =
      100 + 8 / 100 * (1 / 60) * 81 := by
    rw [legacyCarry_player_x]
    simp [legacySwing, Extern.stub, State.init]
    norm_num
  refine ⟨carry_player_x, legacyCarry_player_x, hx, hv, ?_⟩
  rw [hx, hv]
  simp [State.init]
  norm_num

/-! ## Platforms: the bonk zeroes the vertical velocity whatever its sign (C25) -/

/-- Counterexample to C25 as stated: under normal gravity the player of `grazingState`
overlaps `hopPlatform` with contact `fromBottom` and not `fromTop` while moving down
(`playerVel.y = 5 ≥ 0`); the resolution snaps it under the platform and sets
`playerVel.y` to 0 instead of leaving it unchanged. -/
theorem bonk_zeroes_downward_velocity :
    grazingState.gravityDir = 1 ∧
    culled (hopPlatform.GetRect Extern.stub 0) grazingState = false ∧
    RectsIntersect grazingState.player (hopPlatform.GetRect Extern.stub 0) = true ∧
    fromBottom (prevPlayer (1 / 60) grazingState) (hopPlatform.GetRect Extern.stub 0) = true ∧
    fromTop (prevPlayer (1 / 60) grazingState) (hopPlatform.GetRect Extern.stub 0) = false ∧
    grazingState.playerVel.y = 5 ∧
    (resolvePlatform Extern.stub (1 / 60) 0 grazingState hopPlatform).player.y = 508 ∧
    (resolvePlatform Extern.stub (1 / 60) 0 grazingState hopPlatform).playerVel.y = 0 := by
  refine ⟨rfl, grazing_in_window _ _, grazing_intersects _ _, grazing_fromBottom _ _,
    grazing_not_fromTop _ _, rfl, ?_, ?_⟩
  · rw [resolvePlatform_of_contact _ _ _ _ _ (grazing_in_window _ _) (grazing_intersects _ _)]
    unfold resolveContact
    rw [if_pos (by decide), grazing_not_fromTop, if_neg Bool.false_ne_true,
      if_pos (grazing_fromBottom _ _), hopPlatform_rect]
    norm_num
  · rw [resolvePlatform_of_contact _ _ _ _ _ (grazing_in_window _ _) (grazing_intersects _ _)]
    unfold resolveContact
    rw [if_pos (by decide), grazing_not_fromTop, if_neg Bool.false_ne_true,
      if_pos (grazing_fromBottom _ _)]

/-- C25 (amended): under normal gravity, when the player overlaps a platform inside the
culling window and the contact is `fromBottom` and not `fromTop`, the player is snapped to
`player.y = pr.y + pr.height` and `playerVel.y` becomes 0 whatever its sign; `player.x`,
`playerVel.x` and `grounded` are not changed. -/
theorem bonk_under_normal_gravity (X : Extern) (dt t : ℚ) (s : State) (p : MovingPlatform)
    (hg : s.gravityDir > 0)
    (hc : culled (p.GetRect X t) s = false)
    (hi : RectsIntersect s.player (p.GetRect X t) = true)
    (ht : fromTop (prevPlayer dt s) (p.GetRect X t) = false)
    (hb : fromBottom (prevPlayer dt s) (p.GetRect X t) = true) :
    (resolvePlatform X dt t s p).player.y = (p.GetRect X t).y + (p.GetRect X t).height ∧
    (resolvePlatform X dt t s p).playerVel.y = 0 ∧
    (resolvePlatform X dt t s p).player.x = s.player.x ∧
    (resolvePlatform X dt t s p).playerVel.x = s.playerVel.x ∧
    (resolvePlatform X dt t s p).grounded = s.grounded := by
  rw [resolvePlatform_of_contact X dt t s p hc hi]
  unfold resolveContact
  rw [if_pos hg, ht, if_neg Bool.false_ne_true, if_pos hb]
  exact ⟨rfl, rfl, rfl, rfl, rfl⟩

theorem bonk_under_normal_gravity_witness :
    grazingState.gravityDir > 0 ∧
    (resolvePlatform Extern.stub (1 / 60) 0 grazingState hopPlatform).playerVel.y = 0 :=
  ⟨by decide,
    (bonk_under_normal_gravity Extern.stub (1 / 60) 0 grazingState hopPlatform (by decide)
      (grazing_in_window _ _) (grazing_intersects _ _) (grazing_not_fromTop _ _)
      (grazing_fromBottom _ _)).2.1⟩

/-! ## Platforms: at most one branch per platform (C26) -/

theorem frame_player (X : Extern) (L : Level) (i : Input) (s : State) :
    (frame X L i s).player = (afterGravityPads X L i s).player := by
  simp [frame, afterAutoJump, afterSpikes, afterFinish]

theorem afterSpikes_grounded (X : Extern) (L : Level) (i : Input) (s : State) :
    (afterSpikes X L i s).grounded = (afterGravityPads X L i s).grounded := by
  simp [afterSpikes, afterFinish]

theorem afterSpikes_prevGrounded (X : Extern) (L : Level) (i : Input) (s : State) :
    (afterSpikes X L i s).prevGrounded = (afterGravityPads X L i s).prevGrounded := by
  simp [afterSpikes, afterFinish]

theorem finishStage_playerVel_y (X : Extern) (L : Level) (s : State) (h : s.playerVel.y = 0) :
    (finishStage X L s).playerVel.y = 0 := by
  unfold finishStage
  split_ifs
  · rw [spawn_playerVel]
  · exact h

theorem afterSpikes_playerVel_y (X : Extern) (L : Level) (i : Input) (s : State)
    (h : (afterGravityPads X L i s).playerVel.y = 0) : (afterSpikes X L i s).playerVel.y = 0 := by
  unfold afterSpikes afterFinish
  rw [spikeStage_playerVel]
  exact finishStage_playerVel_y X L _ h

theorem frame_of_no_autoJump (X : Extern) (L : Level) (i : Input) (s : State)
    (h : autoJumpFires (afterSpikes X L i s) = false) :
    (frame X L i s).playerVel = (afterSpikes X L i s).playerVel ∧
      (frame X L i s).grounded = (afterSpikes X L i s).grounded ∧
      (frame X L i s).prevGrounded = (afterSpikes X L i s).grounded := by
  have hj : afterAutoJump X L i s = afterSpikes X L i s := by
    unfold afterAutoJump
    rw [autoJumpStage_eq, h, if_neg Bool.false_ne_true]
  unfold frame
  rw [hj]
  refine ⟨?_, ?_, ?_⟩
  · simp
  · simp
  · show (deathShakeStage i.dt (particleStage i.dt (cameraStage (afterSpikes X L i s)))).grounded =
      (afterSpikes X L i s).grounded
    simp

theorem flipped_player (X : Extern) (s : State) (gp : GravityPad) :
    (flipParticles X gp (snapToSurface (flipGravity s))).player =
      { s.player with
        y := if -s.gravityDir < 0 then ceilingYTop + 1 / 2
          else defaultFloorY - s.player.height - 1 / 2 } := by
  unfold flipParticles
  rw [spawn_player]
  unfold snapToSurface
  by_cases hd : -s.gravityDir < 0
  · have hd2 : (flipGravity s).gravityDir < 0 := hd
    rw [if_pos hd, if_pos hd2]
    rfl
  · have hd2 : ¬ (flipGravity s).gravityDir < 0 := hd
    rw [if_neg hd, if_neg hd2]
    rfl

theorem flipped_flags (X : Extern) (s : State) (gp : GravityPad) :
    (flipParticles X gp (snapToSurface (flipGravity s))).playerVel.y = 0 ∧
      (flipParticles X gp (snapToSurface (flipGravity s))).grounded = true ∧
      (flipParticles X gp (snapToSurface (flipGravity s))).prevGrounded = true := by
  unfold flipParticles
  rw [spawn_playerVel, spawn_grounded, spawn_prevGrounded]
  unfold snapToSurface
  split_ifs <;> exact ⟨rfl, rfl, rfl⟩

/-- C27: the frame in which a gravity pad triggers (the gravity pad loop starts with the
cooldown expired and the player on a pad). With `a` the state the pad loop starts in:
`gravityDir` is negated, `gravityFlipTimer` is `gravityFlipCooldown` = 0.35, `player.x` is
the one of `a` both after the pad loop and at the end of the frame, `player.y` is
`ceilingYTop + 0.5` if the new direction is negative and `defaultFloorY - height - 0.5`
otherwise, and the frame ends with `playerVel.y = 0`, `grounded = true` and
`prevGrounded = true`; the auto-jump test of that frame fails, whatever the jump key and
the `prevGrounded` the frame started with. No assumption on `alive` or on the finish line
is needed. -/
theorem gravity_pad_frame (X : Extern) (L : Level) (i : Input) (s : State)
    (h : gravityPadReady L.gravityPads (afterSpeedPads X L i s) = true) :
    (frame X L i s).gravityDir = -(afterSpeedPads X L i s).gravityDir ∧
    ((frame X L i s).gravityFlipTimer = gravityFlipCooldown ∧ gravityFlipCooldown = 35 / 100) ∧
    ((afterGravityPads X L i s).player.x = (afterSpeedPads X L i s).player.x ∧
      (frame X L i s).player.x = (afterSpeedPads X L i s).player.x) ∧
    (frame X L i s).player.y =
      (if (frame X L i s).gravityDir < 0 then ceilingYTop + 1 / 2
      else defaultFloorY - (frame X L i s).player.height - 1 / 2) ∧
    (frame X L i s).playerVel.y = 0 ∧
    (frame X L i s).grounded = true ∧
    (frame X L i s).prevGrounded = true ∧
    autoJumpFires (afterSpikes X L i s) = false := by
  obtain ⟨gp, -, -, hfold⟩ := gravityPads_foldl_ready X L.gravityPads _ h
  have hag : afterGravityPads X L i s =
      flipParticles X gp (snapToSurface (flipGravity (afterSpeedPads X L i s))) := hfold
  have hflags := flipped_flags X (afterSpeedPads X L i s) gp
  rw [← hag] at hflags
  have hpl := flipped_player X (afterSpeedPads X L i s) gp
  rw [← hag] at hpl
  have hdir : (frame X L i s).gravityDir = -(afterSpeedPads X L i s).gravityDir := by
    rw [frame_gravityDir, hag, flipped_gravityDir]
  have hno : autoJumpFires (afterSpikes X L i s) = false := by
    unfold autoJumpFires
    rw [afterSpikes_prevGrounded, hflags.2.2]
    simp
  obtain ⟨hv, hgr, hpg⟩ := frame_of_no_autoJump X L i s hno
  refine ⟨hdir, ⟨?_, rfl⟩, ⟨?_, ?_⟩, ?_, ?_, ?_, ?_, hno⟩
  · rw [frame_gravityFlipTimer, hag, flipped_gravityFlipTimer]
  · rw [hpl]
  · rw [frame_player, hpl]
  · rw [hdir, frame_player, hpl]
  · rw [hv]
    exact afterSpikes_playerVel_y X L i s hflags.1
  · rw [hgr, afterSpikes_grounded]
    exact hflags.2.1
  · rw [hpg, afterSpikes_grounded]
    exact hflags.2.1

theorem padLevel_first_frame_ready :
    gravityPadReady padLevel.gravityPads
      (afterSpeedPads Extern.stub padLevel (jumpTap (1 / 10)) State.init) = true := by
  simp [gravityPadReady, afterSpeedPads, afterJumpPads, afterCollisions, afterMotion,
    afterTimers, afterSpeedTimer, afterJumpInput, afterRestart, jumpTap, clockStage,
    restartStage, restartFires, jumpInputStage, doJump,
    speedTimerStage, gravityTimerStage, horizontalStage, autoRun, stopWhenFinished,
    gravityStage, integrateStage, floorCeilingStage, landOnFloor, bumpCeiling, landOnCeiling,
    bumpFloor, platformStage, jumpPadStage, speedPadStage, padLevel, State.init, gravityBase,
    jumpVelBase, defaultFloorY, ceilingYTop, baseRunSpeedDefault, RectsIntersect, spawn]
  norm_num

theorem gravity_pad_frame_witness :
    gravityPadReady padLevel.gravityPads
      (afterSpeedPads Extern.stub padLevel (jumpTap (1 / 10)) State.init) = true ∧
    (frame Extern.stub padLevel (jumpTap (1 / 10)) State.init).playerVel.y = 0 ∧
    (frame Extern.stub padLevel (jumpTap (1 / 10)) State.init).grounded = true ∧
    (frame Extern.stub padLevel (jumpTap (1 / 10)) State.init).prevGrounded = true ∧
    autoJumpFires (afterSpikes Extern.stub padLevel (jumpTap (1 / 10)) State.init) = false :=
  ⟨padLevel_first_frame_ready,
    (gravity_pad_frame Extern.stub padLevel (jumpTap (1 / 10)) State.init
      padLevel_first_frame_ready).2.2.2.2⟩

/-! ## Gravity pads: the `flipsUp` mark is never read (C30) -/

theorem gravityPadStep_congr (X : Extern) (s : State) (a b : GravityPad)
    (hr : a.rect = b.rect) (hcol : a.color = b.color) :
    gravityPadStep X s a = gravityPadStep X s b := by
  unfold gravityPadStep flipParticles gravityPadBurst
  rw [hr, hcol]

theorem gravityPads_foldl_congr (X : Extern) (pads pads2 : List GravityPad)
    (h : sameButFlipsUp pads pads2) (s : State) :
    pads.foldl (gravityPadStep X) s = pads2.foldl (gravityPadStep X) s := by
  unfold sameButFlipsUp at h
  induction h generalizing s with
  | nil => rfl
  | cons hab _ ih =>
    rw [List.foldl_cons, List.foldl_cons, gravityPadStep_congr X s _ _ hab.1 hab.2, ih]

theorem gravityPadStep_gravityDir_eq (X : Extern) (s : State) (gp : GravityPad) :
    (gravityPadStep X s gp).gravityDir =
      if RectsIntersect s.player gp.rect && decide (s.gravityFlipTimer ≤ 0) then -s.gravityDir
      else s.gravityDir := by
  unfold gravityPadStep
  split_ifs
  · exact flipped_gravityDir X s gp
  · rfl

/-- C30: the `flipsUp` mark of a gravity pad has no effect on the simulation. Two frame
steps from the same state with the same input, on levels that differ only in the `flipsUp`
marks of their gravity pads, give the same state, hence the same gameplay state; and the
body of the pad loop, when it runs for a pad, negates the current `gravityDir` whatever
the pad's mark. -/
theorem flipsUp_has_no_effect (X : Extern) (L : Level) (pads2 : List GravityPad) (i : Input)
    (s : State) (h : sameButFlipsUp L.gravityPads pads2) :
    frame X { L with gravityPads := pads2 } i s = frame X L i s ∧
    (frame X { L with gravityPads := pads2 } i s).gameplay = (frame X L i s).gameplay ∧
    (∀ (u : State) (gp : GravityPad),
      (gravityPadStep X u gp).gravityDir =
        if RectsIntersect u.player gp.rect && decide (u.gravityFlipTimer ≤ 0) then -u.gravityDir
        else u.gravityDir) := by
  have hpl : platformStage X { L with gravityPads := pads2 } = platformStage X L := rfl
  have hjp : jumpPadStage X { L with gravityPads := pads2 } = jumpPadStage X L := rfl
  have hsp : speedPadStage X { L with gravityPads := pads2 } = speedPadStage X L := rfl
  have hfi : finishStage X { L with gravityPads := pads2 } = finishStage X L := rfl
  have hsk : spikeStage { L with gravityPads := pads2 } = spikeStage L := rfl
  have hgp : ∀ u, gravityPadStage X { L with gravityPads := pads2 } u = gravityPadStage X L u := by
    intro u
    unfold gravityPadStage
    exact (gravityPads_foldl_congr X L.gravityPads pads2 h u).symm
  have hframe : frame X { L with gravityPads := pads2 } i s = frame X L i s := by
    rw [frame_eq_stages, frame_eq_stages, hpl, hjp, hsp, hfi, hsk, hgp]
  exact ⟨hframe, by rw [hframe], gravityPadStep_gravityDir_eq X⟩

theorem flipsUp_has_no_effect_witness :
    sameButFlipsUp padLevel.gravityPads padsRemarked ∧
    frame Extern.stub { padLevel with gravityPads := padsRemarked } (tick (1 / 10)) State.init =
      frame Extern.stub padLevel (tick (1 / 10)) State.init :=
  ⟨by simp [sameButFlipsUp, padLevel, padsRemarked],
    (flipsUp_has_no_effect Extern.stub padLevel padsRemarked (tick (1 / 10)) State.init
      (by simp [sameButFlipsUp, padLevel, padsRemarked])).1⟩

/-! ## Particles: the swap-and-pop loop against the specification's list (C28) -/

theorem getElem_at_length {α : Type} (front : List α) (p : α) (done : List α) :
    (front ++ p :: done)[front.length]? = some p := by
  rw [List.getElem?_append_right (le_refl _)]
  simp

theorem set_at_length {α : Type} (front : List α) (p q : α) (done : List α) :
    (front ++ p :: done).set front.length q = front ++ q :: done := by
  simp

theorem eraseIdx_at_length {α : Type} (front : List α) (p : α) (done : List α) :
    (front ++ p :: done).eraseIdx front.length = front ++ done := by
  simp [List.eraseIdx_append_of_length_le]

theorem dropLast_swapped_perm {α : Type} (x : α) (done : List α) :
    List.Perm ((((x :: done).getLast?).getD x) :: done).dropLast done := by
  induction done using List.reverseRecOn with
  | nil => simp
  | append_singleton d b _ =>
    have h1 : ((x :: (d ++ [b])).getLast?).getD x = b := by
      rw [← List.cons_append, List.getLast?_append]
      simp
    rw [h1, ← List.cons_append, List.dropLast_concat]
    exact (List.perm_append_singleton b d).symm

theorem dropLast_swapped {α : Type} (front : List α) (x : α) (done : List α) :
    ((front ++ x :: done).set front.length (((front ++ x :: done).getLast?).getD x)).dropLast =
      front ++ ((((x :: done).getLast?).getD x) :: done).dropLast := by
  have h1 : (front ++ x :: done).getLast? = (x :: done).getLast? := by
    rw [List.getLast?_append]
    cases h : (x :: done).getLast? with
    | none => simp at h
    | some b => rfl
  rw [h1, set_at_length, List.dropLast_append_of_ne_nil _ (List.cons_ne_nil _ _)]

theorem survivors_nil (dt : ℚ) : survivors dt [] = [] := rfl

theorem survivors_append (dt : ℚ) (a b : List Particle) :
    survivors dt (a ++ b) = survivors dt a ++ survivors dt b := by
  unfold survivors
  rw [List.filter_append, List.map_append]

theorem survivors_singleton_dead (dt : ℚ) (p : Particle) (h : p.life - dt ≤ 0) :
    survivors dt [p] = [] := by
  have h1 : ¬ p.life - dt > 0 := not_lt.mpr h
  simp [survivors, List.filter, h1]

theorem survivors_singleton_alive (dt : ℚ) (p : Particle) (h : ¬ p.life - dt ≤ 0) :
    survivors dt [p] = [agedParticle dt p] := by
  have h1 : p.life - dt > 0 := not_le.mp h
  simp [survivors, List.filter, h1]

theorem survivors_life_pos (dt : ℚ) (pool : List Particle) :
    ∀ q ∈ survivors dt pool, 0 < q.life := by
  intro q hq
  unfold survivors at hq
  rw [List.mem_map] at hq
  obtain ⟨p, hp, rfl⟩ := hq
  rw [List.mem_filter, decide_eq_true_eq] at hp
  exact hp.2

theorem particlesLoop_step (dt : ℚ) (front : List Particle) (p : Particle)
    (done : List Particle) :
    particlesLoop dt (front.length + 1) (front ++ p :: done) =
      if p.life - dt ≤ 0 then
        particlesLoop dt front.length
          (front ++
            (((({ p with life := p.life - dt } : Particle) :: done).getLast?).getD
              { p with life := p.life - dt } :: done).dropLast)
      else particlesLoop dt front.length (front ++ agedParticle dt p :: done) := by
  rw [particlesLoop, getElem_at_length]
  dsimp only
  split_ifs
  · rw [set_at_length, dropLast_swapped]
  · rw [set_at_length]
    rfl

theorem particlesLoop_perm (dt : ℚ) (front : List Particle) :
    ∀ done : List Particle,
      List.Perm (particlesLoop dt front.length (front ++ done)) (survivors dt front ++ done) := by
  induction front using List.reverseRecOn with
  | nil =>
    intro done
    exact List.Perm.refl _
  | append_singleton front p ih =>
    intro done
    rw [List.length_append, List.length_singleton, List.append_assoc, List.singleton_append,
      particlesLoop_step, survivors_append]
    by_cases hdead : p.life - dt ≤ 0
    · rw [if_pos hdead, survivors_singleton_dead dt p hdead, List.append_nil]
      exact (ih _).trans (List.Perm.append_left _ (dropLast_swapped_perm _ done))
    · rw [if_neg hdead, survivors_singleton_alive dt p hdead, List.append_assoc,
        List.singleton_append]
      exact ih _

theorem legacyParticlesLoop_step (dt : ℚ) (front : List Particle) (p : Particle)
    (done : List Particle) :
    legacyParticlesLoop dt (front.length + 1) (front ++ p :: done) =
      if p.life - dt ≤ 0 then legacyParticlesLoop dt front.length (front ++ done)
      else legacyParticlesLoop dt front.length (front ++ agedParticle dt p :: done) := by
  rw [legacyParticlesLoop, getElem_at_length]
  dsimp only
  split_ifs
  · rw [set_at_length, eraseIdx_at_length]
  · rw [set_at_length]
    rfl

theorem legacyParticlesLoop_eq (dt : ℚ) (front : List Particle) :
    ∀ done : List Particle,
      legacyParticlesLoop dt front.length (front ++ done) = survivors dt front ++ done := by
  induction front using List.reverseRecOn with
  | nil =>
    intro done
    rfl
  | append_singleton front p ih =>
    intro done
    rw [List.length_append, List.length_singleton, List.append_assoc, List.singleton_append,
      legacyParticlesLoop_step, survivors_append]
    by_cases hdead : p.life - dt ≤ 0
    · rw [if_pos hdead, survivors_singleton_dead dt p hdead, List.append_nil]
      exact ih _
    · rw [if_neg hdead, survivors_singleton_alive dt p hdead, List.append_assoc,
        List.singleton_append]
      exact ih _

/-- C28: the particle update with swap-with-last-and-pop handles every particle exactly
once per frame. For every pool and `dt`, the pool after the stage is a permutation of the
specification's list `survivors dt pool` = `[p' | p in pool, p.life - dt > 0]`, where `p'`
has `life = p.life - dt`, `pos = p.pos + p.vel*dt`, `vel.x = p.vel.x*(1 - 3*dt)`,
`vel.y = p.vel.y + 500*dt` (no other variable of the state enters); no particle left in
the pool has `life ≤ 0`; and the pool is a permutation of the result of the older,
`erase`-based loop on the same pool, which is `survivors dt pool` in pool order. -/
theorem particle_update_is_permutation (dt : ℚ) (s : State) :
    List.Perm (particleStage dt s).particles (survivors dt s.particles) ∧
    (∀ q ∈ (particleStage dt s).particles, 0 < q.life) ∧
    legacyParticlesLoop dt s.particles.length s.particles = survivors dt s.particles ∧
    List.Perm (particleStage dt s).particles
      (legacyParticlesLoop dt s.particles.length s.particles) := by
  have hperm : List.Perm (particleStage dt s).particles (survivors dt s.particles) := by
    have h := particlesLoop_perm dt s.particles []
    rw [List.append_nil, List.append_nil] at h
    exact h
  have hleg : legacyParticlesLoop dt s.particles.length s.particles =
      survivors dt s.particles := by
    have h := legacyParticlesLoop_eq dt s.particles []
    rw [List.append_nil, List.append_nil] at h
    exact h
  refine ⟨hperm, ?_, hleg, ?_⟩
  · intro q hq
    exact survivors_life_pos dt s.particles q (hperm.subset hq)
  · rw [hleg]
    exact hperm

/-! ## Binary32 rounding: rounding to the nearest integer -/

theorem f32Ulp_pos (x : ℚ) : 0 < f32Ulp x := by
  unfold f32Ulp
  positivity

theorem roundEven_spec (q : ℚ) :
    (((roundEven q : ℚ) - 1 / 2 < q ∧ q < (roundEven q : ℚ) + 1 / 2) ∨
      ((q = (roundEven q : ℚ) + 1 / 2 ∨ q = (roundEven q : ℚ) - 1 / 2) ∧
        roundEven q % 2 = 0)) := by
  have h0 : (⌊q⌋ : ℚ) ≤ q := Int.floor_le q
  have h1 : q < (⌊q⌋ : ℚ) + 1 := Int.lt_floor_add_one q
  unfold roundEven
  split_ifs with ha hb hc
  · left
    constructor <;> linarith
  · left
    push_cast
    constructor <;> linarith
  · right
    refine ⟨Or.inl ?_, hc⟩
    have : q - ⌊q⌋ = 1 / 2 := le_antisymm (not_lt.mp hb) (not_lt.mp ha)
    linarith
  · right
    have : q - ⌊q⌋ = 1 / 2 := le_antisymm (not_lt.mp hb) (not_lt.mp ha)
    refine ⟨Or.inr ?_, by omega⟩
    push_cast
    linarith

theorem roundEven_unique (q : ℚ) (n : Int)
    (h : (((n : ℚ) - 1 / 2 < q ∧ q < (n : ℚ) + 1 / 2) ∨
      ((q = (n : ℚ) + 1 / 2 ∨ q = (n : ℚ) - 1 / 2) ∧ n % 2 = 0))) :
    roundEven q = n := by
  rcases h with ⟨h1, h2⟩ | ⟨h1 | h1, h2⟩
  · by_cases hq : (n : ℚ) ≤ q
    · have hf : ⌊q⌋ = n := Int.floor_eq_iff.mpr ⟨hq, by linarith⟩
      unfold roundEven
      rw [hf, if_pos (by linarith)]
    · have hf : ⌊q⌋ = n - 1 := Int.floor_eq_iff.mpr ⟨by push_cast; linarith, by push_cast; linarith⟩
      unfold roundEven
      rw [hf, if_neg (by push_cast; linarith), if_pos (by push_cast; linarith)]
      ring
  · have hf : ⌊q⌋ = n := Int.floor_eq_iff.mpr ⟨by linarith, by linarith⟩
    unfold roundEven
    rw [hf, if_neg (by linarith), if_neg (by linarith), if_pos h2]
  · have hf : ⌊q⌋ = n - 1 := Int.floor_eq_iff.mpr ⟨by push_cast; linarith, by push_cast; linarith⟩
    unfold roundEven
    rw [hf, if_neg (by push_cast; linarith), if_neg (by push_cast; linarith),
      if_neg (by omega)]
    ring

theorem roundEven_near (q : ℚ) : |(roundEven q : ℚ) - q| ≤ 1 / 2 := by
  rw [abs_le]
  rcases roundEven_spec q with ⟨h1, h2⟩ | ⟨h1 | h1, -⟩ <;> constructor <;> linarith

theorem roundEven_intCast (n : Int) : roundEven (n : ℚ) = n :=
  roundEven_unique _ n (Or.inl ⟨by linarith, by linarith⟩)

theorem roundEven_neg (q : ℚ) : roundEven (-q) = -roundEven q := by
  apply roundEven_unique
  rcases roundEven_spec q with ⟨h1, h2⟩ | ⟨h1 | h1, h2⟩
  · left
    push_cast
    constructor <;> linarith
  · right
    refine ⟨Or.inr ?_, by omega⟩
    push_cast
    linarith
  · right
    refine ⟨Or.inl ?_, by omega⟩
    push_cast
    linarith

theorem roundEven_mono (q r : ℚ) (h : q ≤ r) : roundEven q ≤ roundEven r := by
  by_contra hlt
  rw [not_le] at hlt
  have h1 : (roundEven r : ℚ) + 1 ≤ (roundEven q : ℚ) := by exact_mod_cast hlt
  have hq := abs_le.mp (roundEven_near q)
  have hr := abs_le.mp (roundEven_near r)
  have hqr : q = r := by linarith [hq.2, hr.1]
  rw [hqr] at hlt
  exact lt_irrefl _ hlt


/-! ## Binary32 rounding: error, sign, monotonicity -/

theorem f32_error (x : ℚ) : |f32 x - x| ≤ f32Ulp x / 2 := by
  have hu := f32Ulp_pos x
  have h := roundEven_near (x / f32Ulp x)
  have e : f32 x - x = ((roundEven (x / f32Ulp x) : ℚ) - x / f32Ulp x) * f32Ulp x := by
    unfold f32
    field_simp
  rw [e, abs_mul, abs_of_pos hu]
  calc |(roundEven (x / f32Ulp x) : ℚ) - x / f32Ulp x| * f32Ulp x
      ≤ 1 / 2 * f32Ulp x := mul_le_mul_of_nonneg_right h (le_of_lt hu)
    _ = f32Ulp x / 2 := by ring

theorem roundEven_zero : roundEven 0 = 0 := by
  have h := roundEven_intCast 0
  rw [Int.cast_zero] at h
  exact h

theorem f32_zero : f32 0 = 0 := by
  unfold f32
  rw [zero_div, roundEven_zero, Int.cast_zero, zero_mul]

theorem f32_nonneg (x : ℚ) (h : 0 ≤ x) : 0 ≤ f32 x := by
  have hu := f32Ulp_pos x
  have h1 : roundEven 0 ≤ roundEven (x / f32Ulp x) :=
    roundEven_mono _ _ (div_nonneg h (le_of_lt hu))
  rw [roundEven_zero] at h1
  unfold f32
  exact mul_nonneg (by exact_mod_cast h1) (le_of_lt hu)

theorem f32_nonpos (x : ℚ) (h : x ≤ 0) : f32 x ≤ 0 := by
  have hu := f32Ulp_pos x
  have h1 : roundEven (x / f32Ulp x) ≤ roundEven 0 :=
    roundEven_mono _ _ (div_nonpos_of_nonpos_of_nonneg h (le_of_lt hu))
  rw [roundEven_zero] at h1
  unfold f32
  exact mul_nonpos_of_nonpos_of_nonneg (by exact_mod_cast h1) (le_of_lt hu)

theorem f32Ulp_neg (x : ℚ) : f32Ulp (-x) = f32Ulp x := by
  unfold f32Ulp f32Exponent
  rw [abs_neg]

theorem f32_neg (x : ℚ) : f32 (-x) = -f32 x := by
  unfold f32
  rw [f32Ulp_neg, neg_div, roundEven_neg]
  push_cast
  ring

theorem two_zpow_pos (e : Int) : (0 : ℚ) < 2 ^ e := by
  positivity

theorem abs_lt_binade (x : ℚ) : |x| < 2 ^ (f32Exponent x + 1) := by
  have h1 := Int.lt_zpow_succ_log_self (by norm_num : 1 < 2) |x|
  rw [Nat.cast_ofNat] at h1
  have h2 : Int.log 2 |x| + 1 ≤ f32Exponent x + 1 := by
    unfold f32Exponent
    exact add_le_add_right (le_max_left _ _) 1
  exact lt_of_lt_of_le h1 (zpow_le_zpow_right₀ (by norm_num) h2)

theorem binade_le_abs (x : ℚ) (hx : x ≠ 0) (he : -126 < f32Exponent x) :
    2 ^ f32Exponent x ≤ |x| := by
  have hlog : f32Exponent x = Int.log 2 |x| := by
    unfold f32Exponent at he ⊢
    rcases max_cases (Int.log 2 |x|) (-126) with ⟨h1, -⟩ | ⟨h1, -⟩
    · exact h1
    · rw [h1] at he
      exact absurd he (lt_irrefl _)
  have h1 := Int.zpow_log_le_self (by norm_num : 1 < 2) (abs_pos.mpr hx)
  rw [Nat.cast_ofNat] at h1
  rw [hlog]
  exact h1

theorem f32Exponent_mono (x y : ℚ) (hx : x ≠ 0) (h : |x| ≤ |y|) :
    f32Exponent x ≤ f32Exponent y := by
  unfold f32Exponent
  exact max_le_max (Int.log_mono_right (abs_pos.mpr hx) h) (le_refl _)

theorem f32Ulp_mul (x : ℚ) : (16777216 : ℚ) * f32Ulp x = 2 ^ (f32Exponent x + 1) := by
  unfold f32Ulp
  have h : f32Exponent x + 1 = 24 + (f32Exponent x - 23) := by ring
  rw [h, zpow_add₀ (by norm_num : (2 : ℚ) ≠ 0)]
  norm_num

theorem f32Ulp_mul_half (x : ℚ) : (8388608 : ℚ) * f32Ulp x = 2 ^ f32Exponent x := by
  unfold f32Ulp
  have h : f32Exponent x = 23 + (f32Exponent x - 23) := by ring
  nth_rewrite 2 [h]
  rw [zpow_add₀ (by norm_num : (2 : ℚ) ≠ 0)]
  norm_num

theorem f32_le_binade (x : ℚ) (hx : 0 < x) : f32 x ≤ 2 ^ (f32Exponent x + 1) := by
  have hu := f32Ulp_pos x
  have h1 := abs_lt_binade x
  rw [abs_of_pos hx, ← f32Ulp_mul] at h1
  have h2 : x / f32Ulp x ≤ ((16777216 : Int) : ℚ) := by
    rw [div_le_iff₀ hu]
    push_cast
    exact le_of_lt h1
  have h3 := roundEven_mono _ _ h2
  rw [roundEven_intCast] at h3
  have h4 : (roundEven (x / f32Ulp x) : ℚ) ≤ 16777216 := by exact_mod_cast h3
  rw [← f32Ulp_mul]
  unfold f32
  exact mul_le_mul_of_nonneg_right h4 (le_of_lt hu)

theorem binade_le_f32 (x : ℚ) (hx : 0 < x) (he : -126 < f32Exponent x) :
    2 ^ f32Exponent x ≤ f32 x := by
  have hu := f32Ulp_pos x
  have h1 := binade_le_abs x (ne_of_gt hx) he
  rw [abs_of_pos hx, ← f32Ulp_mul_half] at h1
  have h2 : ((8388608 : Int) : ℚ) ≤ x / f32Ulp x := by
    rw [le_div_iff₀ hu]
    push_cast
    exact h1
  have h3 := roundEven_mono _ _ h2
  rw [roundEven_intCast] at h3
  have h4 : (8388608 : ℚ) ≤ (roundEven (x / f32Ulp x) : ℚ) := by exact_mod_cast h3
  rw [← f32Ulp_mul_half]
  unfold f32
  exact mul_le_mul_of_nonneg_right h4 (le_of_lt hu)

theorem f32_mono_pos (x y : ℚ) (hx : 0 < x) (h : x ≤ y) : f32 x ≤ f32 y := by
  have hy : 0 < y := lt_of_lt_of_le hx h
  have he : f32Exponent x ≤ f32Exponent y :=
    f32Exponent_mono x y (ne_of_gt hx) (by rw [abs_of_pos hx, abs_of_pos hy]; exact h)
  rcases eq_or_lt_of_le he with heq | hlt
  · have hu : f32Ulp x = f32Ulp y := by
      unfold f32Ulp
      rw [heq]
    have hpos := f32Ulp_pos y
    have h1 := roundEven_mono (x / f32Ulp y) (y / f32Ulp y)
      (div_le_div_of_nonneg_right h (le_of_lt hpos))
    unfold f32
    rw [hu]
    exact mul_le_mul_of_nonneg_right (by exact_mod_cast h1) (le_of_lt hpos)
  · have h126 : -126 < f32Exponent y :=
      lt_of_le_of_lt (le_max_right _ _) hlt
    calc f32 x ≤ 2 ^ (f32Exponent x + 1) := f32_le_binade x hx
      _ ≤ 2 ^ f32Exponent y := zpow_le_zpow_right₀ (by norm_num) hlt
      _ ≤ f32 y := binade_le_f32 y hy h126

/-- Rounding to binary32 is monotone. -/
theorem f32_mono (x y : ℚ) (h : x ≤ y) : f32 x ≤ f32 y := by
  rcases lt_trichotomy 0 x with hx | hx | hx
  · exact f32_mono_pos x y hx h
  · rw [← hx, f32_zero]
    exact f32_nonneg y (by rw [← hx] at h; exact h)
  · rcases le_or_lt 0 y with hy | hy
    · exact le_trans (f32_nonpos x (le_of_lt hx)) (f32_nonneg y hy)
    · have h1 := f32_mono_pos (-y) (-x) (neg_pos.mpr hy) (neg_le_neg h)
      rw [f32_neg, f32_neg] at h1
      exact neg_le_neg_iff.mp h1

/-- A sum that is at most a binary32 number stays so after rounding, and conversely for a
lower bound. -/
theorem f32_le_of_le (x r : ℚ) (hr : f32 r = r) (h : x ≤ r) : f32 x ≤ r := by
  have h1 := f32_mono x r h
  rw [hr] at h1
  exact h1

theorem le_f32_of_le (x r : ℚ) (hr : f32 r = r) (h : r ≤ x) : r ≤ f32 x := by
  have h1 := f32_mono r x h
  rw [hr] at h1
  exact h1

theorem f32Exponent_eq (x : ℚ) (e : Int) (he : -126 ≤ e) (hlo : 2 ^ e ≤ |x|)
    (hhi : |x| < 2 ^ (e + 1)) : f32Exponent x = e := by
  have hpos : 0 < |x| := lt_of_lt_of_le (two_zpow_pos e) hlo
  have h1 : e ≤ Int.log 2 |x| := by
    rw [← Int.zpow_le_iff_le_log (by norm_num : 1 < 2) hpos, Nat.cast_ofNat]
    exact hlo
  have h2 : Int.log 2 |x| < e + 1 := by
    rw [← Int.lt_zpow_iff_log_lt (by norm_num : 1 < 2) hpos, Nat.cast_ofNat]
    exact hhi
  unfold f32Exponent
  rw [max_eq_left (by omega)]
  omega

/-- Evaluation of `f32` on a number whose binade and rounded significand are known. -/
theorem f32_eq (x : ℚ) (e n : Int) (he : -126 ≤ e) (hlo : 2 ^ e ≤ |x|)
    (hhi : |x| < 2 ^ (e + 1)) (hn : roundEven (x / 2 ^ (e - 23)) = n) :
    f32 x = (n : ℚ) * 2 ^ (e - 23) := by
  unfold f32 f32Ulp
  rw [f32Exponent_eq x e he hlo hhi, hn]

theorem f32_farSquare_edge : f32 (16777216 + 1) = 16777216 := by
  have h := f32_eq (16777216 + 1) 24 8388608 (by norm_num) (by norm_num [abs_of_pos])
    (by norm_num [abs_of_pos])
    (roundEven_unique _ _ (Or.inr ⟨Or.inl (by norm_num), by norm_num⟩))
  rw [h]
  norm_num

theorem f32_one : f32 1 = 1 := by
  have h := f32_eq 1 0 8388608 (by norm_num) (by norm_num) (by norm_num)
    (roundEven_unique _ _ (Or.inl ⟨by norm_num, by norm_num⟩))
  rw [h]
  norm_num

theorem f32_two : f32 2 = 2 := by
  have h := f32_eq 2 1 8388608 (by norm_num) (by norm_num) (by norm_num)
    (roundEven_unique _ _ (Or.inl ⟨by norm_num, by norm_num⟩))
  rw [h]
  norm_num

theorem f32_farSquare_x : f32 16777216 = 16777216 := by
  have h := f32_eq 16777216 24 8388608 (by norm_num) (by norm_num [abs_of_pos])
    (by norm_num [abs_of_pos])
    (roundEven_unique _ _ (Or.inl ⟨by norm_num, by norm_num⟩))
  rw [h]
  norm_num

/-! ## `RectsIntersect` in binary32 (C1) -/

theorem RectsIntersect32_iff (a b : Rectangle) :
    RectsIntersect32 a b = true ↔
      (a.x < f32 (b.x + b.width) ∧ b.x < f32 (a.x + a.width) ∧
        a.y < f32 (b.y + b.height) ∧ b.y < f32 (a.y + a.height)) := by
  simp only [RectsIntersect32, Bool.not_eq_true', Bool.or_eq_false_iff, decide_eq_false_iff_not,
    not_le]
  tauto

theorem RectsIntersect32_eq_false_iff (a b : Rectangle) :
    RectsIntersect32 a b = false ↔
      (f32 (a.x + a.width) ≤ b.x ∨ f32 (b.x + b.width) ≤ a.x ∨
        f32 (a.y + a.height) ≤ b.y ∨ f32 (b.y + b.height) ≤ a.y) := by
  rw [← Bool.not_eq_true, RectsIntersect32_iff]
  simp only [not_and_or, not_lt]
  tauto

/-- Counterexample to C1 as stated: the unit square `farSquare` at x = 16777216 has
positive width and height and binary32 fields, but its right edge `16777216 + 1` rounds
to 16777216, so the test `a.x + a.width <= b.x` of utils.cpp:10 holds for `a = b` and
`RectsIntersect(a, a)` is false. -/
theorem RectsIntersect32_misses_self :
    ((0 : ℚ) < farSquare.width ∧ (0 : ℚ) < farSquare.height) ∧
    (f32 farSquare.x = farSquare.x ∧ f32 farSquare.width = farSquare.width) ∧
    f32 (farSquare.x + farSquare.width) = farSquare.x ∧
    RectsIntersect32 farSquare farSquare = false := by
  refine ⟨⟨by norm_num [farSquare], by norm_num [farSquare]⟩,
    ⟨f32_farSquare_x, f32_one⟩, f32_farSquare_edge, ?_⟩
  rw [RectsIntersect32_eq_false_iff]
  exact Or.inl (le_of_eq f32_farSquare_edge)

/-- C1 (amended): `RectsIntersect` on rectangles of positive width and height whose
corner coordinates are binary32 numbers, with every sum rounded to binary32. It is true
exactly when each rounded far edge lies strictly beyond the other rectangle's near edge.
If it is true the four strict inequalities hold in exact arithmetic and the overlap has
non-zero area; in particular it is false whenever the rectangles only touch along an edge
or at a corner. Conversely, it is true whenever each strict inequality holds by more than
half a unit in the last place of the sum in it; and when the four sums `x + width`,
`y + height` are computed without rounding error, it is true exactly when the four
strict inequalities hold, which is exactly when the overlap has non-zero area, and
`RectsIntersect a a` is true when the two sums of `a` are exact. -/
theorem RectsIntersect32_overlap (a b : Rectangle) (ha : 0 < a.width ∧ 0 < a.height)
    (hb : 0 < b.width ∧ 0 < b.height)
    (hax : f32 a.x = a.x) (hay : f32 a.y = a.y) (hbx : f32 b.x = b.x) (hby : f32 b.y = b.y) :
    (RectsIntersect32 a b = true ↔
      (a.x < f32 (b.x + b.width) ∧ b.x < f32 (a.x + a.width) ∧
        a.y < f32 (b.y + b.height) ∧ b.y < f32 (a.y + a.height))) ∧
    (RectsIntersect32 a b = true →
      (a.x < b.x + b.width ∧ b.x < a.x + a.width ∧
        a.y < b.y + b.height ∧ b.y < a.y + a.height) ∧ 0 < overlapArea a b) ∧
    ((a.x + a.width = b.x ∨ b.x + b.width = a.x ∨
        a.y + a.height = b.y ∨ b.y + b.height = a.y) → RectsIntersect32 a b = false) ∧
    ((a.x + f32Ulp (b.x + b.width) / 2 < b.x + b.width ∧
        b.x + f32Ulp (a.x + a.width) / 2 < a.x + a.width ∧
        a.y + f32Ulp (b.y + b.height) / 2 < b.y + b.height ∧
        b.y + f32Ulp (a.y + a.height) / 2 < a.y + a.height) → RectsIntersect32 a b = true) ∧
    ((f32 (a.x + a.width) = a.x + a.width ∧ f32 (b.x + b.width) = b.x + b.width ∧
        f32 (a.y + a.height) = a.y + a.height ∧ f32 (b.y + b.height) = b.y + b.height) →
      (RectsIntersect32 a b = true ↔
        (a.x < b.x + b.width ∧ b.x < a.x + a.width ∧
          a.y < b.y + b.height ∧ b.y < a.y + a.height)) ∧
      (RectsIntersect32 a b = true ↔ 0 < overlapArea a b)) ∧
    ((f32 (a.x + a.width) = a.x + a.width ∧ f32 (a.y + a.height) = a.y + a.height) →
      RectsIntersect32 a a = true) := by
  have hsound : RectsIntersect32 a b = true →
      (a.x < b.x + b.width ∧ b.x < a.x + a.width ∧
        a.y < b.y + b.height ∧ b.y < a.y + a.height) := by
    intro h
    rw [RectsIntersect32_iff] at h
    obtain ⟨h1, h2, h3, h4⟩ := h
    refine ⟨?_, ?_, ?_, ?_⟩
    · by_contra hc
      exact absurd h1 (not_lt.mpr (f32_le_of_le _ _ hax (not_lt.mp hc)))
    · by_contra hc
      exact absurd h2 (not_lt.mpr (f32_le_of_le _ _ hbx (not_lt.mp hc)))
    · by_contra hc
      exact absurd h3 (not_lt.mpr (f32_le_of_le _ _ hay (not_lt.mp hc)))
    · by_contra hc
      exact absurd h4 (not_lt.mpr (f32_le_of_le _ _ hby (not_lt.mp hc)))
  refine ⟨RectsIntersect32_iff a b, ?_, ?_, ?_, ?_, ?_⟩
  · intro h
    exact ⟨hsound h, (overlapArea_pos_iff a b ha hb).mpr (hsound h)⟩
  · intro h
    cases hr : RectsIntersect32 a b with
    | false => rfl
    | true =>
      obtain ⟨h1, h2, h3, h4⟩ := hsound hr
      rcases h with h | h | h | h <;> linarith
  · intro hm
    obtain ⟨m1, m2, m3, m4⟩ := hm
    have k1 := (abs_le.mp (f32_error (b.x + b.width))).1
    have k2 := (abs_le.mp (f32_error (a.x + a.width))).1
    have k3 := (abs_le.mp (f32_error (b.y + b.height))).1
    have k4 := (abs_le.mp (f32_error (a.y + a.height))).1
    rw [RectsIntersect32_iff]
    exact ⟨by linarith, by linarith, by linarith, by linarith⟩
  · intro hex
    obtain ⟨e1, e2, e3, e4⟩ := hex
    have hiff : RectsIntersect32 a b = true ↔
        (a.x < b.x + b.width ∧ b.x < a.x + a.width ∧
          a.y < b.y + b.height ∧ b.y < a.y + a.height) := by
      rw [RectsIntersect32_iff, e1, e2, e3, e4]
    exact ⟨hiff, by rw [overlapArea_pos_iff a b ha hb]; exact hiff⟩
  · intro hex
    obtain ⟨e1, e3⟩ := hex
    rw [RectsIntersect32_iff, e1, e3]
    obtain ⟨haw, hah⟩ := ha
    exact ⟨by linarith, by linarith, by linarith, by linarith⟩

theorem RectsIntersect32_overlap_witness :
    ((0 : ℚ) < 1 ∧ f32 0 = 0 ∧ f32 1 = 1) ∧
    RectsIntersect32 ⟨0, 0, 1, 1⟩ ⟨1, 0, 1, 1⟩ = false ∧
    RectsIntersect32 ⟨0, 0, 1, 1⟩ ⟨0, 0, 1, 1⟩ = true :=
  ⟨⟨by norm_num, f32_zero, f32_one⟩,
    (RectsIntersect32_overlap ⟨0, 0, 1, 1⟩ ⟨1, 0, 1, 1⟩ ⟨by norm_num, by norm_num⟩
      ⟨by norm_num, by norm_num⟩ f32_zero f32_zero f32_one f32_zero).2.2.1
      (Or.inl (by norm_num)),
    (RectsIntersect32_overlap ⟨0, 0, 1, 1⟩ ⟨1, 0, 1, 1⟩ ⟨by norm_num, by norm_num⟩
      ⟨by norm_num, by norm_num⟩ f32_zero f32_zero f32_one f32_zero).2.2.2.2.2
      ⟨by rw [zero_add]; exact f32_one, by rw [zero_add]; exact f32_one⟩⟩

/-! ## The timed speed modifier in binary32 (C8) -/

theorem f32Ulp_mono (z D : ℚ) (hz : 0 < z) (hzD : z ≤ D) : f32Ulp z ≤ f32Ulp D := by
  have hD : 0 < D := lt_of_lt_of_le hz hzD
  have he : f32Exponent z ≤ f32Exponent D :=
    f32Exponent_mono z D (ne_of_gt hz) (by rw [abs_of_pos hz, abs_of_pos hD]; exact hzD)
  unfold f32Ulp
  exact zpow_le_zpow_right₀ (by norm_num) (by omega)

theorem f32_error_le (z D : ℚ) (hz : 0 < z) (hzD : z ≤ D) : |f32 z - z| ≤ f32Ulp D / 2 := by
  have h1 := f32_error z
  have h2 := f32Ulp_mono z D hz hzD
  linarith

theorem speedTimerStage32_baseRunSpeed (dt : ℚ) (s : State) :
    (speedTimerStage32 dt s).baseRunSpeed = s.baseRunSpeed := by
  unfold speedTimerStage32
  split_ifs <;> rfl

theorem speedTimerStage32_modifier (b m D R tol dt : ℚ) (s : State)
    (h : SpeedModifier32 b m D R tol s) (hDr : f32 D = D) (hdt : 0 ≤ dt) :
    SpeedModifier32 b m D (R - dt) (tol + f32Ulp D / 2) (speedTimerStage32 dt s) := by
  have hu := f32Ulp_pos D
  obtain ⟨hb, h⟩ := h
  refine ⟨by rw [speedTimerStage32_baseRunSpeed]; exact hb, ?_⟩
  rcases h with ⟨hpos, hle, hm, -, herr⟩ | ⟨ht, -, -, hR⟩
  · have hnot : ¬ s.speedTimer ≤ 0 := not_le.mpr hpos
    have herr2 := abs_le.mp herr
    by_cases hz : f32 (s.speedTimer - dt) ≤ 0
    · have hst : speedTimerStage32 dt s =
          { s with speedTimer := 0, speedMultiplierActive := 1, runSpeed := s.baseRunSpeed } := by
        unfold speedTimerStage32
        rw [if_neg hnot, if_pos hz]
      rw [hst]
      refine Or.inr ⟨rfl, rfl, hb, ?_⟩
      have hzle : s.speedTimer - dt ≤ f32Ulp D / 2 := by
        by_cases hz0 : s.speedTimer - dt ≤ 0
        · linarith
        · have he := abs_le.mp (f32_error_le (s.speedTimer - dt) D (not_le.mp hz0) (by linarith))
          linarith [he.1]
      linarith [herr2.1]
    · have hst : speedTimerStage32 dt s =
          { s with
            speedTimer := f32 (s.speedTimer - dt)
            runSpeed := f32 (s.baseRunSpeed * s.speedMultiplierActive) } := by
        unfold speedTimerStage32
        rw [if_neg hnot, if_neg hz]
      have hzpos : 0 < s.speedTimer - dt := by
        by_contra hc
        exact hz (f32_nonpos _ (not_lt.mp hc))
      have he := abs_le.mp (f32_error_le (s.speedTimer - dt) D hzpos (by linarith))
      rw [hst]
      refine Or.inl ⟨not_le.mp hz, f32_le_of_le _ _ hDr (by linarith), hm, ?_, ?_⟩
      · show f32 (s.baseRunSpeed * s.speedMultiplierActive) = f32 (b * m)
        rw [hb, hm]
      · show |f32 (s.speedTimer - dt) - (R - dt)| ≤ tol + f32Ulp D / 2
        rw [abs_le]
        constructor <;> linarith [he.1, he.2, herr2.1, herr2.2]
  · have hst : speedTimerStage32 dt s =
        { s with speedMultiplierActive := 1, runSpeed := s.baseRunSpeed } := by
      unfold speedTimerStage32
      rw [if_pos (by rw [ht])]
    rw [hst]
    exact Or.inr ⟨ht, rfl, hb, by linarith⟩

theorem SpeedModifier32_congr (b m D R tol : ℚ) (s r : State)
    (hb : r.baseRunSpeed = s.baseRunSpeed) (ht : r.speedTimer = s.speedTimer)
    (hm : r.speedMultiplierActive = s.speedMultiplierActive) (hr : r.runSpeed = s.runSpeed)
    (h : SpeedModifier32 b m D R tol s) : SpeedModifier32 b m D R tol r := by
  unfold SpeedModifier32 at h ⊢
  rw [hb, ht, hm, hr]
  exact h

theorem afterTimers32_modifier (X : Extern) (b m D R tol : ℚ) (i : Input) (s : State)
    (h : SpeedModifier32 b m D R tol s) (hDr : f32 D = D) (hnr : restartFires i s = false)
    (hdt : 0 ≤ i.dt) :
    SpeedModifier32 b m D (R - i.dt) (tol + f32Ulp D / 2) (afterTimers32 X i s) := by
  have h1 : SpeedModifier32 b m D R tol (afterJumpInput X i s) := by
    apply SpeedModifier32_congr b m D R tol s _ _ _ _ _ h <;>
      simp [afterJumpInput, afterRestart_of_not_fires i s hnr]
  have h2 := speedTimerStage32_modifier b m D R tol i.dt _ h1 hDr hdt
  exact SpeedModifier32_congr b m D (R - i.dt) (tol + f32Ulp D / 2)
    (speedTimerStage32 i.dt (afterJumpInput X i s)) _
    (by simp [afterTimers32]) (by simp [afterTimers32])
    (by simp [afterTimers32]) (by simp [afterTimers32]) h2

theorem speedPads32_foldl_none (X : Extern) (pads : List SpeedPad) (s : State)
    (h : pads.any (fun sp => RectsIntersect32 s.player sp.rect) = false) :
    pads.foldl (speedPadStep32 X) s = s := by
  induction pads with
  | nil => rfl
  | cons sp rest ih =>
    simp only [List.any_cons, Bool.or_eq_false_iff] at h
    have hstep : speedPadStep32 X s sp = s := by
      unfold speedPadStep32
      rw [if_neg (by rw [h.1]; exact Bool.false_ne_true)]
    rw [List.foldl_cons, hstep]
    exact ih h.2

theorem frame32_modifier (X : Extern) (L : Level) (b m D R tol : ℚ) (i : Input) (s : State)
    (h : SpeedModifier32 b m D R tol s) (hDr : f32 D = D) (hnr : restartFires i s = false)
    (hnp : speedPadTriggered32 X L i s = false) (hdt : 0 ≤ i.dt) :
    SpeedModifier32 b m D (R - i.dt) (tol + f32Ulp D / 2) (frame32 X L i s) := by
  have h1 := afterTimers32_modifier X b m D R tol i s h hDr hnr hdt
  have hpads : speedPadStage32 X L (afterJumpPads32 X L i s) = afterJumpPads32 X L i s := by
    unfold speedPadStage32
    exact speedPads32_foldl_none X _ _ hnp
  have e : frame32 X L i s =
      endOfFrameStage (deathShakeStage i.dt (particleStage i.dt (cameraStage
        (autoJumpStage X (spikeStage L (finishStage X L (gravityPadStage X L
          (afterJumpPads32 X L i s)))))))) := by
    unfold frame32
    rw [hpads]
  apply SpeedModifier32_congr b m D (R - i.dt) (tol + f32Ulp D / 2) (afterTimers32 X i s)
    _ _ _ _ _ h1 <;>
    (rw [e]; simp [afterJumpPads32])

theorem run32_modifier (X : Extern) (L : Level) (b m D : ℚ) (frames : List Input)
    (R tol : ℚ) (s : State) (h : SpeedModifier32 b m D R tol s) (hDr : f32 D = D)
    (hnr : noRestart32 X L s frames = true) (hnp : noSpeedPad32 X L s frames = true)
    (hdt : ∀ j ∈ frames, 0 ≤ j.dt) :
    SpeedModifier32 b m D (R - elapsed frames) (tol + frames.length * (f32Ulp D / 2))
      (run32 X L s frames) := by
  induction frames generalizing s R tol with
  | nil =>
    have e1 : R - elapsed [] = R := by simp [elapsed]
    have e2 : tol + (([] : List Input).length : ℚ) * (f32Ulp D / 2) = tol := by simp
    rw [e1, e2]
    exact h
  | cons i rest ih =>
    simp only [noRestart32, noSpeedPad32, Bool.and_eq_true, Bool.not_eq_true'] at hnr hnp
    have h1 := frame32_modifier X L b m D R tol i s h hDr hnr.1 hnp.1
      (hdt i (List.mem_cons_self _ _))
    have h2 := ih (R - i.dt) (tol + f32Ulp D / 2) (frame32 X L i s) h1 hnr.2 hnp.2
      (fun j hj => hdt j (List.mem_cons_of_mem _ hj))
    have e1 : R - elapsed (i :: rest) = R - i.dt - elapsed rest := by
      rw [elapsed_cons]
      ring
    have e2 : tol + ((i :: rest).length : ℚ) * (f32Ulp D / 2) =
        tol + f32Ulp D / 2 + (rest.length : ℚ) * (f32Ulp D / 2) := by
      rw [List.length_cons]
      push_cast
      ring
    rw [e1, e2]
    exact h2

theorem noRestart32_append (X : Extern) (L : Level) (s : State) (xs ys : List Input) :
    noRestart32 X L s (xs ++ ys) =
      (noRestart32 X L s xs && noRestart32 X L (run32 X L s xs) ys) := by
  induction xs generalizing s with
  | nil => simp [noRestart32, run32]
  | cons i rest ih => simp [noRestart32, run32, ih, Bool.and_assoc]

theorem speedPadStep32_triggered (X : Extern) (s : State) (sp : SpeedPad)
    (h : RectsIntersect32 s.player sp.rect = true) :
    (speedPadStep32 X s sp).speedTimer = sp.duration ∧
    (speedPadStep32 X s sp).speedMultiplierActive = sp.multiplier ∧
    (speedPadStep32 X s sp).runSpeed = f32 (s.baseRunSpeed * sp.multiplier) := by
  unfold speedPadStep32
  rw [if_pos h]
  exact ⟨rfl, rfl, rfl⟩

/-- C8 (amended): the timed speed modifier with `float` rounding. After a speed pad of
multiplier `m` and duration `D > 0` (a binary32 number) has been triggered (the pad body
sets `speedTimer = D`, `speedMultiplierActive = m` and `runSpeed` to `base * m` rounded
to binary32), consider a run of `k` later frames with `dt ≥ 0` in which the restart block
is not entered and no speed pad is triggered, let `E` be the sum of their frame times and
`tol = k * ulp(D) / 2` the rounding that `speedTimer -= dt` can accumulate. After the
timer stage of the last frame the variables are either boosted (multiplier `m`, run speed
`base * m` rounded, `0 < speedTimer ≤ D` with `|speedTimer - (D - E)| ≤ tol`) or neutral
(multiplier 1, timer 0, run speed `base`, and then `E ≥ D - tol`). So they are boosted if
`E < D - tol` and neutral if `E ≥ D + tol`; between the two bounds rounding decides. -/
theorem speed_modifier_decay32 (X : Extern) (L : Level) (s0 : State) (m D : ℚ)
    (frames : List Input) (i : Input) (hD : 0 < D) (hDr : f32 D = D)
    (h0 : s0.speedTimer = D ∧ s0.speedMultiplierActive = m ∧
      s0.runSpeed = f32 (s0.baseRunSpeed * m))
    (hdt : ∀ j ∈ frames ++ [i], 0 ≤ j.dt)
    (hnr : noRestart32 X L s0 (frames ++ [i]) = true)
    (hnp : noSpeedPad32 X L s0 frames = true) :
    (((0 < (afterTimers32 X i (run32 X L s0 frames)).speedTimer ∧
        (afterTimers32 X i (run32 X L s0 frames)).speedTimer ≤ D ∧
        (afterTimers32 X i (run32 X L s0 frames)).speedMultiplierActive = m ∧
        (afterTimers32 X i (run32 X L s0 frames)).runSpeed = f32 (s0.baseRunSpeed * m) ∧
        |(afterTimers32 X i (run32 X L s0 frames)).speedTimer -
            (D - elapsed (frames ++ [i]))| ≤
          ((frames ++ [i]).length : ℚ) * (f32Ulp D / 2)) ∨
      ((afterTimers32 X i (run32 X L s0 frames)).speedTimer = 0 ∧
        (afterTimers32 X i (run32 X L s0 frames)).speedMultiplierActive = 1 ∧
        (afterTimers32 X i (run32 X L s0 frames)).runSpeed = s0.baseRunSpeed ∧
        D - ((frames ++ [i]).length : ℚ) * (f32Ulp D / 2) ≤ elapsed (frames ++ [i])))) ∧
    (elapsed (frames ++ [i]) < D - ((frames ++ [i]).length : ℚ) * (f32Ulp D / 2) →
      (afterTimers32 X i (run32 X L s0 frames)).speedMultiplierActive = m ∧
      0 < (afterTimers32 X i (run32 X L s0 frames)).speedTimer ∧
      (afterTimers32 X i (run32 X L s0 frames)).runSpeed = f32 (s0.baseRunSpeed * m)) ∧
    (D + ((frames ++ [i]).length : ℚ) * (f32Ulp D / 2) ≤ elapsed (frames ++ [i]) →
      (afterTimers32 X i (run32 X L s0 frames)).speedMultiplierActive = 1 ∧
      (afterTimers32 X i (run32 X L s0 frames)).speedTimer = 0 ∧
      (afterTimers32 X i (run32 X L s0 frames)).runSpeed = s0.baseRunSpeed) ∧
    (∀ (s : State) (sp : SpeedPad), RectsIntersect32 s.player sp.rect = true →
      (speedPadStep32 X s sp).speedTimer = sp.duration ∧
      (speedPadStep32 X s sp).speedMultiplierActive = sp.multiplier ∧
      (speedPadStep32 X s sp).runSpeed = f32 (s.baseRunSpeed * sp.multiplier)) := by
  have hinit : SpeedModifier32 s0.baseRunSpeed m D D 0 s0 := by
    refine ⟨rfl, Or.inl ⟨?_, ?_, h0.2.1, h0.2.2, ?_⟩⟩
    · rw [h0.1]
      exact hD
    · rw [h0.1]
    · rw [h0.1, sub_self, abs_zero]
  rw [noRestart32_append] at hnr
  simp only [noRestart32, Bool.and_eq_true, Bool.not_eq_true', Bool.and_true] at hnr
  have hrun := run32_modifier X L s0.baseRunSpeed m D frames D 0 s0 hinit hDr hnr.1 hnp
    (fun j hj => hdt j (List.mem_append_left _ hj))
  have hlast := afterTimers32_modifier X s0.baseRunSpeed m D (D - elapsed frames)
    (0 + frames.length * (f32Ulp D / 2)) i _ hrun hDr hnr.2
    (hdt i (List.mem_append_right _ (List.mem_singleton_self _)))
  have hE : D - elapsed frames - i.dt = D - elapsed (frames ++ [i]) := by
    have hnil : elapsed [] = 0 := rfl
    rw [elapsed_append, elapsed_cons, hnil, add_zero]
    ring
  have hk : 0 + (frames.length : ℚ) * (f32Ulp D / 2) + f32Ulp D / 2 =
      ((frames ++ [i]).length : ℚ) * (f32Ulp D / 2) := by
    rw [List.length_append, List.length_singleton]
    push_cast
    ring
  rw [hE, hk] at hlast
  obtain ⟨-, hlast⟩ := hlast
  refine ⟨?_, ?_, ?_, fun s sp h => speedPadStep32_triggered X s sp h⟩
  · rcases hlast with ⟨h1, h2, h3, h4, h5⟩ | ⟨h1, h2, h3, h4⟩
    · exact Or.inl ⟨h1, h2, h3, h4, h5⟩
    · exact Or.inr ⟨h1, h2, h3, by linarith⟩
  · intro hlt
    rcases hlast with ⟨h1, h2, h3, h4, h5⟩ | ⟨h1, h2, h3, h4⟩
    · exact ⟨h3, h1, h4⟩
    · exfalso
      linarith
  · intro hge
    rcases hlast with ⟨h1, h2, h3, h4, h5⟩ | ⟨h1, h2, h3, h4⟩
    · exfalso
      have h6 := (abs_le.mp h5).2
      linarith
    · exact ⟨h2, h1, h3⟩

theorem f32_half : f32 (1 / 2) = 1 / 2 := by
  have h := f32_eq (1 / 2) (-1) 8388608 (by norm_num) (by norm_num [abs_of_pos])
    (by norm_num [abs_of_pos])
    (roundEven_unique _ _ (Or.inl ⟨by norm_num, by norm_num⟩))
  rw [h]
  norm_num

theorem f32Ulp_half : f32Ulp (1 / 2) = 1 / 16777216 := by
  unfold f32Ulp
  rw [f32Exponent_eq (1 / 2) (-1) (by norm_num) (by norm_num [abs_of_pos])
    (by norm_num [abs_of_pos])]
  norm_num

theorem boostedState_runSpeed :
    boostedState.runSpeed = f32 (boostedState.baseRunSpeed * (5 / 4)) := by
  have h := f32_eq 525 9 8601600 (by norm_num) (by norm_num [abs_of_pos])
    (by norm_num [abs_of_pos])
    (roundEven_unique _ _ (Or.inl ⟨by norm_num, by norm_num⟩))
  have e : boostedState.baseRunSpeed * (5 / 4) = 525 := by
    norm_num [boostedState, State.init, baseRunSpeedDefault]
  rw [e, h]
  norm_num [boostedState]

theorem speed_modifier_decay32_witness :
    ((0 : ℚ) < 1 / 2 ∧ f32 (1 / 2) = 1 / 2) ∧
    (1 / 2 : ℚ) + (([tick (1 / 2)] ++ [tick (1 / 2)]).length : ℚ) * (f32Ulp (1 / 2) / 2) ≤
      elapsed ([tick (1 / 2)] ++ [tick (1 / 2)]) ∧
    (afterTimers32 Extern.stub (tick (1 / 2))
      (run32 Extern.stub padLevel boostedState [tick (1 / 2)])).speedMultiplierActive = 1 := by
  have hE : (1 / 2 : ℚ) + (([tick (1 / 2)] ++ [tick (1 / 2)]).length : ℚ) *
      (f32Ulp (1 / 2) / 2) ≤ elapsed ([tick (1 / 2)] ++ [tick (1 / 2)]) := by
    rw [f32Ulp_half]
    norm_num [elapsed, tick]
  have h := speed_modifier_decay32 Extern.stub padLevel boostedState (5 / 4) (1 / 2)
    [tick (1 / 2)] (tick (1 / 2)) (by norm_num) f32_half
    ⟨rfl, rfl, boostedState_runSpeed⟩
    (by
      intro j hj
      simp only [List.cons_append, List.nil_append, List.mem_cons, List.mem_singleton,
        List.not_mem_nil, or_false, or_self] at hj
      rw [hj]
      norm_num [tick])
    (by simp [noRestart32, restartFires_tick])
    (by simp [noSpeedPad32, speedPadTriggered32, padLevel])
  exact ⟨⟨by norm_num, f32_half⟩, hE, (h.2.2.1 hE).1⟩

/-! ### Rounding keeps the boost past the nominal duration -/

theorem speedTimerStage32_running (dt t : ℚ) (s : State) (hpos : 0 < s.speedTimer)
    (ht : f32 (s.speedTimer - dt) = t) (htpos : 0 < t) :
    (speedTimerStage32 dt s).speedTimer = t ∧
      (speedTimerStage32 dt s).speedMultiplierActive = s.speedMultiplierActive := by
  have hst : speedTimerStage32 dt s =
      { s with
        speedTimer := f32 (s.speedTimer - dt)
        runSpeed := f32 (s.baseRunSpeed * s.speedMultiplierActive) } := by
    unfold speedTimerStage32
    rw [if_neg (not_le.mpr hpos), if_neg (by rw [ht]; exact not_le.mpr htpos)]
  rw [hst]
  exact ⟨ht, rfl⟩

theorem tenth_step_one : f32 (1 / 2 - 13421773 / 134217728) = 13421773 / 33554432 := by
  have h := f32_eq (1 / 2 - 13421773 / 134217728) (-2) 13421773 (by norm_num)
    (by norm_num [abs_of_pos]) (by norm_num [abs_of_pos])
    (roundEven_unique _ _ (Or.inl ⟨by norm_num, by norm_num⟩))
  rw [h]
  norm_num

theorem tenth_step_two :
    f32 (13421773 / 33554432 - 13421773 / 134217728) = 5033165 / 16777216 := by
  have h := f32_eq (13421773 / 33554432 - 13421773 / 134217728) (-2) 10066330 (by norm_num)
    (by norm_num [abs_of_pos]) (by norm_num [abs_of_pos])
    (roundEven_unique _ _ (Or.inl ⟨by norm_num, by norm_num⟩))
  rw [h]
  norm_num

theorem tenth_step_three :
    f32 (5033165 / 16777216 - 13421773 / 134217728) = 6710887 / 33554432 := by
  have h := f32_eq (5033165 / 16777216 - 13421773 / 134217728) (-3) 13421774 (by norm_num)
    (by norm_num [abs_of_pos]) (by norm_num [abs_of_pos])
    (roundEven_unique _ _ (Or.inr ⟨Or.inr (by norm_num), by norm_num⟩))
  rw [h]
  norm_num

theorem tenth_step_four :
    f32 (6710887 / 33554432 - 13421773 / 134217728) = 13421775 / 134217728 := by
  have h := f32_eq (6710887 / 33554432 - 13421773 / 134217728) (-4) 13421775 (by norm_num)
    (by norm_num [abs_of_pos]) (by norm_num [abs_of_pos])
    (roundEven_unique _ _ (Or.inl ⟨by norm_num, by norm_num⟩))
  rw [h]
  norm_num

theorem tenth_step_five :
    f32 (13421775 / 134217728 - 13421773 / 134217728) = 1 / 67108864 := by
  have h := f32_eq (13421775 / 134217728 - 13421773 / 134217728) (-26) 8388608 (by norm_num)
    (by norm_num [abs_of_pos]) (by norm_num [abs_of_pos])
    (roundEven_unique _ _ (Or.inl ⟨by norm_num, by norm_num⟩))
  rw [h]
  norm_num

/-- The rounding of `speedTimer -= dt` at work: after the 0.5 s pad of `boostedState`,
five timer stages with `dt` = 0.1f (13421773 / 2^27, a little more than 0.1) have
`5 * dt ≥ 0.5`, yet the timer is `2^-26 > 0` and the multiplier still 1.25: three of the
five differences are rounded up. In exact arithmetic the modifier would be neutral. -/
theorem speedTimer32_outlasts_duration :
    (1 / 2 : ℚ) ≤ 5 * tickTenth.dt ∧
    (speedTimerStage32 tickTenth.dt (speedTimerStage32 tickTenth.dt
      (speedTimerStage32 tickTenth.dt (speedTimerStage32 tickTenth.dt
        (speedTimerStage32 tickTenth.dt boostedState))))).speedTimer = 1 / 67108864 ∧
    (speedTimerStage32 tickTenth.dt (speedTimerStage32 tickTenth.dt
      (speedTimerStage32 tickTenth.dt (speedTimerStage32 tickTenth.dt
        (speedTimerStage32 tickTenth.dt boostedState))))).speedMultiplierActive = 5 / 4 ∧
    (speedTimerStage tickTenth.dt (speedTimerStage tickTenth.dt
      (speedTimerStage tickTenth.dt (speedTimerStage tickTenth.dt
        (speedTimerStage tickTenth.dt boostedState))))).speedMultiplierActive = 1 := by
  have hdt : tickTenth.dt = 13421773 / 134217728 := rfl
  rw [hdt]
  have h1 := speedTimerStage32_running (13421773 / 134217728) (13421773 / 33554432)
    boostedState (by norm_num [boostedState]) tenth_step_one (by norm_num)
  have h2 := speedTimerStage32_running (13421773 / 134217728) (5033165 / 16777216) _
    (by rw [h1.1]; norm_num) (by rw [h1.1]; exact tenth_step_two) (by norm_num)
  have h3 := speedTimerStage32_running (13421773 / 134217728) (6710887 / 33554432) _
    (by rw [h2.1]; norm_num) (by rw [h2.1]; exact tenth_step_three) (by norm_num)
  have h4 := speedTimerStage32_running (13421773 / 134217728) (13421775 / 134217728) _
    (by rw [h3.1]; norm_num) (by rw [h3.1]; exact tenth_step_four) (by norm_num)
  have h5 := speedTimerStage32_running (13421773 / 134217728) (1 / 67108864) _
    (by rw [h4.1]; norm_num) (by rw [h4.1]; exact tenth_step_five) (by norm_num)
  refine ⟨by norm_num, h5.1, ?_, ?_⟩
  · rw [h5.2, h4.2, h3.2, h2.2, h1.2]
    rfl
  · simp [speedTimerStage, boostedState, State.init]
    norm_num

end NeonPulse
